import Mathlib

/-!
# Pixel Jumper: simulation core

A shallow embedding of the simulation layer of the platformer
(`js/CollisionSystem.js`, `js/PhysicsEngine.js`, `js/GameLoop.js`,
`js/entities/Player.js`, `js/entities/Platform.js`, `js/utils/Constants.js`)
and theorems about it.

Conventions of the embedding.

* JavaScript numbers are modelled by exact rationals `ℚ`. The rounding of
  IEEE doubles is modelled where it decides a discrete outcome, the two
  countdowns that compare an accumulated time with a threshold: there the
  update functions exist a second time with a rounding function as
  argument (`Platform.updateWith`, `Player.updateWith`), and
  `Float64.round` is the rounding of doubles.
* Objects mutated in place become values that are passed and returned.
* Particle lists, sounds, console output, drawing and the debug recorders are
  presentation only; they are left out of the state.
* `Math.sin` and `Date.now()` are inputs of the functions that read them.
-/

/-! ## Constants (`js/utils/Constants.js`) -/

namespace Constants

def GRAVITY : ℚ := 1 / 2
def PLAYER_SPEED : ℚ := 5
def PLAYER_JUMP_FORCE : ℚ := -15
def MAX_FALL_SPEED : ℚ := 20
def FRICTION : ℚ := 85 / 100
def AIR_FRICTION : ℚ := 98 / 100
def PLAYER_WIDTH : ℚ := 32
def PLAYER_HEIGHT : ℚ := 64
def PLAYER_MAX_HEALTH : ℤ := 3
def INVINCIBILITY_TIME : ℚ := 1000
def PLATFORM_WIDTH : ℚ := 128
def PLATFORM_HEIGHT : ℚ := 32

end Constants

/-! ## Data model -/

/-- Two-dimensional vector (`js/utils/Vector2.js`), used for positions and velocities. -/
structure Vector2 where
  x : ℚ
  y : ℚ
  deriving DecidableEq, Repr

/-- Axis-aligned rectangle as produced by `getCollisionRect`. -/
structure Rect where
  x : ℚ
  y : ℚ
  width : ℚ
  height : ℚ
  deriving DecidableEq, Repr

/-- Collision side reported by `checkCollision`. -/
inductive Side where
  | left
  | right
  | top
  | bottom
  deriving DecidableEq, Repr

/-- Result object of `CollisionSystem.checkCollision`; `side` is `null` when nothing collided. -/
structure CollisionInfo where
  collided : Bool
  side : Option Side
  penetration : Vector2
  deriving DecidableEq, Repr

/-- Object handled by `CollisionSystem.resolveRectCollision`: a rectangle with an optional
velocity field. -/
structure Body where
  x : ℚ
  y : ℚ
  width : ℚ
  height : ℚ
  velocity : Option Vector2
  deriving DecidableEq, Repr

/-- Rectangle occupied by a body. -/
def Body.rect (b : Body) : Rect :=
  { x := b.x, y := b.y, width := b.width, height := b.height }

/-! ## Collision detection (`js/CollisionSystem.js`) -/

namespace CollisionSystem

/-- Signed overlap along one axis, `calculateOverlap(pos1, size1, pos2, size2)`. -/
def calculateOverlap (pos1 size1 pos2 size2 : ℚ) : ℚ :=
  let center1 := pos1 + size1 / 2
  let center2 := pos2 + size2 / 2
  let diff := center2 - center1
  let minDistance := (size1 + size2) / 2
  if abs diff < minDistance then
    (if diff > 0 then minDistance - diff else -minDistance - diff)
  else 0

/-- Rectangle against rectangle test, `checkCollision(rect1, rect2)`. -/
def checkCollision (rect1 rect2 : Rect) : CollisionInfo :=
  let collisionX : Bool :=
    decide (rect1.x < rect2.x + rect2.width) && decide (rect1.x + rect1.width > rect2.x)
  let collisionY : Bool :=
    decide (rect1.y < rect2.y + rect2.height) && decide (rect1.y + rect1.height > rect2.y)
  if !collisionX || !collisionY then
    { collided := false, side := none, penetration := { x := 0, y := 0 } }
  else
    let overlapX := calculateOverlap rect1.x rect1.width rect2.x rect2.width
    let overlapY := calculateOverlap rect1.y rect1.height rect2.y rect2.height
    let side : Side :=
      if abs overlapX < abs overlapY then
        (if overlapX < 0 then Side.left else Side.right)
      else
        (if overlapY < 0 then Side.top else Side.bottom)
    { collided := true, side := some side, penetration := { x := overlapX, y := overlapY } }

/-- Positional correction of `resolveRectCollision(obj1, obj2, collisionInfo)`; only `obj1`
is changed. A `null` side matches no case of the switch. -/
def resolveRectCollision (obj1 : Body) (collisionInfo : CollisionInfo) : Body :=
  let penetration := collisionInfo.penetration
  let stopX : Option Vector2 := obj1.velocity.map (fun v => { v with x := 0 })
  let stopY : Option Vector2 := obj1.velocity.map (fun v => { v with y := 0 })
  match collisionInfo.side with
  | some Side.left => { obj1 with x := obj1.x - penetration.x, velocity := stopX }
  | some Side.right => { obj1 with x := obj1.x + penetration.x, velocity := stopX }
  | some Side.top => { obj1 with y := obj1.y - penetration.y, velocity := stopY }
  | some Side.bottom => { obj1 with y := obj1.y + penetration.y, velocity := stopY }
  | none => obj1

end CollisionSystem

/-! ## Input (`js/InputHandler.js`, the part read by the player) -/

/-- Key flags read by `getHorizontalInput` and `isJumpPressed`. -/
structure InputHandler where
  left : Bool
  right : Bool
  swipeLeft : Bool
  swipeRight : Bool
  jumpPressed : Bool
  swipeUp : Bool
  deriving DecidableEq, Repr

namespace InputHandler

/-- The handler with no key held. -/
def idle : InputHandler :=
  { left := false, right := false, swipeLeft := false, swipeRight := false,
    jumpPressed := false, swipeUp := false }

/-- Horizontal direction, `getHorizontalInput()`: -1, 0 or 1. -/
def getHorizontalInput (i : InputHandler) : ℚ :=
  if i.left || i.swipeLeft then -1
  else if i.right || i.swipeRight then 1
  else 0

/-- Jump request, `isJumpPressed()`. -/
def isJumpPressed (i : InputHandler) : Bool :=
  i.jumpPressed || i.swipeUp

end InputHandler

/-! ## Player (`js/entities/Player.js`) -/

/-- Cached edges kept in the `bounds` field of players and platforms. -/
structure Bounds where
  top : ℚ
  bottom : ℚ
  left : ℚ
  right : ℚ
  deriving DecidableEq, Repr

/-- Animation names used by the player. -/
inductive Animation where
  | idle
  | run
  deriving DecidableEq, Repr

/-- State of the player object. -/
structure Player where
  position : Vector2
  width : ℚ
  height : ℚ
  velocity : Vector2
  isOnGround : Bool
  isJumping : Bool
  isFacingRight : Bool
  isInvincible : Bool
  invincibilityTimer : ℚ
  lives : ℤ
  score : ℤ
  animationFrame : ℕ
  animationTimer : ℚ
  animationSpeed : ℚ
  currentAnimation : Animation
  speed : ℚ
  jumpForce : ℚ
  gravity : ℚ
  maxFallSpeed : ℚ
  bounds : Bounds
  deriving DecidableEq, Repr

namespace Player

/-- Constructor `new Player(x, y)`. -/
def create (x y : ℚ) : Player :=
  { position := { x := x, y := y }
    width := Constants.PLAYER_WIDTH
    height := Constants.PLAYER_HEIGHT
    velocity := { x := 0, y := 0 }
    isOnGround := false
    isJumping := false
    isFacingRight := true
    isInvincible := false
    invincibilityTimer := 0
    lives := Constants.PLAYER_MAX_HEALTH
    score := 0
    animationFrame := 0
    animationTimer := 0
    animationSpeed := 1 / 10
    currentAnimation := Animation.idle
    speed := Constants.PLAYER_SPEED
    jumpForce := Constants.PLAYER_JUMP_FORCE
    gravity := Constants.GRAVITY
    maxFallSpeed := Constants.MAX_FALL_SPEED
    bounds := { top := y, bottom := y + Constants.PLAYER_HEIGHT, left := x,
                right := x + Constants.PLAYER_WIDTH } }

/-- Rectangle used for collisions, `getCollisionRect()`. -/
def getCollisionRect (p : Player) : Rect :=
  { x := p.position.x, y := p.position.y, width := p.width, height := p.height }

/-- Jump, `jump()`. -/
def jump (p : Player) : Player :=
  { p with velocity := { p.velocity with y := p.jumpForce }, isOnGround := false,
           isJumping := true }

/-- Input handling, `handleInput(input)`. -/
def handleInput (input : InputHandler) (p : Player) : Player :=
  let horizontalInput := input.getHorizontalInput
  let p1 : Player :=
    if horizontalInput ≠ 0 then
      { p with velocity := { p.velocity with x := horizontalInput * p.speed },
               isFacingRight := decide (horizontalInput > 0),
               currentAnimation := Animation.run }
    else
      let vx := p.velocity.x * Constants.FRICTION
      { p with velocity := { p.velocity with x := if abs vx < 1 / 10 then 0 else vx },
               currentAnimation := Animation.idle }
  if input.isJumpPressed && p1.isOnGround then jump p1 else p1

/-- Integration step, `applyPhysics(deltaTime, physics)`; the `physics` argument is not read. -/
def applyPhysics (deltaTime : ℚ) (p : Player) : Player :=
  let vy : ℚ := if !p.isOnGround then min (p.velocity.y + p.gravity) p.maxFallSpeed else 0
  { p with velocity := { p.velocity with y := vy },
           position := { x := p.position.x + p.velocity.x * deltaTime,
                         y := p.position.y + vy * deltaTime },
           isOnGround := false }

/-- Frame counts of `Constants.ANIMATION_FRAMES` for the player animations. -/
def maxFrames : Animation → ℕ
  | Animation.idle => 2
  | Animation.run => 4

/-- Animation clock, `updateAnimation(deltaTime)`. -/
def updateAnimation (deltaTime : ℚ) (p : Player) : Player :=
  let timer := p.animationTimer + deltaTime
  if timer ≥ p.animationSpeed then
    let frame := p.animationFrame + 1
    { p with animationTimer := 0,
             animationFrame := if frame ≥ maxFrames p.currentAnimation then 0 else frame }
  else
    { p with animationTimer := timer }

/-- Refresh of the cached edges, `updateBounds()`. -/
def updateBounds (p : Player) : Player :=
  { p with bounds := { top := p.position.y, bottom := p.position.y + p.height,
                       left := p.position.x, right := p.position.x + p.width } }

/-- First block of `update`: the invincibility countdown, in exact arithmetic
(`updateTimersWith` has the rounding). -/
def updateTimers (deltaTime : ℚ) (p : Player) : Player :=
  if p.isInvincible then
    let t := p.invincibilityTimer - deltaTime
    { p with invincibilityTimer := t, isInvincible := if t ≤ 0 then false else true }
  else p

/-- Last block of `update`: a player above `minY = -100` is put back on that line with zero
vertical velocity. -/
def clampMinY (p : Player) : Player :=
  let minY : ℚ := -100
  if p.position.y < minY then
    { p with position := { p.position with y := minY },
             velocity := { p.velocity with y := 0 } }
  else p

/-- Per-tick update, `update(deltaTime, input, physics)`: timers, input, physics, animation,
cached bounds and the `minY` clamp, in this order. -/
def update (deltaTime : ℚ) (input : InputHandler) (p : Player) : Player :=
  clampMinY (updateBounds (updateAnimation deltaTime (applyPhysics deltaTime
    (handleInput input (updateTimers deltaTime p)))))

/-- Damage intake, `takeDamage(damage)`: the new state and the returned "died" flag. -/
def takeDamage (damage : ℤ) (p : Player) : Player × Bool :=
  if p.isInvincible then (p, false)
  else
    let lives := p.lives - damage
    ({ p with lives := lives, isInvincible := true,
              invincibilityTimer := Constants.INVINCIBILITY_TIME }, decide (lives ≤ 0))

/-- Respawn, `reset(x, y)`. -/
def reset (x y : ℚ) (p : Player) : Player :=
  updateBounds
    { p with position := { x := x, y := y }, velocity := { x := 0, y := 0 },
             lives := Constants.PLAYER_MAX_HEALTH, isOnGround := false, isJumping := false,
             isInvincible := false, invincibilityTimer := 0 }

/-- Liveness test, `isAlive()`. -/
def isAlive (p : Player) : Bool :=
  decide (p.lives > 0)

end Player

/-! ## Platform (`js/entities/Platform.js`) -/

/-- Platform variants accepted by the constructor. -/
inductive PlatformType where
  | normal
  | moving
  | breakable
  | jumpBoost
  deriving DecidableEq, Repr

/-- State of a platform object. -/
structure Platform where
  position : Vector2
  width : ℚ
  height : ℚ
  type : PlatformType
  isMoving : Bool
  moveSpeed : ℚ
  moveDirection : ℚ
  moveDistance : ℚ
  originalX : ℚ
  isBreakable : Bool
  isBreaking : Bool
  breakTimer : ℚ
  breakDuration : ℚ
  breakProgress : ℚ
  isJumpBoost : Bool
  jumpBoostForce : ℚ
  animationTimer : ℚ
  animationSpeed : ℚ
  bounds : Bounds
  deriving DecidableEq, Repr

namespace Platform

/-- Constructor `new Platform(x, y, width, height, type)`. -/
def create (x y width height : ℚ) (type : PlatformType) : Platform :=
  { position := { x := x, y := y }
    width := width
    height := height
    type := type
    isMoving := decide (type = PlatformType.moving)
    moveSpeed := if type = PlatformType.moving then 2 else 0
    moveDirection := 1
    moveDistance := 100
    originalX := x
    isBreakable := decide (type = PlatformType.breakable)
    isBreaking := false
    breakTimer := 0
    breakDuration := 1000
    breakProgress := 0
    isJumpBoost := decide (type = PlatformType.jumpBoost)
    jumpBoostForce := -18
    animationTimer := 0
    animationSpeed := 5 / 100
    bounds := { top := y, bottom := y + height, left := x, right := x + width } }

/-- Rectangle used for collisions, `getCollisionRect()`. -/
def getCollisionRect (p : Platform) : Rect :=
  { x := p.position.x, y := p.position.y, width := p.width, height := p.height }

/-- Oscillation of a moving platform, `updateMovement(deltaTime)`. -/
def updateMovement (deltaTime : ℚ) (p : Platform) : Platform :=
  let x := p.position.x + p.moveSpeed * p.moveDirection * deltaTime
  if x > p.originalX + p.moveDistance then
    { p with position := { p.position with x := p.originalX + p.moveDistance },
             moveDirection := -1 }
  else if x < p.originalX - p.moveDistance then
    { p with position := { p.position with x := p.originalX - p.moveDistance },
             moveDirection := 1 }
  else
    { p with position := { p.position with x := x } }

/-- Break countdown, `updateBreaking(deltaTime)`, in exact arithmetic
(`updateBreakingWith` has the rounding). The shake reads the wall clock: `sin` stands
for `Math.sin` and `now` for the value of `Date.now()` at the call. The quotient is the
JavaScript one for a non-zero `breakDuration` (the constructor sets 1000). -/
def updateBreaking (sin : ℚ → ℚ) (now : ℚ) (deltaTime : ℚ) (p : Platform) : Platform :=
  let breakTimer := p.breakTimer + deltaTime
  let breakProgress := breakTimer / p.breakDuration
  let p1 : Platform := { p with breakTimer := breakTimer, breakProgress := breakProgress }
  let p2 : Platform :=
    if breakProgress < 1 then
      let shakeIntensity := 1 - breakProgress
      let shakeX := sin (now / 50) * 2 * shakeIntensity
      { p1 with position := { p1.position with x := p1.originalX + shakeX } }
    else p1
  if breakProgress ≥ 1 then { p2 with width := 0, height := 0 } else p2

/-- Start of the break countdown, `startBreaking()`. -/
def startBreaking (p : Platform) : Platform :=
  if p.isBreakable && !p.isBreaking then
    { p with isBreaking := true, originalX := p.position.x, breakTimer := 0,
             breakProgress := 0 }
  else p

/-- Refresh of the cached edges, `updateBounds()`. -/
def updateBounds (p : Platform) : Platform :=
  { p with bounds := { top := p.position.y, bottom := p.position.y + p.height,
                       left := p.position.x, right := p.position.x + p.width } }

/-- Per-tick update, `update(deltaTime)`, executed when `Date.now()` reads `now`. -/
def update (sin : ℚ → ℚ) (now : ℚ) (deltaTime : ℚ) (p : Platform) : Platform :=
  let p1 : Platform := { p with animationTimer := p.animationTimer + deltaTime }
  let p2 := if p1.isMoving then updateMovement deltaTime p1 else p1
  let p3 := if p2.isBreakable && p2.isBreaking then updateBreaking sin now deltaTime p2 else p2
  updateBounds p3

end Platform

/-! ## Physics (`js/PhysicsEngine.js`) -/

namespace PhysicsEngine

/-- Positional resolution, `resolveCollision(player, platform, side)`. -/
def resolveCollision (player : Player) (platform : Platform) (side : Side) : Player :=
  match side with
  | Side.top =>
    { player with position := { player.position with y := platform.position.y - player.height },
                  velocity := { player.velocity with y := 0 },
                  isOnGround := true, isJumping := false }
  | Side.bottom =>
    { player with position := { player.position with y := platform.position.y + platform.height },
                  velocity := { player.velocity with y := 0 } }
  | Side.left =>
    { player with position := { player.position with x := platform.position.x - player.width },
                  velocity := { player.velocity with x := 0 } }
  | Side.right =>
    { player with position := { player.position with x := platform.position.x + platform.width },
                  velocity := { player.velocity with x := 0 } }

/-- Variant side effects, `handlePlatformEffects(player, platform, side)`. -/
def handlePlatformEffects (player : Player) (platform : Platform) (side : Side) :
    Player × Platform :=
  if side = Side.top then
    let player1 : Player :=
      if platform.isJumpBoost then
        { player with velocity := { player.velocity with y := platform.jumpBoostForce },
                      isOnGround := false, isJumping := true }
      else player
    let platform1 := if platform.isBreakable then platform.startBreaking else platform
    (player1, platform1)
  else (player, platform)

/-- Landing hook, `handleLanding(player)`. The branch `velocity.y > 10` dereferences
`player.game`, a field no player has, so the call throws there: `none`. -/
def handleLanding (player : Player) : Option Player :=
  if player.velocity.y > 10 then none else some player

/-- Body of the platform loop of `handleCollisions` for one platform. -/
def collideWith (player : Player) (platform : Platform) : Player × Platform :=
  if platform.width = 0 ∨ platform.height = 0 then (player, platform)
  else
    let collision := CollisionSystem.checkCollision player.getCollisionRect
      platform.getCollisionRect
    if collision.collided then
      match collision.side with
      | some side =>
        handlePlatformEffects (resolveCollision player platform side) platform side
      | none => (player, platform)
    else (player, platform)

/-- The platform loop of `handleCollisions`, in list order. -/
def collideAll : Player → List Platform → Player × List Platform
  | player, [] => (player, [])
  | player, platform :: rest =>
    let step := collideWith player platform
    let tail := collideAll step.1 rest
    (tail.1, step.2 :: tail.2)

/-- Collision pass of a tick, `handleCollisions(player, platforms, collisionSystem)`: the new
player and platforms, or `none` when `handleLanding` throws. -/
def handleCollisions (player : Player) (platforms : List Platform) :
    Option (Player × List Platform) :=
  let playerWasOnGround := player.isOnGround
  let looped := collideAll { player with isOnGround := false } platforms
  if !playerWasOnGround && looped.1.isOnGround then
    (handleLanding looped.1).map (fun landed => (landed, looped.2))
  else some looped

end PhysicsEngine

/-! ## Fixed-timestep loop (`js/GameLoop.js`) -/

/-- Timing state of the game loop. The frame statistics are diagnostics and are not kept. -/
structure GameLoop where
  lastTime : ℚ
  accumulatedTime : ℚ
  timeStep : ℚ
  frameCount : ℕ
  fps : ℕ
  fpsTimer : ℚ
  isRunning : Bool
  isPaused : Bool
  deriving DecidableEq, Repr

/-- The game object driven by the loop: its `update(deltaTime)` and `render()` methods acting
on a game state `G`. -/
structure GameHooks (G : Type) where
  update : ℚ → G → G
  render : G → G

namespace GameLoop

/-- Constructor `new GameLoop(game)`. -/
def create : GameLoop :=
  { lastTime := 0, accumulatedTime := 0, timeStep := 1000 / 60, frameCount := 0, fps := 60,
    fpsTimer := 0, isRunning := false, isPaused := false }

/-- Start, `start()`, when `performance.now()` reads `now`; a running loop is left as is. -/
def start (now : ℚ) (l : GameLoop) : GameLoop :=
  if l.isRunning then l
  else { l with isRunning := true, isPaused := false, lastTime := now }

/-- Stop, `stop()`. -/
def stop (l : GameLoop) : GameLoop :=
  { l with isRunning := false, isPaused := false }

/-- Pause, `pause()`. -/
def pause (l : GameLoop) : GameLoop :=
  { l with isPaused := true }

/-- Resume, `resume()`, when `performance.now()` reads `now`. -/
def resume (now : ℚ) (l : GameLoop) : GameLoop :=
  { l with isPaused := false, lastTime := now }

/-- Frame counter bookkeeping, `updateFPS(deltaTime)`. -/
def updateFPS (deltaTime : ℚ) (l : GameLoop) : GameLoop :=
  let fpsTimer := l.fpsTimer + deltaTime
  if fpsTimer ≥ 1000 then { l with fps := l.frameCount, frameCount := 0, fpsTimer := 0 }
  else { l with fpsTimer := fpsTimer }

/-- The `while (accumulatedTime >= timeStep)` loop of `loop`: each pass calls
`game.update(timeStep)` and subtracts one step. `fuel` bounds the number of condition tests;
`none` means the bound was reached before the condition failed. -/
def drain {G : Type} (game : GameHooks G) (timeStep : ℚ) :
    ℕ → ℚ → G → Option (ℚ × G)
  | 0, _, _ => none
  | fuel + 1, accumulatedTime, g =>
    if accumulatedTime ≥ timeStep then
      drain game timeStep fuel (accumulatedTime - timeStep) (game.update timeStep g)
    else some (accumulatedTime, g)

/-- One frame callback, `loop(currentTime)`. -/
def loop {G : Type} (game : GameHooks G) (fuel : ℕ) (currentTime : ℚ) (l : GameLoop) (g : G) :
    Option (GameLoop × G) :=
  if !l.isRunning then some (l, g)
  else if l.isPaused then some (l, g)
  else
    let deltaTime := currentTime - l.lastTime
    let l1 : GameLoop := { l with lastTime := currentTime }
    let clampedDeltaTime := min deltaTime 100
    let l2 := updateFPS clampedDeltaTime l1
    let l3 : GameLoop := { l2 with accumulatedTime := l2.accumulatedTime + clampedDeltaTime }
    (drain game l3.timeStep fuel l3.accumulatedTime g).map (fun r =>
      ({ l3 with accumulatedTime := r.1, frameCount := l3.frameCount + 1 }, game.render r.2))

/-- A game that only records the argument of every `update` call, newest first. -/
def recorder : GameHooks (List ℚ) :=
  { update := fun deltaTime calls => deltaTime :: calls, render := fun calls => calls }

end GameLoop

/-! ## Auxiliary definitions for the statements -/

/-- Rational stand-in for `Math.sin` used to evaluate concrete runs: the Taylor polynomial of
degree seven, within `3e-6` of the sine on `[0, 1]`. -/
def sinTaylor (t : ℚ) : ℚ :=
  t - t ^ 3 / 6 + t ^ 5 / 120 - t ^ 7 / 5040

/-- One simulation tick of the player as ordered in `Game.updatePlaying`: `Player.update`
followed by `PhysicsEngine.handleCollisions`. -/
def playerTick (deltaTime : ℚ) (input : InputHandler) (player : Player)
    (platforms : List Platform) : Option (Player × List Platform) :=
  PhysicsEngine.handleCollisions (player.update deltaTime input) platforms

/-- A run of `Platform.update` calls: each frame gives the wall-clock reading of `Date.now()`
during the call and the step passed to it. -/
def Platform.run (sin : ℚ → ℚ) : List (ℚ × ℚ) → Platform → Platform
  | [], p => p
  | frame :: rest, p => Platform.run sin rest (p.update sin frame.1 frame.2)

/-- A platform state with the horizontal position and the cached horizontal edges blanked. -/
def Platform.eraseX (p : Platform) : Platform :=
  { p with position := { p.position with x := 0 },
           bounds := { p.bounds with left := 0, right := 0 } }

/-- Guard of the landing hook at the end of `handleCollisions`: `handleLanding(player)` is
called exactly when the player was not grounded on entry and is grounded after the platform
loop. -/
def PhysicsEngine.landingInvoked (player : Player) (platforms : List Platform) : Bool :=
  !player.isOnGround &&
    (PhysicsEngine.collideAll { player with isOnGround := false } platforms).1.isOnGround

/-- Test of the `continue` in the platform loops: a platform of width 0 or height 0. -/
def Platform.isRemoved (p : Platform) : Bool :=
  decide (p.width = 0 ∨ p.height = 0)

/-- Fields of a level descriptor read by the fall check of `Game.updatePlaying`
(`js/managers/LevelManager.js`). -/
structure Level where
  height : ℚ
  startPosition : Vector2
  deriving DecidableEq, Repr

/-- Player block of `Game.updatePlaying` that follows `player.update` (`js/Game.js`): the death
check and the fall check. `level` is the value of `getCurrentLevel()`. Returns the player and
whether `gameOver` was called, in which case `updatePlaying` returns at once. -/
def Game.checkPlayer (level : Option Level) (player : Player) : Player × Bool :=
  if !player.isAlive then (player, true)
  else
    match level with
    | none => (player, false)
    | some level =>
      let fallThreshold := level.height + 100
      if player.position.y > fallThreshold then
        let damaged := player.takeDamage 1
        if damaged.2 then (damaged.1, true)
        else
          let respawned := damaged.1.reset level.startPosition.x level.startPosition.y
          ({ respawned with isInvincible := true, invincibilityTimer := 2000 }, false)
      else (player, false)

/-- A call made on a platform: `update(deltaTime)` executed when `Date.now()` reads `now`, or
`startBreaking()`. -/
inductive PlatformOp where
  | update (now deltaTime : ℚ)
  | startBreaking
  deriving DecidableEq, Repr

/-- Simulation time a call adds: the step of an update, nothing for `startBreaking`. -/
def PlatformOp.step : PlatformOp → ℚ
  | PlatformOp.update _ deltaTime => deltaTime
  | PlatformOp.startBreaking => 0

/-- Total simulation time of a sequence of calls. -/
def PlatformOp.total : List PlatformOp → ℚ
  | [] => 0
  | op :: rest => op.step + PlatformOp.total rest

/-- A sequence of calls applied to a platform, first call first. -/
def Platform.applyOps (sin : ℚ → ℚ) : List PlatformOp → Platform → Platform
  | [], p => p
  | PlatformOp.update now deltaTime :: rest, p =>
    Platform.applyOps sin rest (p.update sin now deltaTime)
  | PlatformOp.startBreaking :: rest, p => Platform.applyOps sin rest p.startBreaking

/-- A sequence of `Player.update` calls, each with its step and input, first call first. -/
def Player.run : List (ℚ × InputHandler) → Player → Player
  | [], p => p
  | frame :: rest, p => Player.run rest (p.update frame.1 frame.2)

/-- Sum of the steps of a sequence of `Player.update` calls. -/
def Player.elapsed : List (ℚ × InputHandler) → ℚ
  | [] => 0
  | frame :: rest => frame.1 + Player.elapsed rest

/-- Invariant of the invincibility window: the flag is set only while the countdown is
positive. -/
def Player.invincibilityInvariant (p : Player) : Prop :=
  p.isInvincible = true → 0 < p.invincibilityTimer

/-! ## Further definitions: player calls, ground probe, entity integration -/

/-- A call made on a player: `takeDamage(damage)`, `update(deltaTime, input, physics)` or
`reset(x, y)`. -/
inductive PlayerOp where
  | takeDamage (damage : ℤ)
  | update (deltaTime : ℚ) (input : InputHandler)
  | reset (x y : ℚ)
  deriving DecidableEq, Repr

/-- The player after one call. -/
def Player.applyOp : PlayerOp → Player → Player
  | PlayerOp.takeDamage damage, p => (p.takeDamage damage).1
  | PlayerOp.update deltaTime input, p => p.update deltaTime input
  | PlayerOp.reset x y, p => p.reset x y

/-- The player after a sequence of calls, first call first. -/
def Player.applyOps : List PlayerOp → Player → Player
  | [], p => p
  | op :: rest, p => Player.applyOps rest (p.applyOp op)

/-- Every call of the sequence has a positive damage argument where it has one. -/
def PlayerOp.positiveDamage : PlayerOp → Bool
  | PlayerOp.takeDamage damage => decide (0 < damage)
  | _ => true

/-- Every `takeDamage` call of the sequence that takes effect (the player is not invincible at
the call) asks for no more than the lives the player has at that moment. -/
def Player.damageWithinLives : List PlayerOp → Player → Bool
  | [], _ => true
  | op :: rest, p =>
    (match op with
      | PlayerOp.takeDamage damage => p.isInvincible || decide (damage ≤ p.lives)
      | _ => true) &&
    Player.damageWithinLives rest (p.applyOp op)

/-- Truthiness of the object returned by `checkCollision` when it is used as a condition: a
JavaScript object is truthy whatever its fields hold. -/
def CollisionInfo.truthy (_ : CollisionInfo) : Bool := true

/-- The loop of `PhysicsEngine.checkGround` over the platforms, for the probe rectangle
`feetCheck`. The condition of its `if` is the object returned by `checkCollision`. -/
def PhysicsEngine.checkGroundLoop (feetCheck : Rect) : List Platform → Bool
  | [] => false
  | platform :: rest =>
    if platform.width = 0 ∨ platform.height = 0 then PhysicsEngine.checkGroundLoop feetCheck rest
    else if (CollisionSystem.checkCollision feetCheck platform.getCollisionRect).truthy then true
    else PhysicsEngine.checkGroundLoop feetCheck rest

/-- Probe rectangle of `checkGround`: two pixels high, directly below the player. -/
def PhysicsEngine.feetCheck (player : Player) : Rect :=
  { x := player.position.x, y := player.position.y + player.height, width := player.width,
    height := 2 }

/-- Ground probe, `checkGround(player, platforms, collisionSystem)`. -/
def PhysicsEngine.checkGround (player : Player) (platforms : List Platform) : Bool :=
  PhysicsEngine.checkGroundLoop (PhysicsEngine.feetCheck player) platforms

/-- Entity integrated by `PhysicsEngine.updateEntity`: the fields the method reads and
writes. -/
structure Entity where
  position : Vector2
  velocity : Vector2
  isOnGround : Bool
  deriving DecidableEq, Repr

/-- Settings held by a `PhysicsEngine` object. -/
structure PhysicsSettings where
  gravity : ℚ
  airResistance : ℚ
  groundFriction : ℚ
  maxFallSpeed : ℚ
  deriving DecidableEq, Repr

/-- Settings set by the constructor of `PhysicsEngine`. -/
def PhysicsSettings.create : PhysicsSettings :=
  { gravity := Constants.GRAVITY, airResistance := Constants.AIR_FRICTION,
    groundFriction := Constants.FRICTION, maxFallSpeed := Constants.MAX_FALL_SPEED }

/-- Integration step, `updateEntity(entity, deltaTime)`; `pow` stands for `Math.pow`. -/
def PhysicsEngine.updateEntity (pow : ℚ → ℚ → ℚ) (engine : PhysicsSettings) (entity : Entity)
    (deltaTime : ℚ) : Entity :=
  let vy : ℚ :=
    if !entity.isOnGround then
      (if entity.velocity.y + engine.gravity * deltaTime > engine.maxFallSpeed
        then engine.maxFallSpeed else entity.velocity.y + engine.gravity * deltaTime)
    else entity.velocity.y
  let vxAir : ℚ := entity.velocity.x * pow engine.airResistance deltaTime
  let vx : ℚ :=
    if entity.isOnGround then
      (if abs (vxAir * pow engine.groundFriction deltaTime) < 1 / 10 then 0
        else vxAir * pow engine.groundFriction deltaTime)
    else vxAir
  { entity with velocity := { x := vx, y := vy },
                position := { x := entity.position.x + vx * deltaTime,
                              y := entity.position.y + vy * deltaTime } }

/-- Stand-in for `Math.pow` used to evaluate concrete runs: exact for exponents that are
non-negative integers, where it is repeated multiplication. -/
def powFloor (base exponent : ℚ) : ℚ :=
  base ^ (Int.toNat (Int.floor exponent))

/-! ## Circle geometry (`js/CollisionSystem.js`, `js/utils/Helpers.js`)

These functions take a square root. They are written over any linearly ordered field `R`, with
`sqrt` standing for `Math.sqrt`; the theorems state what they need of `sqrt`. -/

/-- Circle `{x, y, radius}`. -/
structure CircleOf (R : Type) where
  x : R
  y : R
  radius : R

/-- Rectangle `{x, y, width, height}` over the number type `R`. -/
structure RectOf (R : Type) where
  x : R
  y : R
  width : R
  height : R

/-- A rational rectangle as a rectangle over `ℚ`. -/
def Rect.toRectOf (r : Rect) : RectOf ℚ :=
  { x := r.x, y := r.y, width := r.width, height := r.height }

/-- Side reported by `checkCircleRectCollision`. -/
inductive CircleSide where
  | left
  | right
  | top
  | bottom
  | inside
  deriving DecidableEq, Repr

/-- Result object of `checkCircleRectCollision`; `distance` and `closestPoint` are present only
on a hit. -/
structure CircleRectInfo (R : Type) where
  collided : Bool
  side : Option CircleSide
  penetration : R
  distance : Option R
  closestPoint : Option (R × R)

/-- Result object of `checkCircleCircleCollision`; `distance` is present only on a hit. -/
structure CircleCircleInfo (R : Type) where
  collided : Bool
  penetration : R
  normal : R × R
  distance : Option R

namespace Helpers

/-- Clamp, `Helpers.clamp(value, min, max)`. -/
def clamp {R : Type} [LinearOrderedField R] (value lo hi : R) : R :=
  max lo (min hi value)

/-- Euclidean distance, `Helpers.distance(x1, y1, x2, y2)`. -/
def distance {R : Type} [LinearOrderedField R] (sqrt : R → R) (x1 y1 x2 y2 : R) : R :=
  sqrt ((x2 - x1) * (x2 - x1) + (y2 - y1) * (y2 - y1))

/-- Circle against rectangle, `Helpers.circleRectIntersect(circle, rect)`. -/
def circleRectIntersect {R : Type} [LinearOrderedField R] (sqrt : R → R) (circle : CircleOf R)
    (rect : RectOf R) : Bool :=
  let closestX := clamp circle.x rect.x (rect.x + rect.width)
  let closestY := clamp circle.y rect.y (rect.y + rect.height)
  decide (distance sqrt circle.x circle.y closestX closestY ≤ circle.radius)

end Helpers

namespace CollisionSystem

/-- Circle against rectangle, `checkCircleRectCollision(circle, rect)`. -/
def checkCircleRectCollision {R : Type} [LinearOrderedField R] (sqrt : R → R)
    (circle : CircleOf R) (rect : RectOf R) : CircleRectInfo R :=
  let closestX := Helpers.clamp circle.x rect.x (rect.x + rect.width)
  let closestY := Helpers.clamp circle.y rect.y (rect.y + rect.height)
  let distanceX := circle.x - closestX
  let distanceY := circle.y - closestY
  let distanceSquared := distanceX * distanceX + distanceY * distanceY
  if distanceSquared > circle.radius * circle.radius then
    { collided := false, side := none, penetration := 0, distance := none,
      closestPoint := none }
  else
    let distance := sqrt distanceSquared
    let penetration := circle.radius - distance
    let side : CircleSide :=
      if closestX = rect.x then CircleSide.left
      else if closestX = rect.x + rect.width then CircleSide.right
      else if closestY = rect.y then CircleSide.top
      else if closestY = rect.y + rect.height then CircleSide.bottom
      else CircleSide.inside
    { collided := true, side := some side, penetration := penetration,
      distance := some distance, closestPoint := some (closestX, closestY) }

/-- Circle against circle, `checkCircleCircleCollision(circle1, circle2)`. -/
def checkCircleCircleCollision {R : Type} [LinearOrderedField R] (sqrt : R → R)
    (circle1 circle2 : CircleOf R) : CircleCircleInfo R :=
  let dx := circle2.x - circle1.x
  let dy := circle2.y - circle1.y
  let distance := sqrt (dx * dx + dy * dy)
  let radiusSum := circle1.radius + circle2.radius
  if distance > radiusSum then
    { collided := false, penetration := 0, normal := (0, 0), distance := none }
  else
    let normal : R × R := if distance > 0 then (dx / distance, dy / distance) else (1, 0)
    { collided := true, penetration := radiusSum - distance, normal := normal,
      distance := some distance }

/-- Point in closed rectangle, `isPointInRect(x, y, rect)`. -/
def isPointInRect {R : Type} [LinearOrderedField R] (x y : R) (rect : RectOf R) : Bool :=
  decide (x ≥ rect.x) && decide (x ≤ rect.x + rect.width) &&
    decide (y ≥ rect.y) && decide (y ≤ rect.y + rect.height)

/-- Sampled line of sight, `checkLineOfSight(x1, y1, x2, y2, obstacles)`. The two nested loops
return false at the first sample inside an obstacle; `Int.ceil` is `Math.ceil`. -/
def checkLineOfSight {R : Type} [LinearOrderedField R] [FloorRing R] (sqrt : R → R)
    (x1 y1 x2 y2 : R) (obstacles : List (RectOf R)) : Bool :=
  if obstacles.length = 0 then true
  else
    let dx := x2 - x1
    let dy := y2 - y1
    let length := sqrt (dx * dx + dy * dy)
    if length = 0 then true
    else
      let stepX := dx / length
      let stepY := dy / length
      let steps := Int.ceil length
      !((List.range steps.toNat).any (fun i =>
          obstacles.any (fun obstacle =>
            isPointInRect (x1 + stepX * (i : R)) (y1 + stepY * (i : R)) obstacle)))

end CollisionSystem


/-! ## Coins (`js/entities/Coin.js`, the coin loop of `Game.updatePlaying`)

Colours and drawing are left out. The random particles that `createSparkle` and
`createCollectionParticles` push are arguments of the functions that call them. -/

namespace Constants

def COIN_RADIUS : ℚ := 16
def COIN_VALUE : ℤ := 10
def COIN_ANIMATION_SPEED : ℚ := 1 / 10

end Constants

/-- Particle object pushed by the coin effects. -/
structure Particle where
  x : ℚ
  y : ℚ
  vx : ℚ
  vy : ℚ
  radius : ℚ
  life : ℚ
  decay : ℚ
  deriving DecidableEq, Repr

/-- Particle step, `Helpers.updateParticles(particles, deltaTime)`: every particle moves and
ages, and the ones whose life is used up are spliced out. -/
def Helpers.updateParticles (particles : List Particle) (deltaTime : ℚ) : List Particle :=
  (particles.map (fun p =>
    { p with x := p.x + p.vx * deltaTime, y := p.y + p.vy * deltaTime,
             life := p.life - p.decay * deltaTime })).filter (fun p => !decide (p.life ≤ 0))

/-- Fields of a `Coin`. -/
structure Coin where
  position : Vector2
  radius : ℚ
  value : ℤ
  isCollected : Bool
  collectionTime : ℚ
  rotation : ℚ
  bobOffset : ℚ
  bobSpeed : ℚ
  bobAmount : ℚ
  animationTimer : ℚ
  animationSpeed : ℚ
  particles : List Particle
  sparkleTimer : ℚ
  sparkleInterval : ℚ
  deriving DecidableEq, Repr

namespace Coin

/-- Constructor, `new Coin(x, y)`. -/
def create (x y : ℚ) : Coin :=
  { position := { x := x, y := y }
    radius := Constants.COIN_RADIUS
    value := Constants.COIN_VALUE
    isCollected := false
    collectionTime := 0
    rotation := 0
    bobOffset := 0
    bobSpeed := 5 / 100
    bobAmount := 5
    animationTimer := 0
    animationSpeed := Constants.COIN_ANIMATION_SPEED
    particles := []
    sparkleTimer := 0
    sparkleInterval := 500 }

/-- Coin step, `Coin.update(deltaTime)`. A collected coin only counts time and ages its
particles. `sparkle` is what `createSparkle` pushes when the sparkle timer fires. -/
def update (sin : ℚ → ℚ) (sparkle : List Particle) (coin : Coin) (deltaTime : ℚ) : Coin :=
  if coin.isCollected then
    { coin with collectionTime := coin.collectionTime + deltaTime
                particles := Helpers.updateParticles coin.particles deltaTime }
  else
    let animationTimer := coin.animationTimer + deltaTime
    let rotation := coin.rotation + coin.animationSpeed * deltaTime * 100
    let bobOffset := sin (animationTimer * coin.bobSpeed) * coin.bobAmount
    let sparkleTimer := coin.sparkleTimer + deltaTime
    let fired : Bool := decide (sparkleTimer ≥ coin.sparkleInterval)
    { coin with animationTimer := animationTimer
                rotation := if rotation ≥ 360 then rotation - 360 else rotation
                bobOffset := bobOffset
                sparkleTimer := if fired then 0 else sparkleTimer
                particles := if fired then coin.particles ++ sparkle else coin.particles }

/-- Collection, `Coin.collect()`: the coin after the call and the returned points. `fresh` is
what `createCollectionParticles` pushes. -/
def collect (fresh : List Particle) (coin : Coin) : Coin × ℤ :=
  if coin.isCollected then (coin, 0)
  else
    ({ coin with isCollected := true, collectionTime := 0,
                 particles := coin.particles ++ fresh }, coin.value)

/-- Collision circle, `Coin.getCollisionCircle()`. -/
def getCollisionCircle (coin : Coin) : CircleOf ℚ :=
  { x := coin.position.x, y := coin.position.y + coin.bobOffset, radius := coin.radius }

/-- Removal test, `Coin.shouldRemove()`. -/
def shouldRemove (coin : Coin) : Bool :=
  coin.isCollected && decide (coin.collectionTime > 1000) && decide (coin.particles.length = 0)

end Coin

/-- One call on a coin: `update(deltaTime)` or `collect()`, with the random particles the call
would create. -/
inductive CoinOp where
  | update (deltaTime : ℚ) (sparkle : List Particle)
  | collect (fresh : List Particle)

/-- A sequence of calls on a coin, first call first: the coin afterwards and the values the
`collect` calls returned, in call order. -/
def Coin.applyOps (sin : ℚ → ℚ) : List CoinOp → Coin → Coin × List ℤ
  | [], coin => (coin, [])
  | CoinOp.update deltaTime sparkle :: rest, coin =>
      Coin.applyOps sin rest (coin.update sin sparkle deltaTime)
  | CoinOp.collect fresh :: rest, coin =>
      let r := Coin.applyOps sin rest (coin.collect fresh).1
      (r.1, (coin.collect fresh).2 :: r.2)

/-- Update time accumulated since the first `collect` of a call sequence: `none` while no
`collect` has happened. `since` is the value before the sequence. -/
def CoinOp.sinceCollect : List CoinOp → Option ℚ → Option ℚ
  | [], since => since
  | CoinOp.update deltaTime _ :: rest, since =>
      CoinOp.sinceCollect rest (since.map (fun t => t + deltaTime))
  | CoinOp.collect _ :: rest, since =>
      CoinOp.sinceCollect rest (some (since.getD 0))

/-- What one tick of `Game.updatePlaying` brings for one coin: the step, whether the player
is present, and the random particles. -/
structure CoinFrame where
  deltaTime : ℚ
  player : Option Player
  sparkle : List Particle
  fresh : List Particle

/-- Outcome of the coin loop body for one coin: the coin afterwards, whether
`scoreManager.addCoin()` and `levelManager.collectCoin()` were called, and whether the coin was
spliced from `Game.coins`. -/
structure CoinTick where
  coin : Coin
  collected : Bool
  removed : Bool

namespace Game

/-- Body of the coin loop of `Game.updatePlaying` for one coin. -/
def coinTick (sin sqrt : ℚ → ℚ) (frame : CoinFrame) (coin : Coin) : CoinTick :=
  let coin1 := coin.update sin frame.sparkle frame.deltaTime
  let hit : Bool :=
    match frame.player with
    | none => false
    | some player =>
        !coin1.isCollected &&
          (CollisionSystem.checkCircleRectCollision sqrt coin1.getCollisionCircle
            player.getCollisionRect.toRectOf).collided
  let coin2 := if hit then (coin1.collect frame.fresh).1 else coin1
  { coin := coin2, collected := hit, removed := coin2.shouldRemove }

/-- Number of `scoreManager.addCoin()` calls made for one coin over a sequence of ticks; a
coin that was spliced out is not visited again. -/
def coinCalls (sin sqrt : ℚ → ℚ) : List CoinFrame → Coin → ℕ
  | [], _ => 0
  | frame :: rest, coin =>
      let r := coinTick sin sqrt frame coin
      (if r.collected then 1 else 0) + (if r.removed then 0 else coinCalls sin sqrt rest r.coin)

end Game


/-! ## Level descriptors (`js/managers/LevelManager.js`)

A level descriptor is a plain JavaScript object. `JsValue` covers the values that occur in
one; numbers are rationals. -/

/-- JavaScript values that occur in a level descriptor. -/
inductive JsValue where
  | undefined
  | null
  | number (n : ℚ)
  | string (s : String)
  | bool (b : Bool)
  | array (items : List JsValue)
  | object (fields : List (String × JsValue))

namespace JsValue

/-- Property read `value[key]` on a value that is neither `null` nor `undefined`: an own field
of an object, `undefined` otherwise. -/
def get : JsValue → String → JsValue
  | object fields, key => (fields.lookup key).getD undefined
  | _, _ => undefined

/-- Test `value === undefined`. -/
def isUndefined : JsValue → Bool
  | undefined => true
  | _ => false

/-- Test `typeof value === 'number'`. -/
def isNumber : JsValue → Bool
  | number _ => true
  | _ => false

/-- Test `Array.isArray(value)`. -/
def isArray : JsValue → Bool
  | array _ => true
  | _ => false

/-- Truthiness of a value in a condition. -/
def truthy : JsValue → Bool
  | undefined => false
  | null => false
  | number n => decide (n ≠ 0)
  | string s => decide (s ≠ "")
  | bool b => b
  | array _ => true
  | object _ => true

/-- Test `value <= 0`, used on a value already known to be a number. -/
def leZero : JsValue → Bool
  | number n => decide (n ≤ 0)
  | _ => false

/-- Strict equality `value === text` with a string. -/
def strictEqString : JsValue → String → Bool
  | string s, text => decide (s = text)
  | _, _ => false

end JsValue

namespace LevelManager

/-- Names checked by the first loop of `validateLevelData`. -/
def requiredFields : List String :=
  ["id", "name", "difficulty", "width", "height", "startPosition", "endPosition", "platforms",
    "coins", "timeLimit", "description"]

/-- Level validation, `LevelManager.validateLevelData(levelData)`: `none` is the TypeError of
reading a property of `null` or `undefined`. The test on `endPosition.y` compares the value
itself with the string `'number'`, as the source does. -/
def validateLevelData (levelData : JsValue) : Option Bool :=
  match levelData with
  | JsValue.undefined => none
  | JsValue.null => none
  | _ =>
    some (
      if requiredFields.any (fun field => (levelData.get field).isUndefined) then false
      else if !(levelData.get "id").isNumber || (levelData.get "id").leZero then false
      else if !(levelData.get "width").isNumber || (levelData.get "width").leZero then false
      else if !(levelData.get "height").isNumber || (levelData.get "height").leZero then false
      else if !(levelData.get "startPosition").truthy ||
          !((levelData.get "startPosition").get "x").isNumber ||
          !((levelData.get "startPosition").get "y").isNumber then false
      else if !(levelData.get "endPosition").truthy ||
          !((levelData.get "endPosition").get "x").isNumber ||
          !(((levelData.get "endPosition").get "y").strictEqString "number") then false
      else if !(levelData.get "platforms").isArray then false
      else if !(levelData.get "coins").isArray then false
      else if (levelData.get "enemies").truthy && !(levelData.get "enemies").isArray then false
      else true)

/-- Object literal `{ x, y }` of a position or a coin. -/
def point (x y : ℚ) : JsValue :=
  JsValue.object [("x", JsValue.number x), ("y", JsValue.number y)]

/-- Object literal `{ x, y, width, height, type }` of a platform. -/
def platformData (x y width height : ℚ) (type : String) : JsValue :=
  JsValue.object [("x", JsValue.number x), ("y", JsValue.number y),
    ("width", JsValue.number width), ("height", JsValue.number height),
    ("type", JsValue.string type)]

/-- Object literal `{ x, y, width, height, type, speed }` of a fast moving platform. -/
def fastPlatformData (x y width height : ℚ) (type : String) (speed : ℚ) : JsValue :=
  JsValue.object [("x", JsValue.number x), ("y", JsValue.number y),
    ("width", JsValue.number width), ("height", JsValue.number height),
    ("type", JsValue.string type), ("speed", JsValue.number speed)]

/-- Object literal `{ x, y, type, patrolRange }` of an enemy. -/
def enemyData (x y : ℚ) (type : String) (patrolRange : ℚ) : JsValue :=
  JsValue.object [("x", JsValue.number x), ("y", JsValue.number y),
    ("type", JsValue.string type), ("patrolRange", JsValue.number patrolRange)]

/-- First built-in level, `createLevel1()`. -/
def createLevel1 : JsValue :=
  JsValue.object
    [("id", JsValue.number 1),
     ("name", JsValue.string "Начало пути"),
     ("difficulty", JsValue.string "easy"),
     ("width", JsValue.number 2000),
     ("height", JsValue.number 1000),
     ("startPosition", point 100 400),
     ("endPosition", point 1800 300),
     ("platforms", JsValue.array
       [platformData 50 450 200 32 "normal",
        platformData 300 400 150 32 "normal",
        platformData 500 350 150 32 "normal",
        platformData 700 300 150 32 "normal",
        platformData 900 250 150 32 "normal",
        platformData 1100 200 150 32 "normal",
        platformData 1300 250 200 32 "normal",
        platformData 1550 300 200 32 "normal",
        platformData 1750 300 200 32 "normal"]),
     ("coins", JsValue.array
       [point 350 320, point 550 270, point 750 220, point 950 170, point 1150 120,
        point 1350 170, point 1600 220, point 1800 220]),
     ("enemies", JsValue.array []),
     ("timeLimit", JsValue.number 120),
     ("description", JsValue.string "Изучите основы управления и соберите все монеты!")]

/-- Second built-in level, `createLevel2()`. -/
def createLevel2 : JsValue :=
  JsValue.object
    [("id", JsValue.number 2),
     ("name", JsValue.string "Горный путь"),
     ("difficulty", JsValue.string "normal"),
     ("width", JsValue.number 2500),
     ("height", JsValue.number 1200),
     ("startPosition", point 100 500),
     ("endPosition", point 2300 200),
     ("platforms", JsValue.array
       [platformData 50 550 200 32 "normal",
        platformData 300 500 100 32 "normal",
        platformData 450 450 100 32 "normal",
        platformData 600 400 100 32 "normal",
        platformData 750 350 100 32 "normal",
        platformData 900 400 150 32 "moving",
        platformData 1150 350 150 32 "moving",
        platformData 1400 300 80 32 "breakable",
        platformData 1520 250 80 32 "breakable",
        platformData 1640 200 80 32 "breakable",
        platformData 1800 250 200 32 "normal",
        platformData 2050 200 200 32 "normal",
        platformData 2250 200 200 32 "normal"]),
     ("coins", JsValue.array
       [point 325 420, point 475 370, point 625 320, point 775 270, point 950 320,
        point 1200 270, point 1440 220, point 1560 170, point 1680 120, point 1850 170,
        point 2100 120, point 2300 120]),
     ("enemies", JsValue.array
       [enemyData 1000 300 "patrol" 100, enemyData 1600 100 "patrol" 150]),
     ("timeLimit", JsValue.number 90),
     ("description",
       JsValue.string "Будьте осторожны с движущимися и ломающимися платформами!")]

/-- Third built-in level, `createLevel3()`. -/
def createLevel3 : JsValue :=
  JsValue.object
    [("id", JsValue.number 3),
     ("name", JsValue.string "Небесный вызов"),
     ("difficulty", JsValue.string "hard"),
     ("width", JsValue.number 3000),
     ("height", JsValue.number 1500),
     ("startPosition", point 100 600),
     ("endPosition", point 2800 100),
     ("platforms", JsValue.array
       [platformData 50 650 200 32 "normal",
        platformData 300 600 80 32 "jumpBoost",
        platformData 450 550 80 32 "normal",
        platformData 600 500 80 32 "jumpBoost",
        platformData 750 450 80 32 "normal",
        fastPlatformData 900 400 120 32 "moving" 3,
        fastPlatformData 1150 350 120 32 "moving" 3,
        fastPlatformData 1400 300 120 32 "moving" 3,
        platformData 1650 400 100 32 "breakable",
        platformData 1800 350 100 32 "breakable",
        platformData 1950 300 100 32 "breakable",
        platformData 2100 250 100 32 "breakable",
        platformData 2300 200 150 32 "jumpBoost",
        platformData 2500 150 150 32 "normal",
        platformData 2700 100 200 32 "normal"]),
     ("coins", JsValue.array
       [point 325 520, point 475 470, point 625 420, point 775 370, point 950 320,
        point 1200 270, point 1450 220, point 1700 320, point 1850 270, point 2000 220,
        point 2150 170, point 2350 120, point 2550 70, point 2750 20]),
     ("enemies", JsValue.array
       [enemyData 800 350 "patrol" 200, enemyData 1300 200 "patrol" 200,
        enemyData 1900 250 "patrol" 150, enemyData 2400 100 "patrol" 100]),
     ("timeLimit", JsValue.number 75),
     ("description", JsValue.string "Испытайте свои навыки на самом сложном уровне!")]

end LevelManager

/-! ## Double-precision arithmetic of the countdowns

JavaScript numbers are IEEE 754 doubles, and the definitions above compute with exact
rationals. Two countdowns compare a time accumulated over many updates with a threshold: the
break timer of a platform and the invincibility timer of the player. There the rounding of
each operation decides the update at which the threshold is crossed. The update functions of
`Platform` and `Player` are therefore given a second time, with every arithmetic result passed
through a rounding function `round`: with the identity they are the definitions above, with
`Float64.round` they compute what the program computes on doubles. -/

namespace Float64

/-- Nearest integer of a rational, ties to the even one. -/
def roundHalfEven (q : ℚ) : ℤ :=
  let f := Int.floor q
  if q - f < 1 / 2 then f
  else if q - f > 1 / 2 then f + 1
  else if f % 2 = 0 then f else f + 1

/-- Number of halvings that bring `n` below 2, at most `fuel` of them: the floor of the
binary logarithm of `n` when `fuel` is large enough (`fuel = n` is). -/
def log2Fuel : ℕ → ℕ → ℕ
  | 0, _ => 0
  | fuel + 1, n => if n < 2 then 0 else log2Fuel fuel (n / 2) + 1

/-- Binary exponent of a non-zero rational: the `e` with `2^e ≤ |q| < 2^(e+1)`. -/
def exponent (q : ℚ) : ℤ :=
  let k : ℤ := (log2Fuel q.num.natAbs q.num.natAbs : ℤ) - (log2Fuel q.den q.den : ℤ)
  if (2 : ℚ) ^ k ≤ |q| then k else k - 1

/-- The double nearest to a rational: round to nearest, ties to even, with 53 significant
bits and the subnormal spacing `2^(-1074)` below `2^(-1022)`. Overflow is left out: the value
is the IEEE one for magnitudes below `2^1024`. -/
def round (q : ℚ) : ℚ :=
  if q = 0 then 0
  else
    let e := max (exponent q) (-1022)
    let ulp : ℚ := (2 : ℚ) ^ (e - 52)
    (roundHalfEven (q / ulp) : ℚ) * ulp

end Float64

namespace Platform

/-- Oscillation of a moving platform, `updateMovement(deltaTime)`, with rounded arithmetic. -/
def updateMovementWith (round : ℚ → ℚ) (deltaTime : ℚ) (p : Platform) : Platform :=
  let x := round (p.position.x + round (round (p.moveSpeed * p.moveDirection) * deltaTime))
  if x > round (p.originalX + p.moveDistance) then
    { p with position := { p.position with x := round (p.originalX + p.moveDistance) },
             moveDirection := -1 }
  else if x < round (p.originalX - p.moveDistance) then
    { p with position := { p.position with x := round (p.originalX - p.moveDistance) },
             moveDirection := 1 }
  else
    { p with position := { p.position with x := x } }

/-- Break countdown, `updateBreaking(deltaTime)`, with rounded arithmetic: the timer is the
rounded sum and the progress the rounded quotient. -/
def updateBreakingWith (round : ℚ → ℚ) (sin : ℚ → ℚ) (now : ℚ) (deltaTime : ℚ)
    (p : Platform) : Platform :=
  let breakTimer := round (p.breakTimer + deltaTime)
  let breakProgress := round (breakTimer / p.breakDuration)
  let p1 : Platform := { p with breakTimer := breakTimer, breakProgress := breakProgress }
  let p2 : Platform :=
    if breakProgress < 1 then
      let shakeIntensity := round (1 - breakProgress)
      let shakeX := round (round (sin (round (now / 50)) * 2) * shakeIntensity)
      { p1 with position := { p1.position with x := round (p1.originalX + shakeX) } }
    else p1
  if breakProgress ≥ 1 then { p2 with width := 0, height := 0 } else p2

/-- Refresh of the cached edges, `updateBounds()`, with rounded arithmetic. -/
def updateBoundsWith (round : ℚ → ℚ) (p : Platform) : Platform :=
  { p with bounds := { top := p.position.y, bottom := round (p.position.y + p.height),
                       left := p.position.x, right := round (p.position.x + p.width) } }

/-- Per-tick update, `update(deltaTime)`, with rounded arithmetic. -/
def updateWith (round : ℚ → ℚ) (sin : ℚ → ℚ) (now : ℚ) (deltaTime : ℚ) (p : Platform) :
    Platform :=
  let p1 : Platform := { p with animationTimer := round (p.animationTimer + deltaTime) }
  let p2 := if p1.isMoving then updateMovementWith round deltaTime p1 else p1
  let p3 :=
    if p2.isBreakable && p2.isBreaking then updateBreakingWith round sin now deltaTime p2
    else p2
  updateBoundsWith round p3

/-- A sequence of calls applied to a platform, first call first, with rounded arithmetic. -/
def applyOpsWith (round : ℚ → ℚ) (sin : ℚ → ℚ) : List PlatformOp → Platform → Platform
  | [], p => p
  | PlatformOp.update now deltaTime :: rest, p =>
    applyOpsWith round sin rest (p.updateWith round sin now deltaTime)
  | PlatformOp.startBreaking :: rest, p => applyOpsWith round sin rest p.startBreaking

/-- The break countdown on its own. From the timer value `timer`, each update replaces the
timer by the rounded sum with its step, and the countdown has run out once the rounded
quotient of the timer by `duration` is at least 1; `startBreaking` calls change nothing. The
result says whether that has happened at some update of the sequence. -/
def countdownReached (round : ℚ → ℚ) (duration : ℚ) : List PlatformOp → ℚ → Bool
  | [], _ => false
  | PlatformOp.update _ deltaTime :: rest, timer =>
    decide (round (round (timer + deltaTime) / duration) ≥ 1) ||
      countdownReached round duration rest (round (timer + deltaTime))
  | PlatformOp.startBreaking :: rest, timer => countdownReached round duration rest timer

end Platform

namespace Player

/-- Input handling, `handleInput(input)`, with rounded arithmetic; `0.85` and `0.1` are the
doubles nearest to these decimals. -/
def handleInputWith (round : ℚ → ℚ) (input : InputHandler) (p : Player) : Player :=
  let horizontalInput := input.getHorizontalInput
  let p1 : Player :=
    if horizontalInput ≠ 0 then
      { p with velocity := { p.velocity with x := round (horizontalInput * p.speed) },
               isFacingRight := decide (horizontalInput > 0),
               currentAnimation := Animation.run }
    else
      let vx := round (p.velocity.x * round Constants.FRICTION)
      { p with velocity := { p.velocity with x := if abs vx < round (1 / 10) then 0 else vx },
               currentAnimation := Animation.idle }
  if input.isJumpPressed && p1.isOnGround then jump p1 else p1

/-- Integration step, `applyPhysics(deltaTime, physics)`, with rounded arithmetic. -/
def applyPhysicsWith (round : ℚ → ℚ) (deltaTime : ℚ) (p : Player) : Player :=
  let vy : ℚ :=
    if !p.isOnGround then min (round (p.velocity.y + p.gravity)) p.maxFallSpeed else 0
  { p with velocity := { p.velocity with y := vy },
           position := { x := round (p.position.x + round (p.velocity.x * deltaTime)),
                         y := round (p.position.y + round (vy * deltaTime)) },
           isOnGround := false }

/-- Animation clock, `updateAnimation(deltaTime)`, with rounded arithmetic. -/
def updateAnimationWith (round : ℚ → ℚ) (deltaTime : ℚ) (p : Player) : Player :=
  let timer := round (p.animationTimer + deltaTime)
  if timer ≥ p.animationSpeed then
    let frame := p.animationFrame + 1
    { p with animationTimer := 0,
             animationFrame := if frame ≥ maxFrames p.currentAnimation then 0 else frame }
  else
    { p with animationTimer := timer }

/-- Refresh of the cached edges, `updateBounds()`, with rounded arithmetic. -/
def updateBoundsWith (round : ℚ → ℚ) (p : Player) : Player :=
  { p with bounds := { top := p.position.y, bottom := round (p.position.y + p.height),
                       left := p.position.x, right := round (p.position.x + p.width) } }

/-- First block of `update`, the invincibility countdown, with rounded arithmetic: the timer
is the rounded difference. -/
def updateTimersWith (round : ℚ → ℚ) (deltaTime : ℚ) (p : Player) : Player :=
  if p.isInvincible then
    let t := round (p.invincibilityTimer - deltaTime)
    { p with invincibilityTimer := t, isInvincible := if t ≤ 0 then false else true }
  else p

/-- Per-tick update, `update(deltaTime, input, physics)`, with rounded arithmetic. -/
def updateWith (round : ℚ → ℚ) (deltaTime : ℚ) (input : InputHandler) (p : Player) : Player :=
  clampMinY (updateBoundsWith round (updateAnimationWith round deltaTime
    (applyPhysicsWith round deltaTime
      (handleInputWith round input (updateTimersWith round deltaTime p)))))

/-- A sequence of `Player.update` calls, first call first, with rounded arithmetic. -/
def runWith (round : ℚ → ℚ) : List (ℚ × InputHandler) → Player → Player
  | [], p => p
  | frame :: rest, p => runWith round rest (p.updateWith round frame.1 frame.2)

/-- The invincibility countdown on its own. From the timer value `timer`, each update
replaces the timer by the rounded difference with its step; the result says whether the timer
is still positive after every update of the sequence. -/
def windowOpen (round : ℚ → ℚ) : List (ℚ × InputHandler) → ℚ → Bool
  | [], _ => true
  | frame :: rest, timer =>
    decide (0 < round (timer - frame.1)) && windowOpen round rest (round (timer - frame.1))

end Player

/-! ## Theorems -/

/-- C1 (code at the scenario). One tick with step 1000/60 of a fresh player at (100,400) over
the normal platform (50,450,200,32): `checkCollision` reports the side `bottom`, so the player
is placed under the platform at y = 450 + 32 = 482 with `velocity.y = 0` and is not grounded;
the scenario expects y = 386 and `isOnGround = true`. -/
theorem landing_scenario_code :
    (playerTick (1000 / 60) InputHandler.idle (Player.create 100 400)
        [Platform.create 50 450 200 32 PlatformType.normal]).map
      (fun r => (r.1.isOnGround, r.1.velocity.y, r.1.position.y, r.1.position.x))
      = some (false, 0, 482, 100) := by
  norm_num [playerTick, PhysicsEngine.handleCollisions, PhysicsEngine.collideAll,
    PhysicsEngine.collideWith, PhysicsEngine.handlePlatformEffects,
    PhysicsEngine.resolveCollision, PhysicsEngine.handleLanding,
    CollisionSystem.checkCollision, CollisionSystem.calculateOverlap,
    Player.update, Player.updateTimers, Player.clampMinY, Player.handleInput,
    Player.applyPhysics, Player.updateAnimation, Player.updateBounds, Player.create, Player.getCollisionRect, Player.jump, Player.maxFrames,
    Platform.create, Platform.getCollisionRect, Platform.startBreaking,
    InputHandler.idle, InputHandler.getHorizontalInput, InputHandler.isJumpPressed,
    Constants.GRAVITY, Constants.MAX_FALL_SPEED, Constants.FRICTION, Constants.PLAYER_WIDTH,
    Constants.PLAYER_HEIGHT, Constants.PLAYER_SPEED, Constants.PLAYER_JUMP_FORCE,
    Constants.PLAYER_MAX_HEALTH, abs_eq_max_neg, max_def]
  simp

/-! ### Rectangle test: characterisation -/

/-- The overlap test of `checkCollision` succeeds exactly when both interval tests do. -/
theorem checkCollision_collided_iff (rect1 rect2 : Rect) :
    (CollisionSystem.checkCollision rect1 rect2).collided = true ↔
      (rect1.x < rect2.x + rect2.width ∧ rect1.x + rect1.width > rect2.x) ∧
      (rect1.y < rect2.y + rect2.height ∧ rect1.y + rect1.height > rect2.y) := by
  rcases lt_or_le rect1.x (rect2.x + rect2.width) with h1 | h1 <;>
  rcases lt_or_le rect2.x (rect1.x + rect1.width) with h2 | h2 <;>
  rcases lt_or_le rect1.y (rect2.y + rect2.height) with h3 | h3 <;>
  rcases lt_or_le rect2.y (rect1.y + rect1.height) with h4 | h4 <;>
  simp [CollisionSystem.checkCollision, h1, h2, h3, h4, not_lt.mpr]

/-- The interval test on one axis is the centre-distance test of `calculateOverlap`. -/
theorem interval_test_iff_center (pos1 size1 pos2 size2 : ℚ) :
    (pos1 < pos2 + size2 ∧ pos1 + size1 > pos2) ↔
      abs (pos2 + size2 / 2 - (pos1 + size1 / 2)) < (size1 + size2) / 2 := by
  rw [abs_lt]
  constructor
  · rintro ⟨h1, h2⟩
    constructor <;> linarith
  · rintro ⟨h1, h2⟩
    constructor <;> linarith

/-- Value of `calculateOverlap` when the centres are closer than the half-extent sum. -/
theorem calculateOverlap_of_lt (pos1 size1 pos2 size2 : ℚ)
    (h : abs (pos2 + size2 / 2 - (pos1 + size1 / 2)) < (size1 + size2) / 2) :
    CollisionSystem.calculateOverlap pos1 size1 pos2 size2 =
      if pos2 + size2 / 2 - (pos1 + size1 / 2) > 0
      then (size1 + size2) / 2 - (pos2 + size2 / 2 - (pos1 + size1 / 2))
      else -((size1 + size2) / 2) - (pos2 + size2 / 2 - (pos1 + size1 / 2)) := by
  unfold CollisionSystem.calculateOverlap
  simp only [h, if_true]

/-- The penetration reported on a hit is the pair of per-axis overlaps. -/
theorem checkCollision_penetration (rect1 rect2 : Rect)
    (h : (CollisionSystem.checkCollision rect1 rect2).collided = true) :
    (CollisionSystem.checkCollision rect1 rect2).penetration =
      { x := CollisionSystem.calculateOverlap rect1.x rect1.width rect2.x rect2.width,
        y := CollisionSystem.calculateOverlap rect1.y rect1.height rect2.y rect2.height } := by
  simp only [CollisionSystem.checkCollision] at h ⊢
  split_ifs at h ⊢
  all_goals rfl

/-- The side reported on a hit, as the nested conditional of `checkCollision`. -/
theorem checkCollision_side (rect1 rect2 : Rect)
    (h : (CollisionSystem.checkCollision rect1 rect2).collided = true) :
    (CollisionSystem.checkCollision rect1 rect2).side =
      some
        (if abs (CollisionSystem.calculateOverlap rect1.x rect1.width rect2.x rect2.width) <
            abs (CollisionSystem.calculateOverlap rect1.y rect1.height rect2.y rect2.height) then
          (if CollisionSystem.calculateOverlap rect1.x rect1.width rect2.x rect2.width < 0
            then Side.left else Side.right)
        else
          (if CollisionSystem.calculateOverlap rect1.y rect1.height rect2.y rect2.height < 0
            then Side.top else Side.bottom)) := by
  simp only [CollisionSystem.checkCollision] at h ⊢
  split_ifs at h ⊢
  all_goals rfl

/-- Sign and size of `calculateOverlap` when the centres are closer than the half-extent
sum. -/
theorem calculateOverlap_spec (pos1 size1 pos2 size2 : ℚ)
    (h : abs (pos2 + size2 / 2 - (pos1 + size1 / 2)) < (size1 + size2) / 2) :
    CollisionSystem.calculateOverlap pos1 size1 pos2 size2 ≠ 0 ∧
    abs (CollisionSystem.calculateOverlap pos1 size1 pos2 size2) =
      (size1 + size2) / 2 - abs (pos2 + size2 / 2 - (pos1 + size1 / 2)) ∧
    (0 < CollisionSystem.calculateOverlap pos1 size1 pos2 size2 ↔
      pos2 + size2 / 2 > pos1 + size1 / 2) := by
  rw [calculateOverlap_of_lt pos1 size1 pos2 size2 h]
  have h2 := abs_lt.mp h
  split_ifs with hd
  · have hpos : 0 < (size1 + size2) / 2 - (pos2 + size2 / 2 - (pos1 + size1 / 2)) := by
      linarith [h2.2]
    refine ⟨ne_of_gt hpos, ?_, ?_⟩
    · rw [abs_of_pos hpos, abs_of_pos hd]
    · constructor
      · intro _; linarith
      · intro _; exact hpos
  · have hd2 : pos2 + size2 / 2 - (pos1 + size1 / 2) ≤ 0 := not_lt.mp hd
    have hneg : -((size1 + size2) / 2) - (pos2 + size2 / 2 - (pos1 + size1 / 2)) < 0 := by
      linarith [h2.1]
    refine ⟨ne_of_lt hneg, ?_, ?_⟩
    · rw [abs_of_neg hneg, abs_of_nonpos hd2]; ring
    · constructor
      · intro hp; linarith
      · intro hp; linarith

/-! ### C2: resolution by the physics engine -/

/-- C2. For every player and platform of positive sizes whose rectangles `checkCollision`
reports as collided with side `s`, after `PhysicsEngine.resolveCollision(player, platform, s)`
a second `checkCollision` on the same pair reports `collided = false`. -/
theorem resolveCollision_leaves_no_collision (player : Player) (platform : Platform) (s : Side)
    (hpw : 0 < player.width) (hph : 0 < player.height)
    (hw : 0 < platform.width) (hh : 0 < platform.height)
    (hc : (CollisionSystem.checkCollision player.getCollisionRect
            platform.getCollisionRect).collided = true)
    (hs : (CollisionSystem.checkCollision player.getCollisionRect
            platform.getCollisionRect).side = some s) :
    (CollisionSystem.checkCollision
        (PhysicsEngine.resolveCollision player platform s).getCollisionRect
        platform.getCollisionRect).collided = false := by
  rw [Bool.eq_false_iff, Ne, checkCollision_collided_iff]
  cases s <;>
    simp [PhysicsEngine.resolveCollision, Player.getCollisionRect, Platform.getCollisionRect]

/-- C2 witness: the player at (100,400) overlapping the platform (50,450,200,32), reported with
side `bottom`. -/
theorem resolveCollision_leaves_no_collision_witness :
    (CollisionSystem.checkCollision
        (PhysicsEngine.resolveCollision (Player.create 100 400)
          (Platform.create 50 450 200 32 PlatformType.normal) Side.bottom).getCollisionRect
        (Platform.create 50 450 200 32 PlatformType.normal).getCollisionRect).collided = false :=
  resolveCollision_leaves_no_collision (Player.create 100 400)
    (Platform.create 50 450 200 32 PlatformType.normal) Side.bottom
    (by norm_num [Player.create, Constants.PLAYER_WIDTH])
    (by norm_num [Player.create, Constants.PLAYER_HEIGHT])
    (by norm_num [Platform.create])
    (by norm_num [Platform.create])
    (by norm_num [CollisionSystem.checkCollision, Player.create, Platform.create,
          Player.getCollisionRect, Platform.getCollisionRect, Constants.PLAYER_WIDTH,
          Constants.PLAYER_HEIGHT])
    (by
      norm_num [CollisionSystem.checkCollision, CollisionSystem.calculateOverlap, Player.create,
        Platform.create, Player.getCollisionRect, Platform.getCollisionRect,
        Constants.PLAYER_WIDTH, Constants.PLAYER_HEIGHT, abs_eq_max_neg, max_def])

/-! ### C3: resolution by the collision system -/

/-- C3 (code at a failing input). For obj1 = (0,0,10,10) and obj2 = (8,-5,10,20)
`checkCollision` reports side `right` with penetration (2,-15); `resolveRectCollision` adds the
penetration to `obj1.x`, moving obj1 to x = 2, further into obj2, and the second
`checkCollision` still reports `collided = true`. -/
theorem resolveRectCollision_right_still_collides :
    (CollisionSystem.checkCollision
        (Body.rect { x := 0, y := 0, width := 10, height := 10, velocity := none })
        { x := 8, y := -5, width := 10, height := 20 })
      = { collided := true, side := some Side.right, penetration := { x := 2, y := -15 } } ∧
    (CollisionSystem.resolveRectCollision
        { x := 0, y := 0, width := 10, height := 10, velocity := none }
        { collided := true, side := some Side.right, penetration := { x := 2, y := -15 } }).x
      = 2 ∧
    (CollisionSystem.checkCollision
        (Body.rect (CollisionSystem.resolveRectCollision
          { x := 0, y := 0, width := 10, height := 10, velocity := none }
          { collided := true, side := some Side.right, penetration := { x := 2, y := -15 } }))
        { x := 8, y := -5, width := 10, height := 20 }).collided = true := by
  refine ⟨?_, ?_, ?_⟩
  · norm_num [CollisionSystem.checkCollision, CollisionSystem.calculateOverlap, Body.rect,
      abs_eq_max_neg, max_def]
  · norm_num [CollisionSystem.resolveRectCollision]
  · norm_num [CollisionSystem.checkCollision, CollisionSystem.resolveRectCollision, Body.rect]

/-- A negative overlap subtracted from the first position puts the first interval right after
the second one. -/
theorem calculateOverlap_neg_resolve (pos1 size1 pos2 size2 : ℚ)
    (h : abs (pos2 + size2 / 2 - (pos1 + size1 / 2)) < (size1 + size2) / 2)
    (hneg : CollisionSystem.calculateOverlap pos1 size1 pos2 size2 < 0) :
    pos1 - CollisionSystem.calculateOverlap pos1 size1 pos2 size2 = pos2 + size2 := by
  rw [calculateOverlap_of_lt pos1 size1 pos2 size2 h] at hneg ⊢
  have h2 := abs_lt.mp h
  split_ifs at hneg ⊢ with hd
  · linarith [h2.2]
  · ring

/-- A non-negative overlap added to the first position moves the first interval towards the
second one: the centres stay strictly ordered and the new position is `2*pos1 + size1 - pos2`. -/
theorem calculateOverlap_nonneg_resolve (pos1 size1 pos2 size2 : ℚ)
    (h : abs (pos2 + size2 / 2 - (pos1 + size1 / 2)) < (size1 + size2) / 2)
    (hnn : ¬ CollisionSystem.calculateOverlap pos1 size1 pos2 size2 < 0) :
    pos1 + CollisionSystem.calculateOverlap pos1 size1 pos2 size2 = 2 * pos1 + size1 - pos2 ∧
    pos1 + size1 / 2 < pos2 + size2 / 2 := by
  rw [calculateOverlap_of_lt pos1 size1 pos2 size2 h] at hnn ⊢
  have h2 := abs_lt.mp h
  split_ifs at hnn ⊢ with hd
  · constructor
    · ring
    · linarith
  · exfalso
    apply hnn
    linarith [h2.1]

/-- Sides `left` and `top` of `resolveRectCollision` separate the pair: after the move the
second `checkCollision` reports `collided = false`. -/
theorem resolveRectCollision_left_top_separates (obj1 : Body) (rect2 : Rect)
    (h : (CollisionSystem.checkCollision obj1.rect rect2).collided = true)
    (hs : (CollisionSystem.checkCollision obj1.rect rect2).side = some Side.left ∨
          (CollisionSystem.checkCollision obj1.rect rect2).side = some Side.top) :
    (CollisionSystem.checkCollision
        (CollisionSystem.resolveRectCollision obj1
          (CollisionSystem.checkCollision obj1.rect rect2)).rect rect2).collided = false := by
  have hi := (checkCollision_collided_iff _ _).mp h
  have hcx := (interval_test_iff_center _ _ _ _).mp hi.1
  have hcy := (interval_test_iff_center _ _ _ _).mp hi.2
  have hside := checkCollision_side _ _ h
  have hpen := checkCollision_penetration _ _ h
  rw [Bool.eq_false_iff, Ne, checkCollision_collided_iff]
  rcases hs with hs | hs
  · have hneg : CollisionSystem.calculateOverlap obj1.rect.x obj1.rect.width rect2.x
        rect2.width < 0 := by
      rw [hs] at hside
      by_contra hcon
      split_ifs at hside <;> simp at hside
    have key := calculateOverlap_neg_resolve _ _ _ _ hcx hneg
    simp only [CollisionSystem.resolveRectCollision, hs, hpen]
    simp only [Body.rect] at key ⊢
    intro hcon
    linarith [hcon.1.1]
  · have hneg : CollisionSystem.calculateOverlap obj1.rect.y obj1.rect.height rect2.y
        rect2.height < 0 := by
      rw [hs] at hside
      by_contra hcon
      split_ifs at hside <;> simp at hside
    have key := calculateOverlap_neg_resolve _ _ _ _ hcy hneg
    simp only [CollisionSystem.resolveRectCollision, hs, hpen]
    simp only [Body.rect] at key ⊢
    intro hcon
    linarith [hcon.2.1]

/-- Sides `right` and `bottom` of `resolveRectCollision` never separate the pair: the move is
towards the second rectangle and the second `checkCollision` reports `collided = true`. -/
theorem resolveRectCollision_right_bottom_collides (obj1 : Body) (rect2 : Rect)
    (h : (CollisionSystem.checkCollision obj1.rect rect2).collided = true)
    (hs : (CollisionSystem.checkCollision obj1.rect rect2).side = some Side.right ∨
          (CollisionSystem.checkCollision obj1.rect rect2).side = some Side.bottom) :
    (CollisionSystem.checkCollision
        (CollisionSystem.resolveRectCollision obj1
          (CollisionSystem.checkCollision obj1.rect rect2)).rect rect2).collided = true := by
  have hi := (checkCollision_collided_iff _ _).mp h
  have hcx := (interval_test_iff_center _ _ _ _).mp hi.1
  have hcy := (interval_test_iff_center _ _ _ _).mp hi.2
  have hside := checkCollision_side _ _ h
  have hpen := checkCollision_penetration _ _ h
  rw [checkCollision_collided_iff]
  rcases hs with hs | hs
  · have hnn : ¬ CollisionSystem.calculateOverlap obj1.rect.x obj1.rect.width rect2.x
        rect2.width < 0 := by
      rw [hs] at hside
      intro hcon
      split_ifs at hside <;> simp at hside
    have key := calculateOverlap_nonneg_resolve _ _ _ _ hcx hnn
    simp only [CollisionSystem.resolveRectCollision, hs, hpen]
    simp only [Body.rect] at key hi ⊢
    refine ⟨⟨?_, ?_⟩, hi.2⟩
    · rw [key.1]; linarith [key.2]
    · rw [key.1]; linarith [hi.1.2]
  · have hnn : ¬ CollisionSystem.calculateOverlap obj1.rect.y obj1.rect.height rect2.y
        rect2.height < 0 := by
      rw [hs] at hside
      intro hcon
      split_ifs at hside <;> simp at hside
    have key := calculateOverlap_nonneg_resolve _ _ _ _ hcy hnn
    simp only [CollisionSystem.resolveRectCollision, hs, hpen]
    simp only [Body.rect] at key hi ⊢
    refine ⟨hi.1, ⟨?_, ?_⟩⟩
    · rw [key.1]; linarith [key.2]
    · rw [key.1]; linarith [hi.2.2]

/-! ### C4 and C5: side selection and penetration -/

/-- C4. For every pair of overlapping rectangles, `checkCollision` picks the side on the axis
with the smaller absolute penetration: the side is `left` or `right` exactly when
`|penetration.x| < |penetration.y|` and `top` or `bottom` otherwise (ties are vertical); on the
chosen axis a negative component gives `left` / `top` and a non-negative one `right` /
`bottom`. -/
theorem checkCollision_side_smaller_penetration (rect1 rect2 : Rect)
    (h : (CollisionSystem.checkCollision rect1 rect2).collided = true) :
    (((CollisionSystem.checkCollision rect1 rect2).side = some Side.left ∨
        (CollisionSystem.checkCollision rect1 rect2).side = some Side.right) ↔
      abs (CollisionSystem.checkCollision rect1 rect2).penetration.x <
        abs (CollisionSystem.checkCollision rect1 rect2).penetration.y) ∧
    (((CollisionSystem.checkCollision rect1 rect2).side = some Side.top ∨
        (CollisionSystem.checkCollision rect1 rect2).side = some Side.bottom) ↔
      ¬ abs (CollisionSystem.checkCollision rect1 rect2).penetration.x <
        abs (CollisionSystem.checkCollision rect1 rect2).penetration.y) ∧
    ((CollisionSystem.checkCollision rect1 rect2).side = some Side.left ↔
      abs (CollisionSystem.checkCollision rect1 rect2).penetration.x <
        abs (CollisionSystem.checkCollision rect1 rect2).penetration.y ∧
      (CollisionSystem.checkCollision rect1 rect2).penetration.x < 0) ∧
    ((CollisionSystem.checkCollision rect1 rect2).side = some Side.right ↔
      abs (CollisionSystem.checkCollision rect1 rect2).penetration.x <
        abs (CollisionSystem.checkCollision rect1 rect2).penetration.y ∧
      0 ≤ (CollisionSystem.checkCollision rect1 rect2).penetration.x) ∧
    ((CollisionSystem.checkCollision rect1 rect2).side = some Side.top ↔
      ¬ abs (CollisionSystem.checkCollision rect1 rect2).penetration.x <
        abs (CollisionSystem.checkCollision rect1 rect2).penetration.y ∧
      (CollisionSystem.checkCollision rect1 rect2).penetration.y < 0) ∧
    ((CollisionSystem.checkCollision rect1 rect2).side = some Side.bottom ↔
      ¬ abs (CollisionSystem.checkCollision rect1 rect2).penetration.x <
        abs (CollisionSystem.checkCollision rect1 rect2).penetration.y ∧
      0 ≤ (CollisionSystem.checkCollision rect1 rect2).penetration.y) := by
  rw [checkCollision_side _ _ h, checkCollision_penetration _ _ h]
  by_cases hlt : abs (CollisionSystem.calculateOverlap rect1.x rect1.width rect2.x rect2.width) <
      abs (CollisionSystem.calculateOverlap rect1.y rect1.height rect2.y rect2.height)
  · by_cases hx : CollisionSystem.calculateOverlap rect1.x rect1.width rect2.x rect2.width < 0
    · simp [hlt, hx]
    · simp [hlt, hx, not_lt.mp hx]
  · by_cases hy : CollisionSystem.calculateOverlap rect1.y rect1.height rect2.y rect2.height < 0
    · simp [hlt, hy, not_lt.mp hlt]
    · simp [hlt, hy, not_lt.mp hy, not_lt.mp hlt]

/-- C4 witness: obj (0,0,10,10) against (8,-5,10,20) overlaps. -/
theorem checkCollision_side_smaller_penetration_witness :
    (CollisionSystem.checkCollision { x := 0, y := 0, width := 10, height := 10 }
        { x := 8, y := -5, width := 10, height := 20 }).side = some Side.right ↔
      abs (CollisionSystem.checkCollision { x := 0, y := 0, width := 10, height := 10 }
        { x := 8, y := -5, width := 10, height := 20 }).penetration.x <
        abs (CollisionSystem.checkCollision { x := 0, y := 0, width := 10, height := 10 }
        { x := 8, y := -5, width := 10, height := 20 }).penetration.y ∧
      0 ≤ (CollisionSystem.checkCollision { x := 0, y := 0, width := 10, height := 10 }
        { x := 8, y := -5, width := 10, height := 20 }).penetration.x :=
  (checkCollision_side_smaller_penetration { x := 0, y := 0, width := 10, height := 10 }
    { x := 8, y := -5, width := 10, height := 20 }
    (by norm_num [CollisionSystem.checkCollision])).2.2.2.1

/-- C5. For every pair of rectangles with non-negative sizes, `checkCollision` reports
`collided = true` iff on both axes `|center2 - center1| < (size1 + size2)/2`; then each
penetration component is the value of `calculateOverlap`, is non-zero, has absolute value
`(size1 + size2)/2 - |center2 - center1|` and is positive exactly when `center2 > center1`. -/
theorem checkCollision_center_distance (rect1 rect2 : Rect)
    (hw1 : 0 ≤ rect1.width) (hh1 : 0 ≤ rect1.height)
    (hw2 : 0 ≤ rect2.width) (hh2 : 0 ≤ rect2.height) :
    ((CollisionSystem.checkCollision rect1 rect2).collided = true ↔
      abs (rect2.x + rect2.width / 2 - (rect1.x + rect1.width / 2)) <
          (rect1.width + rect2.width) / 2 ∧
      abs (rect2.y + rect2.height / 2 - (rect1.y + rect1.height / 2)) <
          (rect1.height + rect2.height) / 2) ∧
    ((CollisionSystem.checkCollision rect1 rect2).collided = true →
      ((CollisionSystem.checkCollision rect1 rect2).penetration.x =
          CollisionSystem.calculateOverlap rect1.x rect1.width rect2.x rect2.width ∧
        (CollisionSystem.checkCollision rect1 rect2).penetration.x ≠ 0 ∧
        abs (CollisionSystem.checkCollision rect1 rect2).penetration.x =
          (rect1.width + rect2.width) / 2 -
            abs (rect2.x + rect2.width / 2 - (rect1.x + rect1.width / 2)) ∧
        (0 < (CollisionSystem.checkCollision rect1 rect2).penetration.x ↔
          rect2.x + rect2.width / 2 > rect1.x + rect1.width / 2)) ∧
      ((CollisionSystem.checkCollision rect1 rect2).penetration.y =
          CollisionSystem.calculateOverlap rect1.y rect1.height rect2.y rect2.height ∧
        (CollisionSystem.checkCollision rect1 rect2).penetration.y ≠ 0 ∧
        abs (CollisionSystem.checkCollision rect1 rect2).penetration.y =
          (rect1.height + rect2.height) / 2 -
            abs (rect2.y + rect2.height / 2 - (rect1.y + rect1.height / 2)) ∧
        (0 < (CollisionSystem.checkCollision rect1 rect2).penetration.y ↔
          rect2.y + rect2.height / 2 > rect1.y + rect1.height / 2))) := by
  have hiff : (CollisionSystem.checkCollision rect1 rect2).collided = true ↔
      abs (rect2.x + rect2.width / 2 - (rect1.x + rect1.width / 2)) <
          (rect1.width + rect2.width) / 2 ∧
      abs (rect2.y + rect2.height / 2 - (rect1.y + rect1.height / 2)) <
          (rect1.height + rect2.height) / 2 := by
    rw [checkCollision_collided_iff, interval_test_iff_center, interval_test_iff_center]
  refine ⟨hiff, fun h => ?_⟩
  have hc := hiff.mp h
  rw [checkCollision_penetration _ _ h]
  exact ⟨⟨rfl, calculateOverlap_spec _ _ _ _ hc.1⟩, ⟨rfl, calculateOverlap_spec _ _ _ _ hc.2⟩⟩

/-- C5 witness: rectangles (0,0,10,10) and (8,-5,10,20). -/
theorem checkCollision_center_distance_witness :
    (CollisionSystem.checkCollision { x := 0, y := 0, width := 10, height := 10 }
        { x := 8, y := -5, width := 10, height := 20 }).collided = true ↔
      abs ((8 : ℚ) + 10 / 2 - (0 + 10 / 2)) < (10 + 10) / 2 ∧
      abs ((-5 : ℚ) + 20 / 2 - (0 + 10 / 2)) < (10 + 20) / 2 :=
  (checkCollision_center_distance { x := 0, y := 0, width := 10, height := 10 }
    { x := 8, y := -5, width := 10, height := 20 }
    (by norm_num) (by norm_num) (by norm_num) (by norm_num)).1

/-! ### C6: falling onto a platform -/

/-- The timer block of `update` only touches the invincibility fields. -/
theorem updateTimers_fields (deltaTime : ℚ) (p : Player) :
    (p.updateTimers deltaTime).position = p.position ∧
    (p.updateTimers deltaTime).velocity = p.velocity ∧
    (p.updateTimers deltaTime).isOnGround = p.isOnGround ∧
    (p.updateTimers deltaTime).height = p.height ∧
    (p.updateTimers deltaTime).width = p.width ∧
    (p.updateTimers deltaTime).gravity = p.gravity ∧
    (p.updateTimers deltaTime).maxFallSpeed = p.maxFallSpeed := by
  simp only [Player.updateTimers]
  split_ifs <;> simp

/-- With no key held `handleInput` keeps the position, the vertical velocity and the grounded
flag. -/
theorem handleInput_idle_fields (p : Player) :
    (p.handleInput InputHandler.idle).position = p.position ∧
    (p.handleInput InputHandler.idle).velocity.y = p.velocity.y ∧
    (p.handleInput InputHandler.idle).isOnGround = p.isOnGround ∧
    (p.handleInput InputHandler.idle).height = p.height ∧
    (p.handleInput InputHandler.idle).width = p.width ∧
    (p.handleInput InputHandler.idle).gravity = p.gravity ∧
    (p.handleInput InputHandler.idle).maxFallSpeed = p.maxFallSpeed := by
  simp [Player.handleInput, InputHandler.idle, InputHandler.getHorizontalInput,
    InputHandler.isJumpPressed]

/-- Vertical effect of `applyPhysics` on an airborne player. -/
theorem applyPhysics_airborne (deltaTime : ℚ) (p : Player) (h : p.isOnGround = false) :
    (p.applyPhysics deltaTime).position.y =
      p.position.y + min (p.velocity.y + p.gravity) p.maxFallSpeed * deltaTime ∧
    (p.applyPhysics deltaTime).velocity.y = min (p.velocity.y + p.gravity) p.maxFallSpeed ∧
    (p.applyPhysics deltaTime).isOnGround = false ∧
    (p.applyPhysics deltaTime).height = p.height ∧
    (p.applyPhysics deltaTime).width = p.width := by
  simp [Player.applyPhysics, h]

/-- The animation clock keeps position, velocity, sizes and the grounded flag. -/
theorem updateAnimation_fields (deltaTime : ℚ) (p : Player) :
    (p.updateAnimation deltaTime).position = p.position ∧
    (p.updateAnimation deltaTime).velocity = p.velocity ∧
    (p.updateAnimation deltaTime).isOnGround = p.isOnGround ∧
    (p.updateAnimation deltaTime).height = p.height ∧
    (p.updateAnimation deltaTime).width = p.width := by
  simp only [Player.updateAnimation]
  split_ifs <;> simp

/-- The final clamp of `update`: the vertical position becomes `max y (-100)`. -/
theorem clampMinY_fields (p : Player) :
    p.clampMinY.position.y = max p.position.y (-100) ∧
    p.clampMinY.position.x = p.position.x ∧
    p.clampMinY.isOnGround = p.isOnGround ∧
    p.clampMinY.height = p.height ∧
    p.clampMinY.width = p.width := by
  simp only [Player.clampMinY]
  split_ifs with hlt
  · simp [max_eq_right (le_of_lt hlt)]
  · simp [max_eq_left (not_lt.mp hlt)]

/-- Vertical effect of `Player.update` with no input on an airborne player: gravity is added
and clamped, the position advances by the new velocity times the step, and the result is
clamped at the ceiling y = -100; sizes are kept and the grounded flag is cleared. -/
theorem update_idle_airborne (deltaTime : ℚ) (p : Player) (h : p.isOnGround = false) :
    (p.update deltaTime InputHandler.idle).isOnGround = false ∧
    (p.update deltaTime InputHandler.idle).height = p.height ∧
    (p.update deltaTime InputHandler.idle).width = p.width ∧
    (p.update deltaTime InputHandler.idle).position.y =
      max (p.position.y + min (p.velocity.y + p.gravity) p.maxFallSpeed * deltaTime) (-100) := by
  have ht := updateTimers_fields deltaTime p
  have hi := handleInput_idle_fields (p.updateTimers deltaTime)
  have hair : ((p.updateTimers deltaTime).handleInput InputHandler.idle).isOnGround = false := by
    rw [hi.2.2.1, ht.2.2.1, h]
  have ha := applyPhysics_airborne deltaTime
    ((p.updateTimers deltaTime).handleInput InputHandler.idle) hair
  have hn := updateAnimation_fields deltaTime
    (((p.updateTimers deltaTime).handleInput InputHandler.idle).applyPhysics deltaTime)
  have hc := clampMinY_fields
    ((((p.updateTimers deltaTime).handleInput InputHandler.idle).applyPhysics
      deltaTime).updateAnimation deltaTime).updateBounds
  unfold Player.update
  refine ⟨?_, ?_, ?_, ?_⟩
  · rw [hc.2.2.1]
    simp only [Player.updateBounds]
    rw [hn.2.2.1, ha.2.2.1]
  · rw [hc.2.2.2.1]
    simp only [Player.updateBounds]
    rw [hn.2.2.2.1, ha.2.2.2.1, hi.2.2.2.1, ht.2.2.2.1]
  · rw [hc.2.2.2.2]
    simp only [Player.updateBounds]
    rw [hn.2.2.2.2, ha.2.2.2.2, hi.2.2.2.2.1, ht.2.2.2.2.1]
  · rw [hc.1]
    simp only [Player.updateBounds]
    rw [hn.1, ha.1, hi.1, hi.2.1, hi.2.2.2.2.2.1, hi.2.2.2.2.2.2, ht.1, ht.2.1, ht.2.2.2.2.2.1,
      ht.2.2.2.2.2.2]

/-- When the player is not grounded on entry and does not intersect the single platform,
`handleCollisions` returns the player and the platform unchanged. -/
theorem handleCollisions_no_hit (player : Player) (platform : Platform)
    (hair : player.isOnGround = false)
    (hmiss : (CollisionSystem.checkCollision player.getCollisionRect
        platform.getCollisionRect).collided = false) :
    PhysicsEngine.handleCollisions player [platform] = some (player, [platform]) := by
  have hp : ({ player with isOnGround := false } : Player) = player := by
    cases player
    simp_all
  simp only [PhysicsEngine.handleCollisions, PhysicsEngine.collideAll,
    PhysicsEngine.collideWith, hp, hmiss, hair]
  split_ifs <;> simp_all

/-- C6 (counterexample). A player at (100,0) falling at the maximum speed 20 is airborne,
horizontally within and entirely above the normal platform (50,100,200,32); one tick with
step 1000/60 moves it by 20 * 1000/60 to y = 1000/3, past the whole platform, no collision is
found, and its bottom edge is then below the platform's top edge. -/
theorem tick_tunnels_through_platform :
    ({ Player.create 100 0 with velocity := { x := 0, y := 20 } } : Player).isOnGround = false ∧
    (100 : ℚ) < 50 + 200 ∧ (50 : ℚ) < 100 + Constants.PLAYER_WIDTH ∧
    (0 : ℚ) + Constants.PLAYER_HEIGHT ≤ 100 ∧
    (0 : ℚ) ≤ 20 ∧ (20 : ℚ) ≤ Constants.MAX_FALL_SPEED ∧
    (playerTick (1000 / 60) InputHandler.idle
        { Player.create 100 0 with velocity := { x := 0, y := 20 } }
        [Platform.create 50 100 200 32 PlatformType.normal]).map
      (fun r => (r.1.position.y, r.1.height, decide (r.1.position.y + r.1.height ≤ 100)))
      = some (1000 / 3, 64, false) := by
  refine ⟨rfl, ?_, ?_, ?_, ?_, ?_, ?_⟩
  · norm_num
  · norm_num [Constants.PLAYER_WIDTH]
  · norm_num [Constants.PLAYER_HEIGHT]
  · norm_num
  · norm_num [Constants.MAX_FALL_SPEED]
  · norm_num [playerTick, PhysicsEngine.handleCollisions, PhysicsEngine.collideAll,
      PhysicsEngine.collideWith, PhysicsEngine.handlePlatformEffects,
      PhysicsEngine.resolveCollision, PhysicsEngine.handleLanding,
      CollisionSystem.checkCollision, CollisionSystem.calculateOverlap,
      Player.update, Player.updateTimers, Player.clampMinY, Player.handleInput,
      Player.applyPhysics, Player.updateAnimation, Player.updateBounds, Player.create,
      Player.getCollisionRect, Player.jump, Player.maxFrames,
      Platform.create, Platform.getCollisionRect, Platform.startBreaking,
      InputHandler.idle, InputHandler.getHorizontalInput, InputHandler.isJumpPressed,
      Constants.GRAVITY, Constants.MAX_FALL_SPEED, Constants.FRICTION, Constants.PLAYER_WIDTH,
      Constants.PLAYER_HEIGHT, Constants.PLAYER_SPEED, Constants.PLAYER_JUMP_FORCE,
      Constants.PLAYER_MAX_HEALTH, abs_eq_max_neg, max_def]

/-- C6 (amended). One tick with the fixed step 1000/60 and no input, for an airborne player
(constructor gravity and fall-speed limit, not above the ceiling line y = -100) that is
horizontally within and entirely above a platform of positive size and falls with
`0 <= velocity.y <= MAX_FALL_SPEED`. The tick moves the player down by
`min(velocity.y + 0.5, 20) * 1000/60`. If that displacement keeps the bottom edge at or above
the platform's top edge, no collision is found and the player is still not below the top edge
after the tick. If it carries the player's top edge to or past the platform's bottom edge, no
collision is found either and the player ends the tick airborne and wholly below the
platform. -/
theorem tick_above_platform_amended (player : Player) (platform : Platform)
    (hair : player.isOnGround = false)
    (hg : player.gravity = Constants.GRAVITY)
    (hm : player.maxFallSpeed = Constants.MAX_FALL_SPEED)
    (hceil : -100 ≤ player.position.y)
    (hph : 0 < player.height)
    (hw : 0 < platform.width) (hh : 0 < platform.height)
    (hover : player.position.x < platform.position.x + platform.width ∧
      platform.position.x < player.position.x + player.width)
    (habove : player.position.y + player.height ≤ platform.position.y)
    (hv0 : 0 ≤ player.velocity.y) (hv1 : player.velocity.y ≤ Constants.MAX_FALL_SPEED) :
    (player.position.y + player.height + min (player.velocity.y + 1 / 2) 20 * (1000 / 60)
        ≤ platform.position.y →
      playerTick (1000 / 60) InputHandler.idle player [platform] =
        some (player.update (1000 / 60) InputHandler.idle, [platform]) ∧
      (player.update (1000 / 60) InputHandler.idle).position.y =
        player.position.y + min (player.velocity.y + 1 / 2) 20 * (1000 / 60) ∧
      (player.update (1000 / 60) InputHandler.idle).position.y +
        (player.update (1000 / 60) InputHandler.idle).height ≤ platform.position.y) ∧
    (platform.position.y + platform.height
        ≤ player.position.y + min (player.velocity.y + 1 / 2) 20 * (1000 / 60) →
      playerTick (1000 / 60) InputHandler.idle player [platform] =
        some (player.update (1000 / 60) InputHandler.idle, [platform]) ∧
      (player.update (1000 / 60) InputHandler.idle).isOnGround = false ∧
      platform.position.y + platform.height ≤
        (player.update (1000 / 60) InputHandler.idle).position.y ∧
      platform.position.y <
        (player.update (1000 / 60) InputHandler.idle).position.y +
          (player.update (1000 / 60) InputHandler.idle).height) := by
  obtain ⟨hu1, hu2, hu3, hu4⟩ := update_idle_airborne (1000 / 60) player hair
  rw [hg, hm] at hu4
  simp only [Constants.GRAVITY, Constants.MAX_FALL_SPEED] at hu4 hv1
  have hstep : 0 ≤ min (player.velocity.y + 1 / 2) 20 * (1000 / 60 : ℚ) := by
    apply mul_nonneg
    · apply le_min <;> linarith
    · norm_num
  have hy : (player.update (1000 / 60) InputHandler.idle).position.y =
      player.position.y + min (player.velocity.y + 1 / 2) 20 * (1000 / 60) := by
    rw [hu4]
    apply max_eq_left
    linarith
  constructor
  · intro hfit
    have hmiss : (CollisionSystem.checkCollision
        (player.update (1000 / 60) InputHandler.idle).getCollisionRect
        platform.getCollisionRect).collided = false := by
      rw [Bool.eq_false_iff, Ne, checkCollision_collided_iff]
      simp only [Player.getCollisionRect, Platform.getCollisionRect]
      intro hcon
      rw [hy, hu2] at hcon
      linarith [hcon.2.2]
    refine ⟨?_, hy, ?_⟩
    · unfold playerTick
      exact handleCollisions_no_hit _ _ hu1 hmiss
    · rw [hy, hu2]
      linarith
  · intro hpast
    have hmiss : (CollisionSystem.checkCollision
        (player.update (1000 / 60) InputHandler.idle).getCollisionRect
        platform.getCollisionRect).collided = false := by
      rw [Bool.eq_false_iff, Ne, checkCollision_collided_iff]
      simp only [Player.getCollisionRect, Platform.getCollisionRect]
      intro hcon
      rw [hy] at hcon
      linarith [hcon.2.1]
    refine ⟨?_, hu1, ?_, ?_⟩
    · unfold playerTick
      exact handleCollisions_no_hit _ _ hu1 hmiss
    · rw [hy]
      exact hpast
    · rw [hy, hu2]
      linarith

/-- C6 witness: the fresh player at (100,0) above the platform (50,450,200,32), where the fall
of one tick, 25/3, keeps it above the platform; and the player at (100,0) falling at speed 20
above the platform (50,100,200,32), where the fall of one tick, 1000/3, carries it past the
platform. -/
theorem tick_above_platform_amended_witness :
    (playerTick (1000 / 60) InputHandler.idle (Player.create 100 0)
        [Platform.create 50 450 200 32 PlatformType.normal] =
      some ((Player.create 100 0).update (1000 / 60) InputHandler.idle,
        [Platform.create 50 450 200 32 PlatformType.normal]) ∧
    ((Player.create 100 0).update (1000 / 60) InputHandler.idle).position.y =
      (Player.create 100 0).position.y +
        min ((Player.create 100 0).velocity.y + 1 / 2) 20 * (1000 / 60) ∧
    ((Player.create 100 0).update (1000 / 60) InputHandler.idle).position.y +
      ((Player.create 100 0).update (1000 / 60) InputHandler.idle).height ≤
      (Platform.create 50 450 200 32 PlatformType.normal).position.y) ∧
    (playerTick (1000 / 60) InputHandler.idle
        { Player.create 100 0 with velocity := { x := 0, y := 20 } }
        [Platform.create 50 100 200 32 PlatformType.normal] =
      some (({ Player.create 100 0 with velocity := { x := 0, y := 20 } } : Player).update
          (1000 / 60) InputHandler.idle,
        [Platform.create 50 100 200 32 PlatformType.normal]) ∧
    (({ Player.create 100 0 with velocity := { x := 0, y := 20 } } : Player).update
      (1000 / 60) InputHandler.idle).isOnGround = false ∧
    (Platform.create 50 100 200 32 PlatformType.normal).position.y +
        (Platform.create 50 100 200 32 PlatformType.normal).height ≤
      (({ Player.create 100 0 with velocity := { x := 0, y := 20 } } : Player).update
        (1000 / 60) InputHandler.idle).position.y ∧
    (Platform.create 50 100 200 32 PlatformType.normal).position.y <
      (({ Player.create 100 0 with velocity := { x := 0, y := 20 } } : Player).update
        (1000 / 60) InputHandler.idle).position.y +
      (({ Player.create 100 0 with velocity := { x := 0, y := 20 } } : Player).update
        (1000 / 60) InputHandler.idle).height) :=
  ⟨(tick_above_platform_amended (Player.create 100 0)
      (Platform.create 50 450 200 32 PlatformType.normal)
      rfl rfl rfl
      (by norm_num [Player.create])
      (by norm_num [Player.create, Constants.PLAYER_HEIGHT])
      (by norm_num [Platform.create])
      (by norm_num [Platform.create])
      (by norm_num [Player.create, Platform.create, Constants.PLAYER_WIDTH])
      (by norm_num [Player.create, Platform.create, Constants.PLAYER_HEIGHT])
      (by norm_num [Player.create])
      (by norm_num [Player.create, Constants.MAX_FALL_SPEED])).1
      (by norm_num [Player.create, Platform.create, Constants.PLAYER_HEIGHT]),
   (tick_above_platform_amended { Player.create 100 0 with velocity := { x := 0, y := 20 } }
      (Platform.create 50 100 200 32 PlatformType.normal)
      rfl rfl rfl
      (by norm_num [Player.create])
      (by norm_num [Player.create, Constants.PLAYER_HEIGHT])
      (by norm_num [Platform.create])
      (by norm_num [Platform.create])
      (by norm_num [Player.create, Platform.create, Constants.PLAYER_WIDTH])
      (by norm_num [Player.create, Platform.create, Constants.PLAYER_HEIGHT])
      (by norm_num [Player.create])
      (by norm_num [Player.create, Constants.MAX_FALL_SPEED])).2
      (by norm_num [Player.create, Platform.create])⟩

/-! ### C7, C8, C9: the fixed-timestep loop -/

/-- With the loop condition false at entry, the `while` loop does nothing. -/
theorem drain_zero {G : Type} (game : GameHooks G) (s acc : ℚ) (g : G) (fuel : ℕ)
    (hlt : acc < s) (hfuel : 0 < fuel) :
    GameLoop.drain game s fuel acc g = some (acc, g) := by
  cases fuel with
  | zero => exact absurd hfuel (lt_irrefl 0)
  | succ k => simp [GameLoop.drain, not_le.mpr hlt]

/-- The `while` loop runs exactly `n` passes when `n * s <= acc < (n + 1) * s`: it calls
`update s` that many times and leaves `acc - n * s`. -/
theorem drain_steps {G : Type} (game : GameHooks G) (s : ℚ) (hs : 0 < s) :
    ∀ (n fuel : ℕ) (acc : ℚ) (g : G), (n : ℚ) * s ≤ acc → acc < ((n : ℚ) + 1) * s → n < fuel →
      GameLoop.drain game s fuel acc g = some (acc - (n : ℚ) * s, (game.update s)^[n] g) := by
  intro n
  induction n with
  | zero =>
    intro fuel acc g _ hhi hfuel
    have hlt : acc < s := by simpa using hhi
    simpa using drain_zero game s acc g fuel hlt hfuel
  | succ k ih =>
    intro fuel acc g hlo hhi hfuel
    cases fuel with
    | zero => exact absurd hfuel (Nat.not_lt_zero _)
    | succ f =>
      have hk : (0 : ℚ) ≤ (k : ℚ) := Nat.cast_nonneg k
      have hks : 0 ≤ (k : ℚ) * s := mul_nonneg hk (le_of_lt hs)
      push_cast at hlo hhi
      have hge : acc ≥ s := by nlinarith
      have hrec := ih f (acc - s) (game.update s g) (by linarith) (by linarith)
        (Nat.lt_of_succ_lt_succ hfuel)
      simp only [GameLoop.drain, hge, if_true]
      rw [hrec, Function.iterate_succ_apply]
      push_cast
      congr 2
      ring

/-- For a non-negative backlog the number of passes is the floor of `acc / s`. -/
theorem floor_bounds (s acc : ℚ) (hs : 0 < s) (hacc : 0 ≤ acc) :
    ((Nat.floor (acc / s) : ℕ) : ℚ) * s ≤ acc ∧ acc < ((Nat.floor (acc / s) : ℕ) + 1 : ℚ) * s := by
  have hq : 0 ≤ acc / s := div_nonneg hacc (le_of_lt hs)
  constructor
  · have h1 := Nat.floor_le hq
    calc ((Nat.floor (acc / s) : ℕ) : ℚ) * s ≤ acc / s * s :=
          mul_le_mul_of_nonneg_right h1 (le_of_lt hs)
      _ = acc := div_mul_cancel₀ acc (ne_of_gt hs)
  · have h2 := Nat.lt_floor_add_one (acc / s)
    calc acc = acc / s * s := (div_mul_cancel₀ acc (ne_of_gt hs)).symm
      _ < ((Nat.floor (acc / s) : ℕ) + 1 : ℚ) * s := mul_lt_mul_of_pos_right h2 hs

/-- Iterating the recorder's `update` prepends the argument once per call. -/
theorem recorder_iterate (s : ℚ) (n : ℕ) (calls : List ℚ) :
    (GameLoop.recorder.update s)^[n] calls = List.replicate n s ++ calls := by
  induction n generalizing calls with
  | zero => rfl
  | succ k ih =>
    rw [Function.iterate_succ_apply, ih]
    simp only [GameLoop.recorder]
    rw [List.replicate_succ', List.append_assoc]
    rfl

/-- The frame counter bookkeeping keeps the timing fields of the loop. -/
theorem updateFPS_fields (deltaTime : ℚ) (l : GameLoop) :
    (GameLoop.updateFPS deltaTime l).timeStep = l.timeStep ∧
    (GameLoop.updateFPS deltaTime l).accumulatedTime = l.accumulatedTime ∧
    (GameLoop.updateFPS deltaTime l).lastTime = l.lastTime ∧
    (GameLoop.updateFPS deltaTime l).isRunning = l.isRunning ∧
    (GameLoop.updateFPS deltaTime l).isPaused = l.isPaused := by
  simp only [GameLoop.updateFPS]
  split_ifs <;> simp

/-- A frame callback on a loop that is paused or not running returns at once. -/
theorem loop_inactive {G : Type} (game : GameHooks G) (l : GameLoop) (g : G)
    (currentTime : ℚ) (fuel : ℕ) (h : l.isPaused = true ∨ l.isRunning = false) :
    GameLoop.loop game fuel currentTime l g = some (l, g) := by
  unfold GameLoop.loop
  rcases h with h | h
  · by_cases hr : l.isRunning = true
    · simp [h, hr]
    · simp [hr]
  · simp [h]

/-- A frame of a running, unpaused loop whose backlog after accumulation lies in
`[n * s, (n + 1) * s)` (or below `s` when `n = 0`) performs exactly `n` updates with the
fixed step and keeps the remainder. -/
theorem loop_running {G : Type} (game : GameHooks G) (l : GameLoop) (g : G)
    (currentTime : ℚ) (fuel n : ℕ)
    (hrun : l.isRunning = true) (hp : l.isPaused = false) (hs : 0 < l.timeStep)
    (hlo : n = 0 ∨ (n : ℚ) * l.timeStep ≤
      l.accumulatedTime + min (currentTime - l.lastTime) 100)
    (hhi : l.accumulatedTime + min (currentTime - l.lastTime) 100 <
      ((n : ℚ) + 1) * l.timeStep)
    (hfuel : n < fuel) :
    ∃ l1 : GameLoop,
      GameLoop.loop game fuel currentTime l g =
        some (l1, game.render ((game.update l.timeStep)^[n] g)) ∧
      l1.accumulatedTime =
        l.accumulatedTime + min (currentTime - l.lastTime) 100 - (n : ℚ) * l.timeStep ∧
      l1.lastTime = currentTime ∧ l1.timeStep = l.timeStep ∧
      l1.isRunning = true ∧ l1.isPaused = false := by
  have hdrain : GameLoop.drain game l.timeStep fuel
      (l.accumulatedTime + min (currentTime - l.lastTime) 100) g =
      some (l.accumulatedTime + min (currentTime - l.lastTime) 100 - (n : ℚ) * l.timeStep,
        (game.update l.timeStep)^[n] g) := by
    rcases hlo with h0 | hlo
    · subst h0
      have hlt : l.accumulatedTime + min (currentTime - l.lastTime) 100 < l.timeStep := by
        simpa using hhi
      simpa using drain_zero game l.timeStep _ g fuel hlt hfuel
    · exact drain_steps game l.timeStep hs n fuel _ g hlo hhi hfuel
  rcases l with ⟨lastTime, accumulatedTime, timeStep, frameCount, fps, fpsTimer, isRunning,
    isPaused⟩
  simp only at hrun hp hdrain
  subst hrun hp
  obtain ⟨f1, f2, f3, f4, f5⟩ := updateFPS_fields (min (currentTime - lastTime) 100)
    { lastTime := currentTime, accumulatedTime := accumulatedTime, timeStep := timeStep,
      frameCount := frameCount, fps := fps, fpsTimer := fpsTimer, isRunning := true,
      isPaused := false }
  simp only at f1 f2 f3 f4 f5
  simp only [GameLoop.loop, Bool.not_true, Bool.false_eq_true, if_false, f1, f2, hdrain,
    Option.map_some']
  exact ⟨_, rfl, rfl, f3, rfl, f4, f5⟩

/-- C7. For a running, unpaused loop with `timeStep = s > 0`, `accumulatedTime = a` with
`0 <= a < s`, and a frame with wall delta `d = currentTime - lastTime >= 0`: `loop` calls
`game.update` exactly `n = floor((a + min(d,100)) / s)` times, each time with argument `s`
(for every game, and as recorded by the call recorder), and leaves
`accumulatedTime = a + min(d,100) - n*s`, which is again in `[0, s)`. The `while` loop
terminates: any bound above `n` on its condition tests suffices. -/
theorem loop_performs_floor_updates {G : Type} (game : GameHooks G) (l : GameLoop) (g : G)
    (calls : List ℚ) (currentTime : ℚ) (fuel : ℕ)
    (hrun : l.isRunning = true) (hp : l.isPaused = false) (hs : 0 < l.timeStep)
    (ha0 : 0 ≤ l.accumulatedTime) (ha1 : l.accumulatedTime < l.timeStep)
    (hd : 0 ≤ currentTime - l.lastTime)
    (hfuel : Nat.floor ((l.accumulatedTime + min (currentTime - l.lastTime) 100) / l.timeStep)
      < fuel) :
    (∃ l1 : GameLoop,
      GameLoop.loop game fuel currentTime l g =
        some (l1, game.render ((game.update l.timeStep)^[Nat.floor
          ((l.accumulatedTime + min (currentTime - l.lastTime) 100) / l.timeStep)] g)) ∧
      l1.accumulatedTime = l.accumulatedTime + min (currentTime - l.lastTime) 100 -
        (Nat.floor ((l.accumulatedTime + min (currentTime - l.lastTime) 100) / l.timeStep) : ℚ)
          * l.timeStep ∧
      0 ≤ l1.accumulatedTime ∧ l1.accumulatedTime < l.timeStep ∧
      l1.lastTime = currentTime ∧ l1.timeStep = l.timeStep) ∧
    (∃ l2 : GameLoop,
      GameLoop.loop GameLoop.recorder fuel currentTime l calls =
        some (l2, List.replicate (Nat.floor
          ((l.accumulatedTime + min (currentTime - l.lastTime) 100) / l.timeStep)) l.timeStep
            ++ calls)) := by
  have hacc : 0 ≤ l.accumulatedTime + min (currentTime - l.lastTime) 100 := by
    have : 0 ≤ min (currentTime - l.lastTime) 100 := le_min hd (by norm_num)
    linarith
  obtain ⟨hlo, hhi⟩ := floor_bounds l.timeStep _ hs hacc
  constructor
  · obtain ⟨l1, h1, h2, h3, h4, _, _⟩ := loop_running game l g currentTime fuel _ hrun hp hs
      (Or.inr hlo) hhi hfuel
    refine ⟨l1, h1, h2, ?_, ?_, h3, h4⟩
    · rw [h2]; linarith
    · rw [h2]; linarith
  · obtain ⟨l2, h1, _⟩ := loop_running GameLoop.recorder l calls currentTime fuel _ hrun hp hs
      (Or.inr hlo) hhi hfuel
    refine ⟨l2, ?_⟩
    rw [h1, recorder_iterate]
    rfl

/-- C7 witness: a loop started at time 0 and called back at time 40 performs two updates. -/
theorem loop_performs_floor_updates_witness :
    ∃ l2 : GameLoop,
      GameLoop.loop GameLoop.recorder 5 40 (GameLoop.start 0 GameLoop.create) [] =
        some (l2, List.replicate (Nat.floor
          (((GameLoop.start 0 GameLoop.create).accumulatedTime +
            min (40 - (GameLoop.start 0 GameLoop.create).lastTime) 100) /
              (GameLoop.start 0 GameLoop.create).timeStep))
          (GameLoop.start 0 GameLoop.create).timeStep ++ []) :=
  (loop_performs_floor_updates GameLoop.recorder (GameLoop.start 0 GameLoop.create) [] [] 40 5
    (by simp [GameLoop.start, GameLoop.create])
    (by simp [GameLoop.start, GameLoop.create])
    (by norm_num [GameLoop.start, GameLoop.create])
    (by norm_num [GameLoop.start, GameLoop.create])
    (by norm_num [GameLoop.start, GameLoop.create])
    (by norm_num [GameLoop.start, GameLoop.create])
    (by
      rw [Nat.floor_lt (by norm_num [GameLoop.start, GameLoop.create])]
      norm_num [GameLoop.start, GameLoop.create])).2

/-- C9. While the loop is paused, and likewise while it is not running, a `loop(currentTime)`
call performs no update (the game state is returned as it was) and changes no field of the
loop, in particular neither `accumulatedTime` nor `lastTime`. -/
theorem loop_paused_or_stopped_noop {G : Type} (game : GameHooks G) (l : GameLoop) (g : G)
    (currentTime : ℚ) (fuel : ℕ) (h : l.isPaused = true ∨ l.isRunning = false) :
    GameLoop.loop game fuel currentTime l g = some (l, g) :=
  loop_inactive game l g currentTime fuel h

/-- C9 witness: a started and then paused loop ignores a callback at time 500. -/
theorem loop_paused_or_stopped_noop_witness :
    GameLoop.loop GameLoop.recorder 0 500 (GameLoop.pause (GameLoop.start 0 GameLoop.create)) []
      = some (GameLoop.pause (GameLoop.start 0 GameLoop.create), []) :=
  loop_paused_or_stopped_noop GameLoop.recorder (GameLoop.pause (GameLoop.start 0 GameLoop.create))
    [] 500 0 (Or.inl (by simp [GameLoop.pause]))

/-- C8. Bounded backlog: with the default `timeStep = 1000/60` and
`0 <= accumulatedTime < timeStep` on entry, one `loop` call performs at most 6 updates,
whatever the current time and the time of the previous frame are (and whatever the running and
paused flags are); seven condition tests of the `while` loop always suffice. -/
theorem loop_backlog_bounded (l : GameLoop) (calls : List ℚ) (currentTime : ℚ) (fuel : ℕ)
    (hs : l.timeStep = 1000 / 60)
    (ha0 : 0 ≤ l.accumulatedTime) (ha1 : l.accumulatedTime < l.timeStep)
    (hfuel : 7 ≤ fuel) :
    ∃ (n : ℕ) (l1 : GameLoop), n ≤ 6 ∧
      GameLoop.loop GameLoop.recorder fuel currentTime l calls =
        some (l1, List.replicate n (1000 / 60) ++ calls) := by
  by_cases hrun : l.isRunning = true
  swap
  · refine ⟨0, l, Nat.zero_le 6, ?_⟩
    have hr : l.isRunning = false := by simpa using hrun
    simpa using loop_inactive GameLoop.recorder l calls currentTime fuel
      (Or.inr hr)
  by_cases hp : l.isPaused = true
  · refine ⟨0, l, Nat.zero_le 6, ?_⟩
    simpa using loop_inactive GameLoop.recorder l calls currentTime fuel
      (Or.inl hp)
  have hp2 : l.isPaused = false := by simpa using hp
  have hspos : 0 < l.timeStep := by rw [hs]; norm_num
  have hclamp : min (currentTime - l.lastTime) 100 ≤ 100 := min_le_right _ _
  by_cases hsmall : l.accumulatedTime + min (currentTime - l.lastTime) 100 < l.timeStep
  · obtain ⟨l1, h1, _⟩ := loop_running GameLoop.recorder l calls currentTime fuel 0 hrun hp2
      hspos (Or.inl rfl) (by simpa using hsmall) (by omega)
    refine ⟨0, l1, Nat.zero_le 6, ?_⟩
    rw [h1, recorder_iterate]
    rfl
  · have hge : l.timeStep ≤ l.accumulatedTime + min (currentTime - l.lastTime) 100 :=
      not_lt.mp hsmall
    have hacc : 0 ≤ l.accumulatedTime + min (currentTime - l.lastTime) 100 := by linarith
    obtain ⟨hlo, hhi⟩ := floor_bounds l.timeStep _ hspos hacc
    have hn : Nat.floor ((l.accumulatedTime + min (currentTime - l.lastTime) 100) / l.timeStep)
        ≤ 6 := by
      by_contra hcon
      have h7 : 7 ≤ Nat.floor
          ((l.accumulatedTime + min (currentTime - l.lastTime) 100) / l.timeStep) := by omega
      have h7q : (7 : ℚ) ≤ (Nat.floor
          ((l.accumulatedTime + min (currentTime - l.lastTime) 100) / l.timeStep) : ℕ) := by
        exact_mod_cast h7
      have : (7 : ℚ) * l.timeStep ≤ l.accumulatedTime + min (currentTime - l.lastTime) 100 :=
        le_trans (mul_le_mul_of_nonneg_right h7q (le_of_lt hspos)) hlo
      rw [hs] at this ha1
      linarith
    obtain ⟨l1, h1, _⟩ := loop_running GameLoop.recorder l calls currentTime fuel _ hrun hp2
      hspos (Or.inr hlo) hhi (by omega)
    refine ⟨_, l1, hn, ?_⟩
    rw [h1, recorder_iterate, hs]
    rfl

/-- C8 witness: a loop started at time 0 and called back after a stall of one hour. -/
theorem loop_backlog_bounded_witness :
    ∃ (n : ℕ) (l1 : GameLoop), n ≤ 6 ∧
      GameLoop.loop GameLoop.recorder 7 3600000 (GameLoop.start 0 GameLoop.create) [] =
        some (l1, List.replicate n (1000 / 60) ++ []) :=
  loop_backlog_bounded (GameLoop.start 0 GameLoop.create) [] 3600000 7
    (by simp [GameLoop.start, GameLoop.create])
    (by norm_num [GameLoop.start, GameLoop.create])
    (by norm_num [GameLoop.start, GameLoop.create])
    (le_refl 7)

/-! ### C10: platform updates and the wall clock -/

/-- C10 (counterexample). A breakable platform created at (100,300) and set breaking is
updated once with the step 1000/60. Executed when `Date.now()` reads 0 the update leaves
`position.x = 100`; executed when it reads 50 the shake term `sin(1) * 2 * (1 - 1/60)` is
added (here with the degree-seven Taylor value 4241/5040 for `sin(1)`), so the two runs end
with different `position.x`. -/
theorem platform_update_reads_wall_clock :
    (Platform.run sinTaylor [(0, 1000 / 60)]
        (Platform.create 100 300 128 32 PlatformType.breakable).startBreaking).position.x
      = 100 ∧
    (Platform.run sinTaylor [(50, 1000 / 60)]
        (Platform.create 100 300 128 32 PlatformType.breakable).startBreaking).position.x
      = 100 + 250219 / 151200 := by
  constructor
  · simp [Platform.run, Platform.update, Platform.updateBreaking, Platform.updateMovement,
      Platform.updateBounds, Platform.startBreaking, Platform.create, sinTaylor]
    norm_num
  · simp [Platform.run, Platform.update, Platform.updateBreaking, Platform.updateMovement,
      Platform.updateBounds, Platform.startBreaking, Platform.create, sinTaylor]
    norm_num

/-- The variant flags are not changed by `Platform.update`. -/
theorem platform_update_flags (sin : ℚ → ℚ) (now deltaTime : ℚ) (p : Platform) :
    (p.update sin now deltaTime).isBreakable = p.isBreakable ∧
    (p.update sin now deltaTime).isBreaking = p.isBreaking ∧
    (p.update sin now deltaTime).isMoving = p.isMoving := by
  simp only [Platform.update, Platform.updateMovement, Platform.updateBreaking,
    Platform.updateBounds]
  split_ifs <;> simp

/-- For a platform that is not a breaking breakable one, `Platform.update` does not read the
wall clock. -/
theorem platform_update_clock_free (sin : ℚ → ℚ) (now1 now2 deltaTime : ℚ) (p : Platform)
    (h : ¬ (p.isBreakable = true ∧ p.isBreaking = true)) :
    p.update sin now1 deltaTime = p.update sin now2 deltaTime := by
  simp only [Platform.update, Platform.updateMovement]
  split_ifs <;> simp_all

/-- The wall clock only reaches `position.x` and the cached horizontal edges: updates of two
non-moving platforms that agree up to these fields agree up to these fields again. -/
theorem platform_update_eraseX (sin : ℚ → ℚ) (now1 now2 deltaTime : ℚ) (p q : Platform)
    (hp : p.isMoving = false) (h : p.eraseX = q.eraseX) :
    (p.update sin now1 deltaTime).eraseX = (q.update sin now2 deltaTime).eraseX := by
  rcases p with ⟨⟨px, py⟩, pw, ph, pt, pm, ps, pd, pdist, po, pb, pbr, ptm, pdur, ppr, pj, pf,
    pa, pas, ⟨pbt, pbb, pbl, pbrt⟩⟩
  rcases q with ⟨⟨qx, qy⟩, qw, qh, qt, qm, qs, qd, qdist, qo, qb, qbr, qtm, qdur, qpr, qj, qf,
    qa, qas, ⟨qbt, qbb, qbl, qbrt⟩⟩
  simp only [Platform.eraseX, Platform.mk.injEq, Vector2.mk.injEq, Bounds.mk.injEq] at h hp
  obtain ⟨⟨_, rfl⟩, rfl, rfl, rfl, rfl, rfl, rfl, rfl, rfl, rfl, rfl, rfl, rfl, rfl, rfl, rfl,
    rfl, rfl, rfl, rfl, _, _⟩ := h
  subst hp
  simp only [Platform.update, Platform.updateBreaking, Platform.updateBounds, Platform.eraseX,
    Bool.false_eq_true, if_false]
  split_ifs <;> rfl

/-- Runs of a platform that is not a breaking breakable one do not depend on the clock
readings. -/
theorem platform_run_clock_free (sin : ℚ → ℚ) :
    ∀ (frames : List (ℚ × ℚ × ℚ)) (p : Platform),
      ¬ (p.isBreakable = true ∧ p.isBreaking = true) →
      Platform.run sin (frames.map (fun f => (f.2.1, f.1))) p =
        Platform.run sin (frames.map (fun f => (f.2.2, f.1))) p := by
  intro frames
  induction frames with
  | nil => intro p _; rfl
  | cons f rest ih =>
    intro p h
    simp only [List.map_cons, Platform.run]
    rw [platform_update_clock_free sin f.2.1 f.2.2 f.1 p h]
    apply ih
    obtain ⟨h1, h2, _⟩ := platform_update_flags sin f.2.2 f.1 p
    rw [h1, h2]
    exact h

/-- Runs of two non-moving platforms that agree up to `position.x` and the cached horizontal
edges agree up to these fields, whatever the clock readings. -/
theorem platform_run_eraseX (sin : ℚ → ℚ) :
    ∀ (frames : List (ℚ × ℚ × ℚ)) (p q : Platform),
      p.isMoving = false → p.eraseX = q.eraseX →
      (Platform.run sin (frames.map (fun f => (f.2.1, f.1))) p).eraseX =
        (Platform.run sin (frames.map (fun f => (f.2.2, f.1))) q).eraseX := by
  intro frames
  induction frames with
  | nil => intro p q _ h; exact h
  | cons f rest ih =>
    intro p q hp h
    simp only [List.map_cons, Platform.run]
    apply ih
    · rw [(platform_update_flags sin f.2.1 f.1 p).2.2]
      exact hp
    · exact platform_update_eraseX sin f.2.1 f.2.2 f.1 p q hp h

/-- C10 (amended). `Platform.update` is a function of the platform state, the step and, for a
breakable platform that is breaking, the wall-clock reading of `Date.now()`. Two runs from the
same state with the same sequence of steps (each frame carries the step and the clock readings
of the two runs) end in equal states when the platform is not a breaking breakable platform,
whatever the clock readings; for a non-moving platform, breaking included, the two runs agree
on every field except `position.x` and the cached `bounds.left` / `bounds.right`. -/
theorem platform_run_reproducible_amended (sin : ℚ → ℚ) (frames : List (ℚ × ℚ × ℚ))
    (p : Platform) :
    (¬ (p.isBreakable = true ∧ p.isBreaking = true) →
      Platform.run sin (frames.map (fun f => (f.2.1, f.1))) p =
        Platform.run sin (frames.map (fun f => (f.2.2, f.1))) p) ∧
    (p.isMoving = false →
      (Platform.run sin (frames.map (fun f => (f.2.1, f.1))) p).eraseX =
        (Platform.run sin (frames.map (fun f => (f.2.2, f.1))) p).eraseX) :=
  ⟨platform_run_clock_free sin frames p, fun hp => platform_run_eraseX sin frames p p hp rfl⟩

/-- C10 witness: a moving platform run for two steps under two different clocks, and a
breaking platform run for two steps under the same pair of clocks. -/
theorem platform_run_reproducible_amended_witness :
    Platform.run sinTaylor
        ([(1000 / 60, 0, 50), (1000 / 60, 17, 1000)].map (fun f => (f.2.1, f.1)))
        (Platform.create 100 300 128 32 PlatformType.moving) =
      Platform.run sinTaylor
        ([(1000 / 60, 0, 50), (1000 / 60, 17, 1000)].map (fun f => (f.2.2, f.1)))
        (Platform.create 100 300 128 32 PlatformType.moving) ∧
    (Platform.run sinTaylor
        ([(1000 / 60, 0, 50), (1000 / 60, 17, 1000)].map (fun f => (f.2.1, f.1)))
        (Platform.create 100 300 128 32 PlatformType.breakable).startBreaking).eraseX =
      (Platform.run sinTaylor
        ([(1000 / 60, 0, 50), (1000 / 60, 17, 1000)].map (fun f => (f.2.2, f.1)))
        (Platform.create 100 300 128 32 PlatformType.breakable).startBreaking).eraseX :=
  ⟨(platform_run_reproducible_amended sinTaylor [(1000 / 60, 0, 50), (1000 / 60, 17, 1000)]
      (Platform.create 100 300 128 32 PlatformType.moving)).1
      (by simp [Platform.create]),
   (platform_run_reproducible_amended sinTaylor [(1000 / 60, 0, 50), (1000 / 60, 17, 1000)]
      (Platform.create 100 300 128 32 PlatformType.breakable).startBreaking).2
      (by simp [Platform.create, Platform.startBreaking])⟩

/-! ### C11: the landing hook -/

/-- Whatever the input and the previous grounded state, `Player.update` ends with
`isOnGround = false`: `applyPhysics` clears the flag and the later blocks keep it. -/
theorem update_clears_grounded (deltaTime : ℚ) (input : InputHandler) (p : Player) :
    (p.update deltaTime input).isOnGround = false := by
  have ha : (((p.updateTimers deltaTime).handleInput input).applyPhysics deltaTime).isOnGround
      = false := by
    simp [Player.applyPhysics]
  have hn := updateAnimation_fields deltaTime
    (((p.updateTimers deltaTime).handleInput input).applyPhysics deltaTime)
  have hc := clampMinY_fields
    ((((p.updateTimers deltaTime).handleInput input).applyPhysics
      deltaTime).updateAnimation deltaTime).updateBounds
  unfold Player.update
  rw [hc.2.2.1]
  simp only [Player.updateBounds]
  rw [hn.2.2.1, ha]

/-- `handleCollisions` in terms of the guard of its landing hook. -/
theorem handleCollisions_eq_landing (player : Player) (platforms : List Platform) :
    PhysicsEngine.handleCollisions player platforms =
      if PhysicsEngine.landingInvoked player platforms = true then
        (PhysicsEngine.handleLanding
          (PhysicsEngine.collideAll { player with isOnGround := false } platforms).1).map
          (fun landed =>
            (landed, (PhysicsEngine.collideAll { player with isOnGround := false } platforms).2))
      else some (PhysicsEngine.collideAll { player with isOnGround := false } platforms) := by
  rfl

/-- In a tick (`Player.update`, then `handleCollisions`) the landing hook is invoked exactly
when the platform loop ends grounded: the state at the end of the previous tick plays no
part. -/
theorem landingInvoked_after_update (deltaTime : ℚ) (input : InputHandler) (p : Player)
    (platforms : List Platform) :
    PhysicsEngine.landingInvoked (p.update deltaTime input) platforms =
      (PhysicsEngine.collideAll (p.update deltaTime input) platforms).1.isOnGround := by
  have h := update_clears_grounded deltaTime input p
  have hp : ({ p.update deltaTime input with isOnGround := false } : Player) =
      p.update deltaTime input := by
    generalize p.update deltaTime input = q at h
    cases q
    simp_all
  simp only [PhysicsEngine.landingInvoked, hp, h]
  simp

/-- C11 (code at a failing input). A fresh player at (0,100) over the platforms
B = (-50,90,200,32) and C = (60,20,100,32). Tick 1 (no input) resolves on B with side `top`:
the player ends grounded at y = 26 and the landing hook is invoked. Tick 2 (right key held)
starts with the player grounded from tick 1, moves it to x = 250/3 where it overlaps C, resolves
with side `top` and ends grounded at y = -44; the landing hook is invoked again, although the
player was grounded at the end of tick 1. -/
theorem landing_invoked_on_grounded_tick :
    (playerTick (1000 / 60) InputHandler.idle (Player.create 0 100)
        [Platform.create (-50) 90 200 32 PlatformType.normal,
         Platform.create 60 20 100 32 PlatformType.normal]).bind
      (fun r1 =>
        (playerTick (1000 / 60) { InputHandler.idle with right := true } r1.1 r1.2).map
          (fun r2 =>
            (r1.1.isOnGround, r1.1.position.y,
             PhysicsEngine.landingInvoked
               (r1.1.update (1000 / 60) { InputHandler.idle with right := true }) r1.2,
             r2.1.isOnGround, r2.1.position.x, r2.1.position.y)))
      = some (true, 26, true, true, 250 / 3, -44) := by
  have h1 : playerTick (1000 / 60) InputHandler.idle (Player.create 0 100)
      [Platform.create (-50) 90 200 32 PlatformType.normal,
       Platform.create 60 20 100 32 PlatformType.normal] =
      some ({ Player.create 0 26 with
                isOnGround := true, animationFrame := 1,
                bounds := { top := 325 / 3, bottom := 517 / 3, left := 0, right := 32 } },
            [Platform.create (-50) 90 200 32 PlatformType.normal,
             Platform.create 60 20 100 32 PlatformType.normal]) := by
    norm_num [playerTick, PhysicsEngine.landingInvoked, PhysicsEngine.handleCollisions,
      PhysicsEngine.collideAll, PhysicsEngine.collideWith, PhysicsEngine.handlePlatformEffects,
      PhysicsEngine.resolveCollision, PhysicsEngine.handleLanding,
      CollisionSystem.checkCollision, CollisionSystem.calculateOverlap,
      Player.update, Player.updateTimers, Player.clampMinY, Player.handleInput,
      Player.applyPhysics, Player.updateAnimation, Player.updateBounds, Player.create,
      Player.getCollisionRect, Player.jump, Player.maxFrames,
      Platform.create, Platform.getCollisionRect, Platform.startBreaking,
      InputHandler.idle, InputHandler.getHorizontalInput, InputHandler.isJumpPressed,
      Constants.GRAVITY, Constants.MAX_FALL_SPEED, Constants.FRICTION, Constants.PLAYER_WIDTH,
      Constants.PLAYER_HEIGHT, Constants.PLAYER_SPEED, Constants.PLAYER_JUMP_FORCE,
      Constants.PLAYER_MAX_HEALTH, abs_eq_max_neg, max_def]
    try simp
    try norm_num [abs_eq_max_neg, max_def]
    try simp
  rw [h1]
  simp only [Option.some_bind]
  norm_num [playerTick, PhysicsEngine.landingInvoked, PhysicsEngine.handleCollisions,
      PhysicsEngine.collideAll, PhysicsEngine.collideWith, PhysicsEngine.handlePlatformEffects,
      PhysicsEngine.resolveCollision, PhysicsEngine.handleLanding,
      CollisionSystem.checkCollision, CollisionSystem.calculateOverlap,
      Player.update, Player.updateTimers, Player.clampMinY, Player.handleInput,
      Player.applyPhysics, Player.updateAnimation, Player.updateBounds, Player.create,
      Player.getCollisionRect, Player.jump, Player.maxFrames,
      Platform.create, Platform.getCollisionRect, Platform.startBreaking,
      InputHandler.idle, InputHandler.getHorizontalInput, InputHandler.isJumpPressed,
      Constants.GRAVITY, Constants.MAX_FALL_SPEED, Constants.FRICTION, Constants.PLAYER_WIDTH,
      Constants.PLAYER_HEIGHT, Constants.PLAYER_SPEED, Constants.PLAYER_JUMP_FORCE,
      Constants.PLAYER_MAX_HEALTH, abs_eq_max_neg, max_def]
  try simp
  try norm_num [abs_eq_max_neg, max_def]
  try simp

/-! ### C12 and C13: the platform loop -/

/-- One pass of the platform loop leaves a removed or non-colliding platform and the player
untouched. -/
theorem collideWith_skip (player : Player) (platform : Platform)
    (h : platform.width = 0 ∨ platform.height = 0 ∨
      (CollisionSystem.checkCollision player.getCollisionRect
        platform.getCollisionRect).collided = false) :
    PhysicsEngine.collideWith player platform = (player, platform) := by
  simp only [PhysicsEngine.collideWith]
  rcases h with h | h | h
  · simp [h]
  · simp [h]
  · simp [h]

/-- One pass of the platform loop can set the grounded flag only through a collision with
side `top` on a platform of non-zero width and height. -/
theorem collideWith_grounded (player : Player) (platform : Platform)
    (h : (PhysicsEngine.collideWith player platform).1.isOnGround = true) :
    player.isOnGround = true ∨
      (platform.width ≠ 0 ∧ platform.height ≠ 0 ∧
        (CollisionSystem.checkCollision player.getCollisionRect
          platform.getCollisionRect).collided = true ∧
        (CollisionSystem.checkCollision player.getCollisionRect
          platform.getCollisionRect).side = some Side.top) := by
  by_cases hrem : platform.width = 0 ∨ platform.height = 0
  · left
    rw [collideWith_skip player platform (by tauto)] at h
    exact h
  · by_cases hcol : (CollisionSystem.checkCollision player.getCollisionRect
        platform.getCollisionRect).collided = true
    · have hside := checkCollision_side _ _ hcol
      generalize hs : (if abs (CollisionSystem.calculateOverlap player.getCollisionRect.x
          player.getCollisionRect.width platform.getCollisionRect.x
          platform.getCollisionRect.width) <
          abs (CollisionSystem.calculateOverlap player.getCollisionRect.y
            player.getCollisionRect.height platform.getCollisionRect.y
            platform.getCollisionRect.height) then
          (if CollisionSystem.calculateOverlap player.getCollisionRect.x
            player.getCollisionRect.width platform.getCollisionRect.x
            platform.getCollisionRect.width < 0 then Side.left else Side.right)
        else
          (if CollisionSystem.calculateOverlap player.getCollisionRect.y
            player.getCollisionRect.height platform.getCollisionRect.y
            platform.getCollisionRect.height < 0 then Side.top else Side.bottom)) = side
        at hside
      simp only [PhysicsEngine.collideWith, hrem, if_false, hcol, if_true, hside] at h
      cases side
      · left
        simpa [PhysicsEngine.handlePlatformEffects, PhysicsEngine.resolveCollision] using h
      · left
        simpa [PhysicsEngine.handlePlatformEffects, PhysicsEngine.resolveCollision] using h
      · right
        push_neg at hrem
        exact ⟨hrem.1, hrem.2, hcol, hside⟩
      · left
        simpa [PhysicsEngine.handlePlatformEffects, PhysicsEngine.resolveCollision] using h
    · left
      have hf : (CollisionSystem.checkCollision player.getCollisionRect
          platform.getCollisionRect).collided = false := by simpa using hcol
      rw [collideWith_skip player platform (Or.inr (Or.inr hf))] at h
      exact h

/-- The platform loop can end grounded only if it started grounded or some platform of
non-zero width and height collided with side `top` against the player state reached just
before that platform. -/
theorem collideAll_grounded :
    ∀ (platforms : List Platform) (player : Player),
      (PhysicsEngine.collideAll player platforms).1.isOnGround = true →
      player.isOnGround = true ∨
        ∃ (pre : List Platform) (platform : Platform) (post : List Platform),
          platforms = pre ++ platform :: post ∧
          platform.width ≠ 0 ∧ platform.height ≠ 0 ∧
          (CollisionSystem.checkCollision
            (PhysicsEngine.collideAll player pre).1.getCollisionRect
            platform.getCollisionRect).collided = true ∧
          (CollisionSystem.checkCollision
            (PhysicsEngine.collideAll player pre).1.getCollisionRect
            platform.getCollisionRect).side = some Side.top := by
  intro platforms
  induction platforms with
  | nil =>
    intro player h
    left
    exact h
  | cons platform rest ih =>
    intro player h
    simp only [PhysicsEngine.collideAll] at h
    rcases ih (PhysicsEngine.collideWith player platform).1 h with h1 | ⟨pre, pl, post, e, hw, hh, hc, hs⟩
    · rcases collideWith_grounded player platform h1 with h2 | ⟨hw, hh, hc, hs⟩
      · left
        exact h2
      · right
        exact ⟨[], platform, rest, rfl, hw, hh, hc, hs⟩
    · right
      refine ⟨platform :: pre, pl, post, ?_, hw, hh, ?_, ?_⟩
      · rw [e]
        rfl
      · simpa only [PhysicsEngine.collideAll] using hc
      · simpa only [PhysicsEngine.collideAll] using hs

/-- A platform loop in which no platform is hit returns the player and the platforms as they
were. -/
theorem collideAll_no_hit :
    ∀ (platforms : List Platform) (player : Player),
      (∀ platform ∈ platforms, platform.width = 0 ∨ platform.height = 0 ∨
        (CollisionSystem.checkCollision player.getCollisionRect
          platform.getCollisionRect).collided = false) →
      PhysicsEngine.collideAll player platforms = (player, platforms) := by
  intro platforms
  induction platforms with
  | nil => intro player _; rfl
  | cons platform rest ih =>
    intro player h
    have h0 := collideWith_skip player platform (h platform (List.mem_cons_self _ _))
    simp only [PhysicsEngine.collideAll, h0]
    rw [ih player (fun pl hpl => h pl (List.mem_cons_of_mem _ hpl))]

/-- Deleting the platforms of width 0 or height 0 does not change the player the platform
loop ends with. -/
theorem collideAll_filter :
    ∀ (platforms : List Platform) (player : Player),
      (PhysicsEngine.collideAll player platforms).1 =
        (PhysicsEngine.collideAll player
          (platforms.filter (fun platform => !platform.isRemoved))).1 := by
  intro platforms
  induction platforms with
  | nil => intro player; rfl
  | cons platform rest ih =>
    intro player
    by_cases hrem : platform.width = 0 ∨ platform.height = 0
    · have h0 := collideWith_skip player platform (by tauto)
      have hr : platform.isRemoved = true := by simp [Platform.isRemoved, hrem]
      simp only [PhysicsEngine.collideAll, h0, List.filter_cons, hr, Bool.not_true,
        Bool.false_eq_true, if_false]
      exact ih player
    · have hr : platform.isRemoved = false := by simp [Platform.isRemoved, hrem]
      simp only [PhysicsEngine.collideAll, List.filter_cons, hr, Bool.not_false, if_true]
      exact ih _

/-- C12. Grounded is re-derived in every `handleCollisions` call. If the call ends with
`player.isOnGround = true`, then in this call some platform of non-zero width and height
collided with side `top` against the player state reached when the loop came to it. If no
platform collides with the player, the call ends with `isOnGround = false`, whatever the flag
was before, and changes nothing else. -/
theorem handleCollisions_grounded_rederived (player : Player) (platforms : List Platform) :
    ((PhysicsEngine.handleCollisions player platforms).map (fun r => r.1.isOnGround) = some true →
      ∃ (pre : List Platform) (platform : Platform) (post : List Platform),
        platforms = pre ++ platform :: post ∧
        platform.width ≠ 0 ∧ platform.height ≠ 0 ∧
        (CollisionSystem.checkCollision
          (PhysicsEngine.collideAll { player with isOnGround := false } pre).1.getCollisionRect
          platform.getCollisionRect).collided = true ∧
        (CollisionSystem.checkCollision
          (PhysicsEngine.collideAll { player with isOnGround := false } pre).1.getCollisionRect
          platform.getCollisionRect).side = some Side.top) ∧
    ((∀ platform ∈ platforms, platform.width = 0 ∨ platform.height = 0 ∨
        (CollisionSystem.checkCollision player.getCollisionRect
          platform.getCollisionRect).collided = false) →
      PhysicsEngine.handleCollisions player platforms =
        some ({ player with isOnGround := false }, platforms)) := by
  constructor
  · intro h
    have hloop : (PhysicsEngine.collideAll { player with isOnGround := false }
        platforms).1.isOnGround = true := by
      rw [handleCollisions_eq_landing] at h
      split_ifs at h with hl
      · simp only [PhysicsEngine.handleLanding] at h
        split_ifs at h with hv
        · simp at h
        · simpa using h
      · simpa using h
    rcases collideAll_grounded platforms _ hloop with h0 | hex
    · simp at h0
    · exact hex
  · intro h
    have hloop := collideAll_no_hit platforms { player with isOnGround := false } h
    rw [handleCollisions_eq_landing]
    simp [PhysicsEngine.landingInvoked, hloop]

/-- C12 witness: an airborne player at (0,325/3) overlapping the platform (-50,90,200,32) from
below its centre ends grounded through a `top` collision; a player at (0,0) far from the
platform (500,500,100,32) ends not grounded although it was grounded before the call. -/
theorem handleCollisions_grounded_rederived_witness :
    (∃ (pre : List Platform) (platform : Platform) (post : List Platform),
        [Platform.create (-50) 90 200 32 PlatformType.normal] = pre ++ platform :: post ∧
        platform.width ≠ 0 ∧ platform.height ≠ 0 ∧
        (CollisionSystem.checkCollision
          (PhysicsEngine.collideAll { Player.create 0 (325 / 3) with isOnGround := false }
            pre).1.getCollisionRect
          platform.getCollisionRect).collided = true ∧
        (CollisionSystem.checkCollision
          (PhysicsEngine.collideAll { Player.create 0 (325 / 3) with isOnGround := false }
            pre).1.getCollisionRect
          platform.getCollisionRect).side = some Side.top) ∧
    PhysicsEngine.handleCollisions { Player.create 0 0 with isOnGround := true }
        [Platform.create 500 500 100 32 PlatformType.normal] =
      some ({ ({ Player.create 0 0 with isOnGround := true } : Player) with
                isOnGround := false },
        [Platform.create 500 500 100 32 PlatformType.normal]) :=
  ⟨(handleCollisions_grounded_rederived (Player.create 0 (325 / 3))
      [Platform.create (-50) 90 200 32 PlatformType.normal]).1
      (by
        norm_num [PhysicsEngine.handleCollisions, PhysicsEngine.collideAll,
          PhysicsEngine.collideWith, PhysicsEngine.handlePlatformEffects,
          PhysicsEngine.resolveCollision, PhysicsEngine.handleLanding,
          CollisionSystem.checkCollision, CollisionSystem.calculateOverlap, Player.create,
          Player.getCollisionRect, Platform.create, Platform.getCollisionRect,
          Platform.startBreaking, Constants.PLAYER_WIDTH, Constants.PLAYER_HEIGHT,
          Constants.PLAYER_SPEED, Constants.PLAYER_JUMP_FORCE, Constants.GRAVITY,
          Constants.MAX_FALL_SPEED, Constants.PLAYER_MAX_HEALTH, abs_eq_max_neg, max_def]
        try simp
        try norm_num [abs_eq_max_neg, max_def]
        try simp),
   (handleCollisions_grounded_rederived { Player.create 0 0 with isOnGround := true }
      [Platform.create 500 500 100 32 PlatformType.normal]).2
      (by
        intro platform hmem
        rw [List.mem_singleton] at hmem
        subst hmem
        right; right
        norm_num [CollisionSystem.checkCollision, Player.create, Player.getCollisionRect,
          Platform.create, Platform.getCollisionRect, Constants.PLAYER_WIDTH,
          Constants.PLAYER_HEIGHT])⟩

/-- The end of `handleCollisions` yields the same player for two loop results that agree on
the player. -/
theorem landing_finish_player (wasOnGround : Bool) (a b : Player × List Platform)
    (h : a.1 = b.1) :
    Option.map (fun r => r.1)
        (if (!wasOnGround && a.1.isOnGround) = true then
          (PhysicsEngine.handleLanding a.1).map (fun landed => (landed, a.2))
        else some a) =
      Option.map (fun r => r.1)
        (if (!wasOnGround && b.1.isOnGround) = true then
          (PhysicsEngine.handleLanding b.1).map (fun landed => (landed, b.2))
        else some b) := by
  obtain ⟨a1, a2⟩ := a
  obtain ⟨b1, b2⟩ := b
  simp only at h
  subst h
  split_ifs
  · cases PhysicsEngine.handleLanding a1 <;> rfl
  · rfl

/-- C13. Removed platforms are excluded. `handleCollisions` yields the same player state on a
platform list as on the list with every platform of width 0 or height 0 deleted (and throws in
the same cases); with only removed platforms it keeps the player's position, velocity and all
other fields and ends with `isOnGround = false`, wherever the platforms lie. -/
theorem handleCollisions_skips_removed (player : Player) (platforms : List Platform) :
    ((PhysicsEngine.handleCollisions player platforms).map (fun r => r.1) =
      (PhysicsEngine.handleCollisions player
        (platforms.filter (fun platform => !platform.isRemoved))).map (fun r => r.1)) ∧
    ((∀ platform ∈ platforms, platform.width = 0 ∨ platform.height = 0) →
      PhysicsEngine.handleCollisions player platforms =
        some ({ player with isOnGround := false }, platforms)) := by
  constructor
  · have hf := collideAll_filter platforms { player with isOnGround := false }
    rw [handleCollisions_eq_landing, handleCollisions_eq_landing]
    exact landing_finish_player player.isOnGround _ _ hf
  · intro h
    have hloop := collideAll_no_hit platforms { player with isOnGround := false }
      (fun pl hpl => by
        rcases h pl hpl with h1 | h1
        · exact Or.inl h1
        · exact Or.inr (Or.inl h1))
    rw [handleCollisions_eq_landing]
    simp [PhysicsEngine.landingInvoked, hloop]

/-- C13 witness: a grounded player at (100,400) whose rectangle contains the position of a
platform that has collapsed to 0 x 0 at (110,420). -/
theorem handleCollisions_skips_removed_witness :
    PhysicsEngine.handleCollisions { Player.create 100 400 with isOnGround := true }
        [{ Platform.create 110 420 128 32 PlatformType.breakable with width := 0, height := 0 }] =
      some ({ ({ Player.create 100 400 with isOnGround := true } : Player) with
                isOnGround := false },
        [{ Platform.create 110 420 128 32 PlatformType.breakable with
            width := 0, height := 0 }]) :=
  (handleCollisions_skips_removed { Player.create 100 400 with isOnGround := true }
    [{ Platform.create 110 420 128 32 PlatformType.breakable with width := 0, height := 0 }]).2
    (by
      intro platform hmem
      rw [List.mem_singleton] at hmem
      subst hmem
      left
      rfl)

/-! ### C14 and C15: platform effects -/

/-- C14. Boost. For every player and every platform with `isJumpBoost`, `resolveCollision`
followed by `handlePlatformEffects` with side `top` leaves `velocity.y` equal to the platform's
`jumpBoostForce`, `isOnGround = false` and `isJumping = true`; a constructed `jumpBoost`
platform has `isJumpBoost` set and `jumpBoostForce = -18`; with any other side
`handlePlatformEffects` changes neither the player nor the platform. -/
theorem boost_platform_effect (player : Player) (platform : Platform) :
    (platform.isJumpBoost = true →
      (PhysicsEngine.handlePlatformEffects
          (PhysicsEngine.resolveCollision player platform Side.top) platform Side.top).1.velocity.y
        = platform.jumpBoostForce ∧
      (PhysicsEngine.handlePlatformEffects
          (PhysicsEngine.resolveCollision player platform Side.top) platform Side.top).1.isOnGround
        = false ∧
      (PhysicsEngine.handlePlatformEffects
          (PhysicsEngine.resolveCollision player platform Side.top) platform Side.top).1.isJumping
        = true) ∧
    (∀ x y width height : ℚ,
      (Platform.create x y width height PlatformType.jumpBoost).isJumpBoost = true ∧
      (Platform.create x y width height PlatformType.jumpBoost).jumpBoostForce = -18) ∧
    (∀ side : Side, side ≠ Side.top →
      PhysicsEngine.handlePlatformEffects player platform side = (player, platform)) := by
  refine ⟨?_, ?_, ?_⟩
  · intro h
    simp [PhysicsEngine.handlePlatformEffects, h]
  · intro x y width height
    simp [Platform.create]
  · intro side hside
    simp [PhysicsEngine.handlePlatformEffects, hside]

/-- C14 witness: a fresh player at (100,400) on the boost platform (50,450,200,32). -/
theorem boost_platform_effect_witness :
    ((PhysicsEngine.handlePlatformEffects
        (PhysicsEngine.resolveCollision (Player.create 100 400)
          (Platform.create 50 450 200 32 PlatformType.jumpBoost) Side.top)
        (Platform.create 50 450 200 32 PlatformType.jumpBoost) Side.top).1.velocity.y
      = (Platform.create 50 450 200 32 PlatformType.jumpBoost).jumpBoostForce ∧
    (PhysicsEngine.handlePlatformEffects
        (PhysicsEngine.resolveCollision (Player.create 100 400)
          (Platform.create 50 450 200 32 PlatformType.jumpBoost) Side.top)
        (Platform.create 50 450 200 32 PlatformType.jumpBoost) Side.top).1.isOnGround = false ∧
    (PhysicsEngine.handlePlatformEffects
        (PhysicsEngine.resolveCollision (Player.create 100 400)
          (Platform.create 50 450 200 32 PlatformType.jumpBoost) Side.top)
        (Platform.create 50 450 200 32 PlatformType.jumpBoost) Side.top).1.isJumping = true) ∧
    PhysicsEngine.handlePlatformEffects (Player.create 100 400)
        (Platform.create 50 450 200 32 PlatformType.jumpBoost) Side.left =
      (Player.create 100 400, Platform.create 50 450 200 32 PlatformType.jumpBoost) :=
  ⟨(boost_platform_effect (Player.create 100 400)
      (Platform.create 50 450 200 32 PlatformType.jumpBoost)).1 (by simp [Platform.create]),
   (boost_platform_effect (Player.create 100 400)
      (Platform.create 50 450 200 32 PlatformType.jumpBoost)).2.2 Side.left (by simp)⟩

/-- C15. `startBreaking` is idempotent: on a breakable platform that is already breaking it
returns the platform unchanged (so `isBreaking`, `breakTimer`, `breakProgress` and `originalX`
keep their values), on a non-breakable platform it returns the platform unchanged, and two
calls in a row equal one call. -/
theorem startBreaking_idempotent (p : Platform) :
    (p.isBreakable = true → p.isBreaking = true → p.startBreaking = p) ∧
    (p.isBreakable = false → p.startBreaking = p) ∧
    p.startBreaking.startBreaking = p.startBreaking := by
  refine ⟨?_, ?_, ?_⟩
  · intro h1 h2
    simp [Platform.startBreaking, h1, h2]
  · intro h1
    simp [Platform.startBreaking, h1]
  · simp only [Platform.startBreaking]
    split_ifs <;> simp_all

/-- C15 witness: a breakable platform that has been breaking for 300 ms, and a normal
platform. -/
theorem startBreaking_idempotent_witness :
    ({ (Platform.create 100 300 128 32 PlatformType.breakable).startBreaking with
        breakTimer := 300, breakProgress := 3 / 10 } : Platform).startBreaking =
      { (Platform.create 100 300 128 32 PlatformType.breakable).startBreaking with
        breakTimer := 300, breakProgress := 3 / 10 } ∧
    (Platform.create 100 300 128 32 PlatformType.normal).startBreaking =
      Platform.create 100 300 128 32 PlatformType.normal :=
  ⟨(startBreaking_idempotent
      { (Platform.create 100 300 128 32 PlatformType.breakable).startBreaking with
        breakTimer := 300, breakProgress := 3 / 10 }).1
      (by simp [Platform.startBreaking, Platform.create])
      (by simp [Platform.startBreaking, Platform.create]),
   (startBreaking_idempotent (Platform.create 100 300 128 32 PlatformType.normal)).2.1
      (by simp [Platform.create])⟩

/-! ### Rounded arithmetic: the exact instance and the double instance -/

/-- With the identity as rounding, the rounded platform update is the exact one. -/
theorem platform_updateWith_id (sin : ℚ → ℚ) (now deltaTime : ℚ) (p : Platform) :
    p.updateWith (fun q => q) sin now deltaTime = p.update sin now deltaTime := by
  rfl

/-- With the identity as rounding, the rounded player update is the exact one. -/
theorem player_updateWith_id (deltaTime : ℚ) (input : InputHandler) (p : Player) :
    p.updateWith (fun q => q) deltaTime input = p.update deltaTime input := by
  rfl

/-- With the identity as rounding, a sequence of platform calls is the exact one. -/
theorem platform_applyOpsWith_id (sin : ℚ → ℚ) :
    ∀ (ops : List PlatformOp) (p : Platform),
      Platform.applyOpsWith (fun q => q) sin ops p = Platform.applyOps sin ops p := by
  intro ops
  induction ops with
  | nil => intro p; rfl
  | cons op rest ih =>
    intro p
    cases op with
    | update now deltaTime =>
      simp only [Platform.applyOpsWith, Platform.applyOps]
      rw [platform_updateWith_id]
      exact ih _
    | startBreaking =>
      simp only [Platform.applyOpsWith, Platform.applyOps]
      exact ih _

/-- With the identity as rounding, a run of player updates is the exact one. -/
theorem player_runWith_id :
    ∀ (frames : List (ℚ × InputHandler)) (p : Player),
      Player.runWith (fun q => q) frames p = Player.run frames p := by
  intro frames
  induction frames with
  | nil => intro p; rfl
  | cons frame rest ih =>
    intro p
    simp only [Player.runWith, Player.run]
    rw [player_updateWith_id]
    exact ih _

/-- Values of `Float64.round`: the doubles written `0.1`, `0.85` and `1000 / 60`, a number
that is a double already, and two ties. -/
theorem float64_round_values :
    Float64.round (1 / 10) = 3602879701896397 / 36028797018963968 ∧
      Float64.round (85 / 100) = 7656119366529843 / 9007199254740992 ∧
      Float64.round (1000 / 60) = 4691249611844267 / 281474976710656 ∧
      Float64.round 1000 = 1000 ∧
      Float64.round (1 + 1 / 2 ^ 53) = 1 ∧
      Float64.round (1 + 3 / 2 ^ 53) = 1 + 1 / 2 ^ 51 := by
  decide!

/-- With enough fuel, `log2Fuel` is the floor of the binary logarithm. -/
theorem log2Fuel_spec :
    ∀ (fuel n : ℕ), 1 ≤ n → n ≤ fuel →
      2 ^ Float64.log2Fuel fuel n ≤ n ∧ n < 2 ^ (Float64.log2Fuel fuel n + 1) := by
  intro fuel
  induction fuel with
  | zero =>
    intro n h1 h2
    omega
  | succ fuel ih =>
    intro n h1 h2
    simp only [Float64.log2Fuel]
    by_cases hn : n < 2
    · rw [if_pos hn]
      simp only [pow_zero, zero_add, pow_one]
      omega
    · rw [if_neg hn]
      obtain ⟨a, b⟩ := ih (n / 2) (by omega) (by omega)
      rw [pow_succ, pow_succ]
      constructor
      · omega
      · omega

/-- The nearest integer never exceeds an integer bound of the argument. -/
theorem roundHalfEven_le (x : ℚ) (N : ℤ) (h : x ≤ N) : Float64.roundHalfEven x ≤ N := by
  have hf : Int.floor x ≤ N := Int.floor_le_floor h |>.trans (by simp)
  simp only [Float64.roundHalfEven]
  by_cases hx : x = N
  · have hfl : Int.floor x = N := by rw [hx]; simp
    rw [hfl, hx]
    norm_num
  · have hlt : x < N := lt_of_le_of_ne h hx
    have hfl : Int.floor x < N := Int.floor_lt.mpr hlt
    split_ifs <;> omega

/-- The nearest integer is within one half of the argument. -/
theorem roundHalfEven_error (x : ℚ) : |(Float64.roundHalfEven x : ℚ) - x| ≤ 1 / 2 := by
  have h1 : (Int.floor x : ℚ) ≤ x := Int.floor_le x
  have h2 : x < Int.floor x + 1 := Int.lt_floor_add_one x
  simp only [Float64.roundHalfEven]
  rw [abs_le]
  split_ifs with a b c
  · constructor <;> linarith
  · push_cast
    constructor <;> linarith
  · have : x - Int.floor x = 1 / 2 := le_antisymm (not_lt.mp b) (not_lt.mp a)
    constructor <;> linarith
  · have : x - Int.floor x = 1 / 2 := le_antisymm (not_lt.mp b) (not_lt.mp a)
    push_cast
    constructor <;> linarith

/-- The binary exponent brackets the magnitude: `2^e ≤ |q| < 2^(e+1)`. -/
theorem float64_exponent_spec (q : ℚ) (hq : q ≠ 0) :
    (2 : ℚ) ^ Float64.exponent q ≤ |q| ∧ |q| < (2 : ℚ) ^ (Float64.exponent q + 1) := by
  have hn : 1 ≤ q.num.natAbs := Int.natAbs_pos.mpr (Rat.num_ne_zero.mpr hq)
  have hd : 1 ≤ q.den := q.den_pos
  obtain ⟨a1, a2⟩ := log2Fuel_spec q.num.natAbs q.num.natAbs hn le_rfl
  obtain ⟨b1, b2⟩ := log2Fuel_spec q.den q.den hd le_rfl
  have habs : |q| = (q.num.natAbs : ℚ) / (q.den : ℚ) := by
    rw [Rat.abs_def, Rat.divInt_eq_div, Int.cast_natCast, Int.cast_natCast]
  have A1 : (2 : ℚ) ^ Float64.log2Fuel q.num.natAbs q.num.natAbs ≤ (q.num.natAbs : ℚ) := by
    exact_mod_cast a1
  have A2 : (q.num.natAbs : ℚ) < (2 : ℚ) ^ (Float64.log2Fuel q.num.natAbs q.num.natAbs + 1) := by
    exact_mod_cast a2
  have B1 : (2 : ℚ) ^ Float64.log2Fuel q.den q.den ≤ (q.den : ℚ) := by
    exact_mod_cast b1
  have B2 : (q.den : ℚ) < (2 : ℚ) ^ (Float64.log2Fuel q.den q.den + 1) := by
    exact_mod_cast b2
  have hdpos : (0 : ℚ) < (q.den : ℚ) := by exact_mod_cast hd
  have hnpos : (0 : ℚ) < (q.num.natAbs : ℚ) := by exact_mod_cast hn
  generalize ha : Float64.log2Fuel q.num.natAbs q.num.natAbs = a at A1 A2
  generalize hb : Float64.log2Fuel q.den q.den = b at B1 B2
  have hk : (2 : ℚ) ^ ((a : ℤ) - (b : ℤ)) = (2 : ℚ) ^ a / (2 : ℚ) ^ b := by
    rw [zpow_sub₀ (two_ne_zero), zpow_natCast, zpow_natCast]
  have hk1 : (2 : ℚ) ^ ((a : ℤ) - (b : ℤ) + 1) = (2 : ℚ) ^ (a + 1) / (2 : ℚ) ^ b := by
    rw [zpow_add_one₀ (two_ne_zero), hk, pow_succ]
    ring
  have hk0 : (2 : ℚ) ^ ((a : ℤ) - (b : ℤ) - 1) = (2 : ℚ) ^ a / (2 : ℚ) ^ (b + 1) := by
    rw [zpow_sub_one₀ (two_ne_zero), hk, pow_succ]
    field_simp
  have hpa : (0 : ℚ) < (2 : ℚ) ^ a := by positivity
  have hpb : (0 : ℚ) < (2 : ℚ) ^ b := by positivity
  have hpb1 : (0 : ℚ) < (2 : ℚ) ^ (b + 1) := by positivity
  have hexp : Float64.exponent q =
      (if (2 : ℚ) ^ ((a : ℤ) - (b : ℤ)) ≤ |q| then (a : ℤ) - (b : ℤ)
        else (a : ℤ) - (b : ℤ) - 1) := by
    simp only [Float64.exponent, ha, hb]
  rw [hexp]
  by_cases hc : (2 : ℚ) ^ ((a : ℤ) - (b : ℤ)) ≤ |q|
  · rw [if_pos hc]
    refine ⟨hc, ?_⟩
    rw [hk1, habs, div_lt_div_iff₀ hdpos hpb]
    calc (q.num.natAbs : ℚ) * (2 : ℚ) ^ b < (2 : ℚ) ^ (a + 1) * (2 : ℚ) ^ b :=
          mul_lt_mul_of_pos_right A2 hpb
      _ ≤ (2 : ℚ) ^ (a + 1) * (q.den : ℚ) :=
          mul_le_mul_of_nonneg_left B1 (by positivity)
  · rw [if_neg hc]
    constructor
    · rw [hk0, habs, div_le_div_iff₀ hpb1 hdpos]
      calc (2 : ℚ) ^ a * (q.den : ℚ) ≤ (2 : ℚ) ^ a * (2 : ℚ) ^ (b + 1) :=
            mul_le_mul_of_nonneg_left (le_of_lt B2) (le_of_lt hpa)
        _ ≤ (q.num.natAbs : ℚ) * (2 : ℚ) ^ (b + 1) :=
            mul_le_mul_of_nonneg_right A1 (le_of_lt hpb1)
    · rw [sub_add_cancel]
      exact not_le.mp hc

/-- `Float64.round` is within half a unit in the last place of its argument. -/
theorem float64_round_error (q : ℚ) :
    |Float64.round q - q| ≤ (2 : ℚ) ^ (max (Float64.exponent q) (-1022) - 53) := by
  by_cases hq : q = 0
  · subst hq
    simp only [Float64.round, if_true, sub_zero, abs_zero]
    positivity
  · simp only [Float64.round, if_neg hq]
    generalize max (Float64.exponent q) (-1022) = e
    have hu : (0 : ℚ) < (2 : ℚ) ^ (e - 52) := by positivity
    have herr := roundHalfEven_error (q / (2 : ℚ) ^ (e - 52))
    have hsplit : (Float64.roundHalfEven (q / (2 : ℚ) ^ (e - 52)) : ℚ) * (2 : ℚ) ^ (e - 52) - q =
        ((Float64.roundHalfEven (q / (2 : ℚ) ^ (e - 52)) : ℚ) - q / (2 : ℚ) ^ (e - 52)) *
          (2 : ℚ) ^ (e - 52) := by
      field_simp
    have hhalf : (2 : ℚ) ^ (e - 53) = 1 / 2 * (2 : ℚ) ^ (e - 52) := by
      rw [show e - 53 = e - 52 - 1 by ring, zpow_sub_one₀ (two_ne_zero)]
      ring
    rw [hsplit, abs_mul, abs_of_pos hu, hhalf]
    exact mul_le_mul_of_nonneg_right herr (le_of_lt hu)

/-- Rounding never carries a value above a positive double that bounds it: each multiple of
a finer unit that a double is made of is reached exactly. -/
theorem float64_round_le_of_le (q c : ℚ) (hc0 : 0 < c) (hc : Float64.round c = c)
    (hq : q ≤ c) : Float64.round q ≤ c := by
  by_cases h0 : q = 0
  · subst h0
    simp only [Float64.round, if_true]
    exact hq
  · simp only [Float64.round, if_neg h0]
    rcases lt_or_gt_of_ne h0 with hneg | hpos
    · have hu : (0 : ℚ) < (2 : ℚ) ^ (max (Float64.exponent q) (-1022) - 52) := by positivity
      have hx : q / (2 : ℚ) ^ (max (Float64.exponent q) (-1022) - 52) ≤ ((0 : ℤ) : ℚ) := by
        rw [Int.cast_zero]
        exact le_of_lt (div_neg_of_neg_of_pos hneg hu)
      have hr := roundHalfEven_le _ 0 hx
      have hr2 : (Float64.roundHalfEven
          (q / (2 : ℚ) ^ (max (Float64.exponent q) (-1022) - 52)) : ℚ) ≤ 0 := by
        exact_mod_cast hr
      nlinarith [mul_nonneg (neg_nonneg.mpr hr2) (le_of_lt hu)]
    · have hcne : c ≠ 0 := ne_of_gt hc0
      obtain ⟨s1, _⟩ := float64_exponent_spec q h0
      obtain ⟨_, t2⟩ := float64_exponent_spec c hcne
      rw [abs_of_pos hpos] at s1
      rw [abs_of_pos hc0] at t2
      have hlt : (2 : ℚ) ^ Float64.exponent q < (2 : ℚ) ^ (Float64.exponent c + 1) :=
        lt_of_le_of_lt (le_trans s1 hq) t2
      have he : Float64.exponent q < Float64.exponent c + 1 :=
        (zpow_lt_zpow_iff_right₀ (by norm_num)).mp hlt
      have hmax : max (Float64.exponent q) (-1022) ≤ max (Float64.exponent c) (-1022) :=
        max_le_max (by omega) le_rfl
      simp only [Float64.round, if_neg hcne] at hc
      generalize max (Float64.exponent q) (-1022) = e at hmax
      generalize max (Float64.exponent c) (-1022) = f at hmax hc
      generalize Float64.roundHalfEven (c / (2 : ℚ) ^ (f - 52)) = m at hc
      have hu : (0 : ℚ) < (2 : ℚ) ^ (e - 52) := by positivity
      obtain ⟨K, hK⟩ : ∃ K : ℕ, (K : ℤ) = f - e := ⟨(f - e).toNat, Int.toNat_of_nonneg (by omega)⟩
      have hpow : (2 : ℚ) ^ (f - 52) = (2 : ℚ) ^ K * (2 : ℚ) ^ (e - 52) := by
        rw [← zpow_natCast, hK, ← zpow_add₀ (two_ne_zero)]
        congr 1
        ring
      have hcdiv : c / (2 : ℚ) ^ (e - 52) = (((m * 2 ^ K : ℤ)) : ℚ) := by
        rw [← hc, hpow]
        push_cast
        field_simp
        ring
      have hx : q / (2 : ℚ) ^ (e - 52) ≤ (((m * 2 ^ K : ℤ)) : ℚ) := by
        rw [← hcdiv]
        exact div_le_div_of_nonneg_right hq (le_of_lt hu)
      have hr := roundHalfEven_le _ _ hx
      have hr2 : (Float64.roundHalfEven (q / (2 : ℚ) ^ (e - 52)) : ℚ) ≤
          (((m * 2 ^ K : ℤ)) : ℚ) := by
        exact_mod_cast hr
      calc (Float64.roundHalfEven (q / (2 : ℚ) ^ (e - 52)) : ℚ) * (2 : ℚ) ^ (e - 52)
          ≤ (((m * 2 ^ K : ℤ)) : ℚ) * (2 : ℚ) ^ (e - 52) :=
            mul_le_mul_of_nonneg_right hr2 (le_of_lt hu)
        _ = c := by
            rw [← hcdiv]
            field_simp

/-! ### C16: the break countdown -/

/-- On a platform that is already breaking, or is not breakable, `startBreaking` does
nothing. -/
theorem startBreaking_noop (p : Platform) (h : p.isBreaking = true ∨ p.isBreakable = false) :
    p.startBreaking = p := by
  rcases h with h | h <;> simp [Platform.startBreaking, h]

/-- The variant flags and the break duration are not changed by an update, whatever the
rounding. -/
theorem platform_updateWith_flags (round sin : ℚ → ℚ) (now deltaTime : ℚ) (p : Platform) :
    (p.updateWith round sin now deltaTime).isBreakable = p.isBreakable ∧
    (p.updateWith round sin now deltaTime).isBreaking = p.isBreaking ∧
    (p.updateWith round sin now deltaTime).breakDuration = p.breakDuration := by
  simp only [Platform.updateWith, Platform.updateMovementWith, Platform.updateBreakingWith,
    Platform.updateBoundsWith]
  split_ifs <;> simp

/-- Update of a breaking breakable platform: the timer becomes the rounded sum with the step,
and the sizes collapse to 0 exactly when the rounded quotient of the new timer by the break
duration is at least 1. -/
theorem updateWith_breaking_fields (round sin : ℚ → ℚ) (now deltaTime : ℚ) (p : Platform)
    (hb : p.isBreakable = true) (hk : p.isBreaking = true) :
    (p.updateWith round sin now deltaTime).breakTimer = round (p.breakTimer + deltaTime) ∧
    (p.updateWith round sin now deltaTime).width =
      (if round (round (p.breakTimer + deltaTime) / p.breakDuration) ≥ 1 then 0
        else p.width) ∧
    (p.updateWith round sin now deltaTime).height =
      (if round (round (p.breakTimer + deltaTime) / p.breakDuration) ≥ 1 then 0
        else p.height) := by
  simp only [Platform.updateWith, Platform.updateMovementWith, Platform.updateBreakingWith,
    Platform.updateBoundsWith]
  split_ifs <;> simp_all

/-- An update never makes a collapsed platform grow back, whatever the rounding. -/
theorem updateWith_keeps_zero (round sin : ℚ → ℚ) (now deltaTime : ℚ) (p : Platform)
    (h : p.width = 0 ∧ p.height = 0) :
    (p.updateWith round sin now deltaTime).width = 0 ∧
      (p.updateWith round sin now deltaTime).height = 0 := by
  simp only [Platform.updateWith, Platform.updateMovementWith, Platform.updateBreakingWith,
    Platform.updateBoundsWith]
  split_ifs <;> simp_all

/-- A collapsed platform stays collapsed under every sequence of calls. -/
theorem applyOpsWith_keeps_zero (round sin : ℚ → ℚ) :
    ∀ (ops : List PlatformOp) (q : Platform), q.width = 0 ∧ q.height = 0 →
      (Platform.applyOpsWith round sin ops q).width = 0 ∧
        (Platform.applyOpsWith round sin ops q).height = 0 := by
  intro ops
  induction ops with
  | nil => intro q h; exact h
  | cons op rest ih =>
    intro q h
    cases op with
    | startBreaking =>
      simp only [Platform.applyOpsWith]
      apply ih
      simp only [Platform.startBreaking]
      split_ifs
      · exact h
      · exact h
    | update now dt =>
      simp only [Platform.applyOpsWith]
      exact ih _ (updateWith_keeps_zero round sin now dt q h)

/-- The sizes of a breaking platform along a sequence of calls follow the countdown: 0 once
the countdown has run out, the sizes at the start until then. -/
theorem applyOpsWith_breaking (round sin : ℚ → ℚ) (w h D : ℚ) :
    ∀ (ops : List PlatformOp) (q : Platform) (t : ℚ),
      q.isBreakable = true → q.isBreaking = true → q.breakDuration = D → q.breakTimer = t →
      q.width = w → q.height = h →
      (Platform.countdownReached round D ops t = true →
        (Platform.applyOpsWith round sin ops q).width = 0 ∧
          (Platform.applyOpsWith round sin ops q).height = 0) ∧
      (Platform.countdownReached round D ops t = false →
        (Platform.applyOpsWith round sin ops q).width = w ∧
          (Platform.applyOpsWith round sin ops q).height = h) := by
  intro ops
  induction ops with
  | nil =>
    intro q t _ _ _ _ hw hh
    simp only [Platform.countdownReached, Platform.applyOpsWith]
    exact ⟨fun hc => absurd hc (by simp), fun _ => ⟨hw, hh⟩⟩
  | cons op rest ih =>
    intro q t hb hk hd ht hw hh
    cases op with
    | startBreaking =>
      simp only [Platform.countdownReached, Platform.applyOpsWith]
      rw [startBreaking_noop q (Or.inl hk)]
      exact ih q t hb hk hd ht hw hh
    | update now dt =>
      simp only [Platform.countdownReached, Platform.applyOpsWith]
      obtain ⟨f1, f2, f3⟩ := platform_updateWith_flags round sin now dt q
      obtain ⟨g1, g2, g3⟩ := updateWith_breaking_fields round sin now dt q hb hk
      rw [hd, ht] at g2 g3
      rw [ht] at g1
      by_cases hr : round (round (t + dt) / D) ≥ 1
      · rw [if_pos hr] at g2 g3
        have hz := applyOpsWith_keeps_zero round sin rest _ ⟨g2, g3⟩
        constructor
        · intro _
          exact hz
        · intro hc
          simp [hr] at hc
      · rw [if_neg hr] at g2 g3
        have key := ih (q.updateWith round sin now dt) (round (t + dt)) (by rw [f1, hb])
          (by rw [f2, hk]) (by rw [f3, hd]) g1 (by rw [g2, hw]) (by rw [g3, hh])
        simpa [hr] using key

/-- Sum of non-negative steps is non-negative. -/
theorem platformOp_total_nonneg :
    ∀ ops : List PlatformOp, (∀ op ∈ ops, 0 ≤ op.step) → 0 ≤ PlatformOp.total ops := by
  intro ops
  induction ops with
  | nil => intro _; simp [PlatformOp.total]
  | cons op rest ih =>
    intro h
    simp only [PlatformOp.total]
    exact add_nonneg (h op (List.mem_cons_self _ _))
      (ih (fun o ho => h o (List.mem_cons_of_mem _ ho)))

/-- In exact arithmetic the countdown has run out exactly when the steps, added to the timer
at the start, reach the duration. -/
theorem countdownReached_exact (D : ℚ) (hD : 0 < D) :
    ∀ (ops : List PlatformOp) (t : ℚ), (∀ op ∈ ops, 0 ≤ op.step) → t < D →
      (Platform.countdownReached (fun q => q) D ops t = true ↔
        D ≤ t + PlatformOp.total ops) := by
  intro ops
  induction ops with
  | nil =>
    intro t _ ht
    simp only [Platform.countdownReached, PlatformOp.total, add_zero]
    constructor
    · intro hc
      exact absurd hc (by simp)
    · intro hc
      exact absurd hc (not_le.mpr ht)
  | cons op rest ih =>
    intro t hsteps ht
    have hrest : ∀ o ∈ rest, 0 ≤ o.step := fun o ho => hsteps o (List.mem_cons_of_mem _ ho)
    have hop : 0 ≤ op.step := hsteps op (List.mem_cons_self _ _)
    have hnn := platformOp_total_nonneg rest hrest
    cases op with
    | startBreaking =>
      simp only [Platform.countdownReached, PlatformOp.total, PlatformOp.step, zero_add]
      exact ih t hrest ht
    | update now dt =>
      simp only [PlatformOp.step] at hop
      simp only [Platform.countdownReached, PlatformOp.total, PlatformOp.step,
        Bool.or_eq_true, decide_eq_true_eq]
      have hiff : (t + dt) / D ≥ 1 ↔ D ≤ t + dt := by
        rw [ge_iff_le, le_div_iff₀ hD, one_mul]
      rw [hiff, ← add_assoc]
      by_cases hge : D ≤ t + dt
      · constructor
        · intro _
          linarith
        · intro _
          exact Or.inl hge
      · have := ih (t + dt) hrest (not_le.mp hge)
        constructor
        · rintro (hc | hc)
          · exact absurd hc hge
          · exact this.mp hc
        · intro hc
          exact Or.inr (this.mpr hc)

/-- C16 (counterexample). In double arithmetic, a constructed breakable platform on which
`startBreaking` is called and which is then updated 60 times with the game's step, the double
`1000 / 60`: the steps sum to at least `breakDuration = 1000`, yet the accumulated
`breakTimer` is `999.9999999999991` and width and height still have their original values
128 and 32. The 61st update collapses the platform. -/
theorem break_countdown_rounds_late :
    (Platform.create 100 300 128 32 PlatformType.breakable).breakDuration ≤
        PlatformOp.total (List.replicate 60 (PlatformOp.update 0 (Float64.round (1000 / 60)))) ∧
      (Platform.applyOpsWith Float64.round sinTaylor
          (List.replicate 60 (PlatformOp.update 0 (Float64.round (1000 / 60))))
          (Platform.create 100 300 128 32 PlatformType.breakable).startBreaking).breakTimer =
        1099511627775999 / 1099511627776 ∧
      (Platform.applyOpsWith Float64.round sinTaylor
          (List.replicate 60 (PlatformOp.update 0 (Float64.round (1000 / 60))))
          (Platform.create 100 300 128 32 PlatformType.breakable).startBreaking).width = 128 ∧
      (Platform.applyOpsWith Float64.round sinTaylor
          (List.replicate 60 (PlatformOp.update 0 (Float64.round (1000 / 60))))
          (Platform.create 100 300 128 32 PlatformType.breakable).startBreaking).height = 32 ∧
      (Platform.applyOpsWith Float64.round sinTaylor
          (List.replicate 61 (PlatformOp.update 0 (Float64.round (1000 / 60))))
          (Platform.create 100 300 128 32 PlatformType.breakable).startBreaking).width = 0 := by
  decide!

/-- C16 (amended). A breakable platform of positive width and height with a positive
`breakDuration` (1000 for a constructed platform) on which `startBreaking` is called while it
is not breaking, followed by any sequence of updates and further `startBreaking` calls,
whatever the rounding of the arithmetic: after the sequence width and height are both 0 iff
at some update the accumulated `breakTimer` (the rounded sum of the previous timer and the
step, from 0) divided by `breakDuration` has rounded to at least 1; they have their original
values before that; once 0 they stay 0 under every later update or `startBreaking`. In exact
arithmetic and for steps `>= 0` the condition is that the steps sum to at least
`breakDuration`. In double arithmetic at the game's step `1000 / 60` it first holds at update
61, although 60 steps already sum to at least 1000. -/
theorem break_countdown_amended (round sin : ℚ → ℚ) (p : Platform)
    (ops later : List PlatformOp)
    (hb : p.isBreakable = true) (hk : p.isBreaking = false)
    (hw : 0 < p.width) (hh : 0 < p.height) (hD : 0 < p.breakDuration) :
    (((Platform.applyOpsWith round sin ops p.startBreaking).width = 0 ∧
        (Platform.applyOpsWith round sin ops p.startBreaking).height = 0) ↔
      Platform.countdownReached round p.breakDuration ops 0 = true) ∧
    (Platform.countdownReached round p.breakDuration ops 0 = false →
      (Platform.applyOpsWith round sin ops p.startBreaking).width = p.width ∧
      (Platform.applyOpsWith round sin ops p.startBreaking).height = p.height) ∧
    (Platform.countdownReached round p.breakDuration ops 0 = true →
      (Platform.applyOpsWith round sin later
        (Platform.applyOpsWith round sin ops p.startBreaking)).width = 0 ∧
      (Platform.applyOpsWith round sin later
        (Platform.applyOpsWith round sin ops p.startBreaking)).height = 0) ∧
    ((∀ op ∈ ops, 0 ≤ op.step) →
      (Platform.countdownReached (fun q => q) p.breakDuration ops 0 = true ↔
        p.breakDuration ≤ PlatformOp.total ops)) ∧
    (Platform.countdownReached Float64.round 1000
        (List.replicate 60 (PlatformOp.update 0 (Float64.round (1000 / 60)))) 0 = false ∧
      Platform.countdownReached Float64.round 1000
        (List.replicate 61 (PlatformOp.update 0 (Float64.round (1000 / 60)))) 0 = true ∧
      (1000 : ℚ) ≤
        PlatformOp.total
          (List.replicate 60 (PlatformOp.update 0 (Float64.round (1000 / 60))))) := by
  have hs : p.startBreaking.isBreakable = true ∧ p.startBreaking.isBreaking = true ∧
      p.startBreaking.breakDuration = p.breakDuration ∧ p.startBreaking.breakTimer = 0 ∧
      p.startBreaking.width = p.width ∧ p.startBreaking.height = p.height := by
    simp [Platform.startBreaking, hb, hk]
  obtain ⟨s1, s2, s3, s4, s5, s6⟩ := hs
  have key := applyOpsWith_breaking round sin p.width p.height p.breakDuration ops
    p.startBreaking 0 s1 s2 s3 s4 s5 s6
  refine ⟨⟨?_, key.1⟩, key.2, ?_, ?_, ?_⟩
  · intro hz
    by_contra hcon
    have hf : Platform.countdownReached round p.breakDuration ops 0 = false := by
      simpa using hcon
    have := (key.2 hf).1
    rw [hz.1] at this
    exact absurd this.symm (ne_of_gt hw)
  · intro hge
    exact applyOpsWith_keeps_zero round sin later _ (key.1 hge)
  · intro hsteps
    have := countdownReached_exact p.breakDuration hD ops 0 hsteps hD
    rw [zero_add] at this
    exact this
  · decide!

/-- C16 witness: in double arithmetic a constructed breakable platform, triggered and updated
61 times with the game's step, has collapsed, and stays collapsed under a further
`startBreaking` and update. -/
theorem break_countdown_amended_witness :
    (Platform.applyOpsWith Float64.round sinTaylor
        (List.replicate 61 (PlatformOp.update 0 (Float64.round (1000 / 60))))
        (Platform.create 100 300 128 32 PlatformType.breakable).startBreaking).width = 0 ∧
      (Platform.applyOpsWith Float64.round sinTaylor
        (List.replicate 61 (PlatformOp.update 0 (Float64.round (1000 / 60))))
        (Platform.create 100 300 128 32 PlatformType.breakable).startBreaking).height = 0 ∧
      (Platform.applyOpsWith Float64.round sinTaylor
        [PlatformOp.startBreaking, PlatformOp.update 0 (Float64.round (1000 / 60))]
        (Platform.applyOpsWith Float64.round sinTaylor
          (List.replicate 61 (PlatformOp.update 0 (Float64.round (1000 / 60))))
          (Platform.create 100 300 128 32 PlatformType.breakable).startBreaking)).width = 0 ∧
      (Platform.applyOpsWith Float64.round sinTaylor
        [PlatformOp.startBreaking, PlatformOp.update 0 (Float64.round (1000 / 60))]
        (Platform.applyOpsWith Float64.round sinTaylor
          (List.replicate 61 (PlatformOp.update 0 (Float64.round (1000 / 60))))
          (Platform.create 100 300 128 32 PlatformType.breakable).startBreaking)).height = 0 := by
  have key := break_countdown_amended Float64.round sinTaylor
    (Platform.create 100 300 128 32 PlatformType.breakable)
    (List.replicate 61 (PlatformOp.update 0 (Float64.round (1000 / 60))))
    [PlatformOp.startBreaking, PlatformOp.update 0 (Float64.round (1000 / 60))]
    (by decide!) (by decide!) (by decide!) (by decide!) (by decide!)
  have hreach : Platform.countdownReached Float64.round
      (Platform.create 100 300 128 32 PlatformType.breakable).breakDuration
      (List.replicate 61 (PlatformOp.update 0 (Float64.round (1000 / 60)))) 0 = true := by
    decide!
  exact ⟨(key.1.mpr hreach).1, (key.1.mpr hreach).2, (key.2.2.1 hreach).1,
    (key.2.2.1 hreach).2⟩

/-! ### C17: moving platforms -/

/-- One update of a moving, non-breakable platform: the new `position.x` is the advanced
position clamped to the travel interval, with the direction reversed at a bound. -/
theorem update_moving_fields (sin : ℚ → ℚ) (now deltaTime : ℚ) (p : Platform)
    (hm : p.isMoving = true) (hb : p.isBreakable = false) :
    (p.update sin now deltaTime).originalX = p.originalX ∧
    (p.update sin now deltaTime).moveDistance = p.moveDistance ∧
    (p.update sin now deltaTime).isMoving = true ∧
    (p.update sin now deltaTime).isBreakable = false ∧
    (p.position.x + p.moveSpeed * p.moveDirection * deltaTime > p.originalX + p.moveDistance →
      (p.update sin now deltaTime).position.x = p.originalX + p.moveDistance ∧
      (p.update sin now deltaTime).moveDirection = -1) ∧
    (¬ p.position.x + p.moveSpeed * p.moveDirection * deltaTime > p.originalX + p.moveDistance →
      p.position.x + p.moveSpeed * p.moveDirection * deltaTime < p.originalX - p.moveDistance →
      (p.update sin now deltaTime).position.x = p.originalX - p.moveDistance ∧
      (p.update sin now deltaTime).moveDirection = 1) ∧
    (¬ p.position.x + p.moveSpeed * p.moveDirection * deltaTime > p.originalX + p.moveDistance →
      ¬ p.position.x + p.moveSpeed * p.moveDirection * deltaTime < p.originalX - p.moveDistance →
      (p.update sin now deltaTime).position.x =
        p.position.x + p.moveSpeed * p.moveDirection * deltaTime ∧
      (p.update sin now deltaTime).moveDirection = p.moveDirection) := by
  simp only [Platform.update, Platform.updateMovement, Platform.updateBreaking,
    Platform.updateBounds]
  split_ifs <;> simp_all

/-- The travel interval and the direction set are kept by every update of a moving,
non-breakable platform. -/
theorem update_moving_invariant (sin : ℚ → ℚ) (now deltaTime : ℚ) (p : Platform)
    (hm : p.isMoving = true) (hb : p.isBreakable = false) (hd : 0 ≤ p.moveDistance)
    (hdir : p.moveDirection = -1 ∨ p.moveDirection = 1) :
    p.originalX - p.moveDistance ≤ (p.update sin now deltaTime).position.x ∧
    (p.update sin now deltaTime).position.x ≤ p.originalX + p.moveDistance ∧
    ((p.update sin now deltaTime).moveDirection = -1 ∨
      (p.update sin now deltaTime).moveDirection = 1) := by
  obtain ⟨_, _, _, _, h1, h2, h3⟩ := update_moving_fields sin now deltaTime p hm hb
  by_cases c1 : p.position.x + p.moveSpeed * p.moveDirection * deltaTime >
      p.originalX + p.moveDistance
  · obtain ⟨e1, e2⟩ := h1 c1
    rw [e1, e2]
    exact ⟨by linarith, le_refl _, Or.inl rfl⟩
  · by_cases c2 : p.position.x + p.moveSpeed * p.moveDirection * deltaTime <
        p.originalX - p.moveDistance
    · obtain ⟨e1, e2⟩ := h2 c1 c2
      rw [e1, e2]
      exact ⟨le_refl _, by linarith, Or.inr rfl⟩
    · obtain ⟨e1, e2⟩ := h3 c1 c2
      rw [e1, e2]
      exact ⟨not_lt.mp c2, not_lt.mp c1, hdir⟩

/-- Runs of updates keep a moving, non-breakable platform inside its travel interval. -/
theorem run_moving_invariant (sin : ℚ → ℚ) :
    ∀ (frames : List (ℚ × ℚ)) (p : Platform),
      p.isMoving = true → p.isBreakable = false → 0 ≤ p.moveDistance →
      (p.moveDirection = -1 ∨ p.moveDirection = 1) →
      p.originalX - p.moveDistance ≤ p.position.x →
      p.position.x ≤ p.originalX + p.moveDistance →
      p.originalX - p.moveDistance ≤ (Platform.run sin frames p).position.x ∧
      (Platform.run sin frames p).position.x ≤ p.originalX + p.moveDistance ∧
      ((Platform.run sin frames p).moveDirection = -1 ∨
        (Platform.run sin frames p).moveDirection = 1) := by
  intro frames
  induction frames with
  | nil =>
    intro p _ _ _ hdir hlo hhi
    exact ⟨hlo, hhi, hdir⟩
  | cons frame rest ih =>
    intro p hm hb hd hdir _ _
    obtain ⟨f1, f2, f3, f4, _, _, _⟩ := update_moving_fields sin frame.1 frame.2 p hm hb
    obtain ⟨i1, i2, i3⟩ := update_moving_invariant sin frame.1 frame.2 p hm hb hd hdir
    have key := ih (p.update sin frame.1 frame.2) f3 f4 (by rw [f2]; exact hd) i3
      (by rw [f1, f2]; exact i1) (by rw [f1, f2]; exact i2)
    rw [f1, f2] at key
    exact key

/-- C17. For every moving platform (moving flag set, not breakable, `moveDistance >= 0`,
direction in {-1, 1}, position inside the travel interval, as constructed) and every sequence
of updates with steps `>= 0`, `position.x` stays within
`[originalX - moveDistance, originalX + moveDistance]` and `moveDirection` stays in {-1, 1};
an update that would carry `position.x` past the upper bound leaves it exactly on that bound
with `moveDirection = -1`, and one that would carry it past the lower bound leaves it exactly
on that bound with `moveDirection = 1`. -/
theorem moving_platform_stays_in_range (sin : ℚ → ℚ) (frames : List (ℚ × ℚ)) (p : Platform)
    (now deltaTime : ℚ)
    (hm : p.isMoving = true) (hb : p.isBreakable = false) (hd : 0 ≤ p.moveDistance)
    (hdir : p.moveDirection = -1 ∨ p.moveDirection = 1)
    (hlo : p.originalX - p.moveDistance ≤ p.position.x)
    (hhi : p.position.x ≤ p.originalX + p.moveDistance)
    (hsteps : ∀ frame ∈ frames, 0 ≤ frame.2) (hdt : 0 ≤ deltaTime) :
    (p.originalX - p.moveDistance ≤ (Platform.run sin frames p).position.x ∧
      (Platform.run sin frames p).position.x ≤ p.originalX + p.moveDistance ∧
      ((Platform.run sin frames p).moveDirection = -1 ∨
        (Platform.run sin frames p).moveDirection = 1)) ∧
    (p.position.x + p.moveSpeed * p.moveDirection * deltaTime > p.originalX + p.moveDistance →
      (p.update sin now deltaTime).position.x = p.originalX + p.moveDistance ∧
      (p.update sin now deltaTime).moveDirection = -1) ∧
    (p.position.x + p.moveSpeed * p.moveDirection * deltaTime < p.originalX - p.moveDistance →
      (p.update sin now deltaTime).position.x = p.originalX - p.moveDistance ∧
      (p.update sin now deltaTime).moveDirection = 1) := by
  obtain ⟨_, _, _, _, h1, h2, _⟩ := update_moving_fields sin now deltaTime p hm hb
  refine ⟨run_moving_invariant sin frames p hm hb hd hdir hlo hhi, h1, ?_⟩
  intro hlow
  exact h2 (by intro hup; linarith) hlow

/-- C17 witness: the constructed moving platform at x = 100 (travel interval [0, 200]) run for
two ticks, and one update of 60 ms, which would carry it to 220 and leaves it on 200 heading
back. -/
theorem moving_platform_stays_in_range_witness :
    ((Platform.create 100 300 128 32 PlatformType.moving).originalX -
        (Platform.create 100 300 128 32 PlatformType.moving).moveDistance ≤
      (Platform.run sinTaylor [(0, 1000 / 60), (17, 1000 / 60)]
        (Platform.create 100 300 128 32 PlatformType.moving)).position.x ∧
     (Platform.run sinTaylor [(0, 1000 / 60), (17, 1000 / 60)]
        (Platform.create 100 300 128 32 PlatformType.moving)).position.x ≤
      (Platform.create 100 300 128 32 PlatformType.moving).originalX +
        (Platform.create 100 300 128 32 PlatformType.moving).moveDistance ∧
     ((Platform.run sinTaylor [(0, 1000 / 60), (17, 1000 / 60)]
        (Platform.create 100 300 128 32 PlatformType.moving)).moveDirection = -1 ∨
      (Platform.run sinTaylor [(0, 1000 / 60), (17, 1000 / 60)]
        (Platform.create 100 300 128 32 PlatformType.moving)).moveDirection = 1)) ∧
    (((Platform.create 100 300 128 32 PlatformType.moving).update sinTaylor 0 60).position.x =
        (Platform.create 100 300 128 32 PlatformType.moving).originalX +
          (Platform.create 100 300 128 32 PlatformType.moving).moveDistance ∧
      ((Platform.create 100 300 128 32 PlatformType.moving).update sinTaylor 0 60).moveDirection
        = -1) :=
  ⟨(moving_platform_stays_in_range sinTaylor [(0, 1000 / 60), (17, 1000 / 60)]
      (Platform.create 100 300 128 32 PlatformType.moving) 0 60
      (by simp [Platform.create]) (by simp [Platform.create])
      (by norm_num [Platform.create]) (by simp [Platform.create])
      (by norm_num [Platform.create]) (by norm_num [Platform.create])
      (by
        intro frame hf
        simp only [List.mem_cons, List.mem_singleton, List.not_mem_nil, or_false] at hf
        rcases hf with rfl | rfl <;> norm_num)
      (by norm_num)).1,
   (moving_platform_stays_in_range sinTaylor [(0, 1000 / 60), (17, 1000 / 60)]
      (Platform.create 100 300 128 32 PlatformType.moving) 0 60
      (by simp [Platform.create]) (by simp [Platform.create])
      (by norm_num [Platform.create]) (by simp [Platform.create])
      (by norm_num [Platform.create]) (by norm_num [Platform.create])
      (by
        intro frame hf
        simp only [List.mem_cons, List.mem_singleton, List.not_mem_nil, or_false] at hf
        rcases hf with rfl | rfl <;> norm_num)
      (by norm_num)).2.1
      (by norm_num [Platform.create])⟩

/-! ### C18 and C19: damage and falls -/

/-- C18. `takeDamage` on an invincible player returns false and leaves the player, in
particular `lives`, `isInvincible` and `invincibilityTimer`, unchanged; consequently two
`takeDamage(1)` calls in a row on a non-invincible player with `lives = L` leave
`lives = L - 1`, the second call returning false. -/
theorem takeDamage_invincible_noop (p : Player) (damage : ℤ) :
    (p.isInvincible = true → p.takeDamage damage = (p, false)) ∧
    (p.isInvincible = false →
      ((p.takeDamage 1).1.takeDamage 1).1.lives = p.lives - 1 ∧
      ((p.takeDamage 1).1.takeDamage 1).2 = false ∧
      (p.takeDamage 1).1.lives = p.lives - 1) := by
  constructor
  · intro h
    simp [Player.takeDamage, h]
  · intro h
    simp [Player.takeDamage, h]

/-- C18 witness: a fresh player, invincible after a first hit, and two hits in a row. -/
theorem takeDamage_invincible_noop_witness :
    ((Player.create 100 400).takeDamage 1).1.takeDamage 1 =
      (((Player.create 100 400).takeDamage 1).1, false) ∧
    (((Player.create 100 400).takeDamage 1).1.takeDamage 1).1.lives =
      (Player.create 100 400).lives - 1 :=
  ⟨(takeDamage_invincible_noop ((Player.create 100 400).takeDamage 1).1 1).1
      (by simp [Player.takeDamage, Player.create]),
   ((takeDamage_invincible_noop (Player.create 100 400) 1).2
      (by simp [Player.create])).1⟩

/-- Fall handling of `Game.updatePlaying` for an alive, non-invincible player with at least
two lives that is below the fall threshold: `takeDamage(1)` takes a life, then `reset`
restores `lives` to `PLAYER_MAX_HEALTH`; the player is put on the start position with zero
velocity and a 2000 ms invincibility window, and the game goes on. -/
theorem checkPlayer_fall (level : Level) (p : Player)
    (hinv : p.isInvincible = false) (hlives : 2 ≤ p.lives)
    (hfall : p.position.y > level.height + 100) :
    (Game.checkPlayer (some level) p).2 = false ∧
    (Game.checkPlayer (some level) p).1.lives = Constants.PLAYER_MAX_HEALTH ∧
    (Game.checkPlayer (some level) p).1.position = level.startPosition ∧
    (Game.checkPlayer (some level) p).1.velocity = { x := 0, y := 0 } ∧
    (Game.checkPlayer (some level) p).1.isInvincible = true ∧
    (Game.checkPlayer (some level) p).1.invincibilityTimer = 2000 := by
  have halive : p.isAlive = true := by
    simp only [Player.isAlive, decide_eq_true_eq]
    omega
  have hdied : ¬ p.lives - 1 ≤ 0 := by omega
  simp [Game.checkPlayer, halive, hfall, Player.takeDamage, hinv, hdied, Player.reset,
    Player.updateBounds]

/-- C19 (code at a failing input). A fresh player (3 lives, not invincible) that ended its
update at (100,800) in a level of height 576 with start position (100,400): the fall handling
leaves `lives = 3`, since `reset` restores the life that `takeDamage(1)` took; the claim
expects `lives = 2`. Position, velocity and the invincibility window are as claimed. -/
theorem fall_costs_no_life :
    ((Game.checkPlayer (some { height := 576, startPosition := { x := 100, y := 400 } })
        (Player.create 100 800)).1.lives,
     (Game.checkPlayer (some { height := 576, startPosition := { x := 100, y := 400 } })
        (Player.create 100 800)).1.position,
     (Game.checkPlayer (some { height := 576, startPosition := { x := 100, y := 400 } })
        (Player.create 100 800)).1.velocity,
     (Game.checkPlayer (some { height := 576, startPosition := { x := 100, y := 400 } })
        (Player.create 100 800)).1.isInvincible,
     (Game.checkPlayer (some { height := 576, startPosition := { x := 100, y := 400 } })
        (Player.create 100 800)).1.invincibilityTimer,
     (Game.checkPlayer (some { height := 576, startPosition := { x := 100, y := 400 } })
        (Player.create 100 800)).2)
      = (3, { x := 100, y := 400 }, { x := 0, y := 0 }, true, 2000, false) := by
  obtain ⟨h1, h2, h3, h4, h5, h6⟩ := checkPlayer_fall
    { height := 576, startPosition := { x := 100, y := 400 } } (Player.create 100 800)
    (by simp [Player.create]) (by norm_num [Player.create, Constants.PLAYER_MAX_HEALTH])
    (by norm_num [Player.create])
  rw [h1, h2, h3, h4, h5, h6]
  rfl

/-! ### C20: the invincibility window -/

/-- Input handling keeps the invincibility fields and the lives. -/
theorem handleInput_keeps_invincibility (input : InputHandler) (p : Player) :
    (p.handleInput input).isInvincible = p.isInvincible ∧
    (p.handleInput input).invincibilityTimer = p.invincibilityTimer ∧
    (p.handleInput input).lives = p.lives := by
  simp only [Player.handleInput, Player.jump]
  split_ifs <;> simp

/-- The blocks of `update` after the timer block keep the invincibility fields and the lives:
only `updateTimers` acts on them. -/
theorem update_invincibility (deltaTime : ℚ) (input : InputHandler) (p : Player) :
    (p.update deltaTime input).isInvincible = (p.updateTimers deltaTime).isInvincible ∧
    (p.update deltaTime input).invincibilityTimer =
      (p.updateTimers deltaTime).invincibilityTimer ∧
    (p.update deltaTime input).lives = p.lives := by
  have hi := handleInput_keeps_invincibility input (p.updateTimers deltaTime)
  have ht : (p.updateTimers deltaTime).lives = p.lives := by
    simp only [Player.updateTimers]
    split_ifs <;> rfl
  have hc : ∀ q : Player, q.clampMinY.isInvincible = q.isInvincible ∧
      q.clampMinY.invincibilityTimer = q.invincibilityTimer ∧ q.clampMinY.lives = q.lives := by
    intro q
    simp only [Player.clampMinY]
    split_ifs <;> simp
  have hn : ∀ q : Player, (q.updateAnimation deltaTime).isInvincible = q.isInvincible ∧
      (q.updateAnimation deltaTime).invincibilityTimer = q.invincibilityTimer ∧
      (q.updateAnimation deltaTime).lives = q.lives := by
    intro q
    simp only [Player.updateAnimation]
    split_ifs <;> simp
  unfold Player.update
  refine ⟨?_, ?_, ?_⟩
  · rw [(hc _).1]
    simp only [Player.updateBounds]
    rw [(hn _).1]
    simp only [Player.applyPhysics]
    exact hi.1
  · rw [(hc _).2.1]
    simp only [Player.updateBounds]
    rw [(hn _).2.1]
    simp only [Player.applyPhysics]
    exact hi.2.1
  · rw [(hc _).2.2]
    simp only [Player.updateBounds]
    rw [(hn _).2.2]
    simp only [Player.applyPhysics]
    rw [hi.2.2, ht]

/-- Effect of one update on the invincibility window. -/
theorem update_window (deltaTime : ℚ) (input : InputHandler) (p : Player) :
    (p.isInvincible = true →
      (p.update deltaTime input).invincibilityTimer = p.invincibilityTimer - deltaTime ∧
      ((p.update deltaTime input).isInvincible = true ↔
        0 < p.invincibilityTimer - deltaTime)) ∧
    (p.isInvincible = false →
      (p.update deltaTime input).invincibilityTimer = p.invincibilityTimer ∧
      (p.update deltaTime input).isInvincible = false) := by
  obtain ⟨h1, h2, _⟩ := update_invincibility deltaTime input p
  rw [h1, h2]
  constructor
  · intro h
    simp only [Player.updateTimers, h, if_true]
    by_cases hle : p.invincibilityTimer - deltaTime ≤ 0
    · simp [hle, not_lt.mpr hle]
    · simp [hle, not_le.mp hle]
  · intro h
    simp [Player.updateTimers, h]

/-- The blocks of the rounded `update` after the timer block keep the invincibility fields:
only the timer block acts on them. -/
theorem updateWith_invincibility (round : ℚ → ℚ) (deltaTime : ℚ) (input : InputHandler)
    (p : Player) :
    (p.updateWith round deltaTime input).isInvincible =
        (p.updateTimersWith round deltaTime).isInvincible ∧
    (p.updateWith round deltaTime input).invincibilityTimer =
      (p.updateTimersWith round deltaTime).invincibilityTimer := by
  have hi : ∀ q : Player, (q.handleInputWith round input).isInvincible = q.isInvincible ∧
      (q.handleInputWith round input).invincibilityTimer = q.invincibilityTimer := by
    intro q
    simp only [Player.handleInputWith, Player.jump]
    split_ifs <;> simp
  have hc : ∀ q : Player, q.clampMinY.isInvincible = q.isInvincible ∧
      q.clampMinY.invincibilityTimer = q.invincibilityTimer := by
    intro q
    simp only [Player.clampMinY]
    split_ifs <;> simp
  have hn : ∀ q : Player,
      (q.updateAnimationWith round deltaTime).isInvincible = q.isInvincible ∧
      (q.updateAnimationWith round deltaTime).invincibilityTimer = q.invincibilityTimer := by
    intro q
    simp only [Player.updateAnimationWith]
    split_ifs <;> simp
  unfold Player.updateWith
  refine ⟨?_, ?_⟩
  · rw [(hc _).1]
    simp only [Player.updateBoundsWith]
    rw [(hn _).1]
    simp only [Player.applyPhysicsWith]
    exact (hi _).1
  · rw [(hc _).2]
    simp only [Player.updateBoundsWith]
    rw [(hn _).2]
    simp only [Player.applyPhysicsWith]
    exact (hi _).2

/-- Effect of one rounded update on the invincibility window. -/
theorem updateWith_window (round : ℚ → ℚ) (deltaTime : ℚ) (input : InputHandler)
    (p : Player) :
    (p.isInvincible = true →
      (p.updateWith round deltaTime input).invincibilityTimer =
        round (p.invincibilityTimer - deltaTime) ∧
      ((p.updateWith round deltaTime input).isInvincible =
        decide (0 < round (p.invincibilityTimer - deltaTime)))) ∧
    (p.isInvincible = false →
      (p.updateWith round deltaTime input).invincibilityTimer = p.invincibilityTimer ∧
      (p.updateWith round deltaTime input).isInvincible = false) := by
  obtain ⟨h1, h2⟩ := updateWith_invincibility round deltaTime input p
  rw [h1, h2]
  constructor
  · intro h
    simp only [Player.updateTimersWith, h, if_true]
    by_cases hle : round (p.invincibilityTimer - deltaTime) ≤ 0
    · simp [hle, not_lt.mpr hle]
    · simp [hle, not_le.mp hle]
  · intro h
    simp [Player.updateTimersWith, h]

/-- Updates never set the invincibility flag. -/
theorem runWith_closed (round : ℚ → ℚ) :
    ∀ (frames : List (ℚ × InputHandler)) (q : Player), q.isInvincible = false →
      (Player.runWith round frames q).isInvincible = false := by
  intro frames
  induction frames with
  | nil => intro q h; exact h
  | cons frame rest ih =>
    intro q h
    simp only [Player.runWith]
    exact ih _ ((updateWith_window round frame.1 frame.2 q).2 h).2

/-- The invincibility flag along a run of rounded updates follows the countdown of the
timer. -/
theorem runWith_window (round : ℚ → ℚ) :
    ∀ (frames : List (ℚ × InputHandler)) (q : Player) (t : ℚ),
      q.isInvincible = true → q.invincibilityTimer = t →
      (Player.runWith round frames q).isInvincible = Player.windowOpen round frames t := by
  intro frames
  induction frames with
  | nil =>
    intro q t h _
    simp only [Player.runWith, Player.windowOpen]
    exact h
  | cons frame rest ih =>
    intro q t h ht
    obtain ⟨e1, e2⟩ := (updateWith_window round frame.1 frame.2 q).1 h
    rw [ht] at e1 e2
    simp only [Player.runWith, Player.windowOpen]
    by_cases hpos : 0 < round (t - frame.1)
    · rw [ih (q.updateWith round frame.1 frame.2) (round (t - frame.1))
        (by rw [e2]; simp [hpos]) e1]
      simp [hpos]
    · rw [runWith_closed round rest _ (by rw [e2]; simp [hpos])]
      simp [hpos]

/-- Sum of positive steps is non-negative. -/
theorem elapsed_nonneg :
    ∀ frames : List (ℚ × InputHandler), (∀ frame ∈ frames, 0 < frame.1) →
      0 ≤ Player.elapsed frames := by
  intro frames
  induction frames with
  | nil => intro _; simp [Player.elapsed]
  | cons frame rest ih =>
    intro h
    simp only [Player.elapsed]
    exact add_nonneg (le_of_lt (h frame (List.mem_cons_self _ _)))
      (ih (fun f hf => h f (List.mem_cons_of_mem _ hf)))

/-- In exact arithmetic and for positive steps the timer is still positive after every update
exactly when the steps sum to less than its value at the start. -/
theorem windowOpen_exact :
    ∀ (frames : List (ℚ × InputHandler)) (t : ℚ), (∀ frame ∈ frames, 0 < frame.1) → 0 < t →
      (Player.windowOpen (fun q => q) frames t = true ↔ Player.elapsed frames < t) := by
  intro frames
  induction frames with
  | nil =>
    intro t _ ht
    simp only [Player.windowOpen, Player.elapsed, true_iff]
    exact ht
  | cons frame rest ih =>
    intro t hpos ht
    have hrest : ∀ f ∈ rest, 0 < f.1 := fun f hf => hpos f (List.mem_cons_of_mem _ hf)
    have hnn := elapsed_nonneg rest hrest
    simp only [Player.windowOpen, Player.elapsed, Bool.and_eq_true, decide_eq_true_eq]
    by_cases hd : 0 < t - frame.1
    · have := ih (t - frame.1) hrest hd
      constructor
      · rintro ⟨_, hc⟩
        linarith [this.mp hc]
      · intro hc
        exact ⟨hd, this.mpr (by linarith)⟩
    · constructor
      · rintro ⟨hc, _⟩
        exact absurd hc hd
      · intro hc
        exfalso
        apply hd
        linarith

/-- C20 (counterexample). In double arithmetic, a constructed player that takes a hit and is
then updated 60 times with the game's step, the double `1000 / 60`, and no input: the steps
are positive and sum to at least `INVINCIBILITY_TIME = 1000`, yet the timer is still
`121 / 2^47 > 0` (about `8.6e-13`) and `isInvincible` is still true. The 61st update clears
the flag. -/
theorem invincibility_outlasts_window :
    0 < Float64.round (1000 / 60) ∧
      Constants.INVINCIBILITY_TIME ≤
        Player.elapsed (List.replicate 60 (Float64.round (1000 / 60), InputHandler.idle)) ∧
      (Player.runWith Float64.round
          (List.replicate 60 (Float64.round (1000 / 60), InputHandler.idle))
          ((Player.create 100 400).takeDamage 1).1).invincibilityTimer =
        121 / 140737488355328 ∧
      (Player.runWith Float64.round
          (List.replicate 60 (Float64.round (1000 / 60), InputHandler.idle))
          ((Player.create 100 400).takeDamage 1).1).isInvincible = true ∧
      (Player.runWith Float64.round
          (List.replicate 61 (Float64.round (1000 / 60), InputHandler.idle))
          ((Player.create 100 400).takeDamage 1).1).isInvincible = false := by
  decide!

/-- C20 (amended). Invincibility window, whatever the rounding of the arithmetic. `update`,
`takeDamage` and `reset` preserve the invariant `isInvincible => invincibilityTimer > 0`.
After `takeDamage` on a non-invincible player followed by updates (any inputs),
`isInvincible` is true after the updates iff the timer, counted down from
`INVINCIBILITY_TIME` (1000) by the rounded subtraction of each step, is still positive after
every one of them. In exact arithmetic and for steps `> 0` that is the condition that the
steps sum to less than 1000. In double arithmetic at the game's step `1000 / 60` the timer is
still positive after 60 updates, whose steps sum to at least 1000, and not after 61. An update
with a step `>= 0` never increases the timer: in exact arithmetic, and in double arithmetic
for a state that satisfies the invariant and whose timer is a double. -/
theorem invincibility_window_amended (round : ℚ → ℚ) (p : Player) (deltaTime : ℚ)
    (input : InputHandler) (damage : ℤ) (x y : ℚ) (frames : List (ℚ × InputHandler)) :
    (p.invincibilityInvariant →
      (p.updateWith round deltaTime input).invincibilityInvariant ∧
      (p.takeDamage damage).1.invincibilityInvariant ∧
      (p.reset x y).invincibilityInvariant) ∧
    (p.isInvincible = false →
      (Player.runWith round frames (p.takeDamage damage).1).isInvincible =
        Player.windowOpen round frames Constants.INVINCIBILITY_TIME) ∧
    ((∀ frame ∈ frames, 0 < frame.1) →
      (Player.windowOpen (fun q => q) frames Constants.INVINCIBILITY_TIME = true ↔
        Player.elapsed frames < Constants.INVINCIBILITY_TIME)) ∧
    (0 ≤ deltaTime →
      (p.updateWith (fun q => q) deltaTime input).invincibilityTimer ≤
        p.invincibilityTimer) ∧
    (p.invincibilityInvariant → Float64.round p.invincibilityTimer = p.invincibilityTimer →
      0 ≤ deltaTime →
      (p.updateWith Float64.round deltaTime input).invincibilityTimer ≤
        p.invincibilityTimer) ∧
    (Player.windowOpen Float64.round
        (List.replicate 60 (Float64.round (1000 / 60), InputHandler.idle))
        Constants.INVINCIBILITY_TIME = true ∧
      Player.windowOpen Float64.round
        (List.replicate 61 (Float64.round (1000 / 60), InputHandler.idle))
        Constants.INVINCIBILITY_TIME = false ∧
      Constants.INVINCIBILITY_TIME ≤
        Player.elapsed (List.replicate 60 (Float64.round (1000 / 60), InputHandler.idle))) := by
  obtain ⟨w1, w2⟩ := updateWith_window round deltaTime input p
  refine ⟨?_, ?_, ?_, ?_, ?_, ?_⟩
  · intro hinv
    refine ⟨?_, ?_, ?_⟩
    · intro h
      by_cases hq : p.isInvincible = true
      · obtain ⟨e1, e2⟩ := w1 hq
        rw [e1]
        rw [e2] at h
        simpa using h
      · have hf : p.isInvincible = false := by simpa using hq
        rw [(w2 hf).2] at h
        exact absurd h (by simp)
    · intro h
      by_cases hq : p.isInvincible = true
      · have : p.takeDamage damage = (p, false) := by simp [Player.takeDamage, hq]
        rw [this]
        exact hinv hq
      · have hf : p.isInvincible = false := by simpa using hq
        simp [Player.takeDamage, hf, Constants.INVINCIBILITY_TIME]
    · intro h
      simp [Player.reset, Player.updateBounds] at h
  · intro hf
    exact runWith_window round frames (p.takeDamage damage).1 Constants.INVINCIBILITY_TIME
      (by simp [Player.takeDamage, hf]) (by simp [Player.takeDamage, hf])
  · intro hpos
    exact windowOpen_exact frames Constants.INVINCIBILITY_TIME hpos
      (by norm_num [Constants.INVINCIBILITY_TIME])
  · intro hdt
    obtain ⟨v1, v2⟩ := updateWith_window (fun q => q) deltaTime input p
    by_cases hq : p.isInvincible = true
    · rw [(v1 hq).1]
      linarith
    · have hf : p.isInvincible = false := by simpa using hq
      rw [(v2 hf).1]
  · intro hinv hdouble hdt
    obtain ⟨v1, v2⟩ := updateWith_window Float64.round deltaTime input p
    by_cases hq : p.isInvincible = true
    · rw [(v1 hq).1]
      exact float64_round_le_of_le _ _ (hinv hq) hdouble (by linarith)
    · have hf : p.isInvincible = false := by simpa using hq
      rw [(v2 hf).1]
  · decide!

/-- C20 witness: in double arithmetic a constructed player that takes a hit is invincible,
satisfies the invariant and keeps it under an update with the game's step, which does not
increase the timer (1000 is a double); after 61
updates with the game's step the flag is clear. -/
theorem invincibility_window_amended_witness :
    (((Player.create 100 400).takeDamage 1).1.updateWith Float64.round
        (Float64.round (1000 / 60)) InputHandler.idle).invincibilityInvariant ∧
      (((Player.create 100 400).takeDamage 1).1.updateWith Float64.round
          (Float64.round (1000 / 60)) InputHandler.idle).invincibilityTimer ≤
        ((Player.create 100 400).takeDamage 1).1.invincibilityTimer ∧
      (Player.runWith Float64.round
          (List.replicate 61 (Float64.round (1000 / 60), InputHandler.idle))
          ((Player.create 100 400).takeDamage 1).1).isInvincible =
        Player.windowOpen Float64.round
          (List.replicate 61 (Float64.round (1000 / 60), InputHandler.idle))
          Constants.INVINCIBILITY_TIME :=
  ⟨((invincibility_window_amended Float64.round ((Player.create 100 400).takeDamage 1).1
        (Float64.round (1000 / 60)) InputHandler.idle 1 0 0 []).1
      (by
        intro _
        norm_num [Player.takeDamage, Player.create, Constants.INVINCIBILITY_TIME])).1,
    (invincibility_window_amended Float64.round ((Player.create 100 400).takeDamage 1).1
        (Float64.round (1000 / 60)) InputHandler.idle 1 0 0 []).2.2.2.2.1
      (by
        intro _
        norm_num [Player.takeDamage, Player.create, Constants.INVINCIBILITY_TIME])
      (by decide!) (by decide!),
    (invincibility_window_amended Float64.round (Player.create 100 400) 0 InputHandler.idle 1
        0 0 (List.replicate 61 (Float64.round (1000 / 60), InputHandler.idle))).2.1
      (by decide!)⟩

/-! ### C21: lives -/

/-- A hit on a non-invincible player followed by an update of 1000 ms: one life less and the
invincibility window is over. -/
theorem hit_then_wait (q : Player) (input : InputHandler) (h : q.isInvincible = false) :
    ((q.takeDamage 1).1.update 1000 input).isInvincible = false ∧
    ((q.takeDamage 1).1.update 1000 input).lives = q.lives - 1 := by
  have h1 : (q.takeDamage 1).1.isInvincible = true := by simp [Player.takeDamage, h]
  have h2 : (q.takeDamage 1).1.invincibilityTimer = 1000 := by
    simp [Player.takeDamage, h, Constants.INVINCIBILITY_TIME]
  have h3 : (q.takeDamage 1).1.lives = q.lives - 1 := by simp [Player.takeDamage, h]
  obtain ⟨w1, _⟩ := update_window 1000 input (q.takeDamage 1).1
  obtain ⟨_, e2⟩ := w1 h1
  obtain ⟨_, _, e3⟩ := update_invincibility 1000 input (q.takeDamage 1).1
  constructor
  · by_contra hcon
    have ht : ((q.takeDamage 1).1.update 1000 input).isInvincible = true := by
      simpa using hcon
    have := e2.mp ht
    rw [h2] at this
    norm_num at this
  · rw [e3, h3]

/-- A hit on a non-invincible player subtracts the damage from the lives. -/
theorem takeDamage_lives (q : Player) (damage : ℤ) (h : q.isInvincible = false) :
    (q.takeDamage damage).1.lives = q.lives - damage := by
  simp [Player.takeDamage, h]

/-- C21 (counterexample). From a constructed player (3 lives): one `takeDamage(5)` leaves
`lives = -2`; and four `takeDamage(1)` calls separated by updates of 1000 ms, which end each
invincibility window, leave `lives = -1`. -/
theorem lives_can_go_negative :
    (Player.applyOps [PlayerOp.takeDamage 5] (Player.create 100 400)).lives = -2 ∧
    (Player.applyOps
        [PlayerOp.takeDamage 1, PlayerOp.update 1000 InputHandler.idle,
         PlayerOp.takeDamage 1, PlayerOp.update 1000 InputHandler.idle,
         PlayerOp.takeDamage 1, PlayerOp.update 1000 InputHandler.idle,
         PlayerOp.takeDamage 1] (Player.create 100 400)).lives = -1 := by
  constructor
  · simp [Player.applyOps, Player.applyOp, Player.takeDamage, Player.create,
      Constants.PLAYER_MAX_HEALTH]
  · simp only [Player.applyOps, Player.applyOp]
    have h0 : (Player.create 100 400).isInvincible = false := rfl
    have l0 : (Player.create 100 400).lives = 3 := rfl
    obtain ⟨a1, b1⟩ := hit_then_wait (Player.create 100 400) InputHandler.idle h0
    obtain ⟨a2, b2⟩ := hit_then_wait _ InputHandler.idle a1
    obtain ⟨a3, b3⟩ := hit_then_wait _ InputHandler.idle a2
    rw [takeDamage_lives _ 1 a3, b3, b2, b1, l0]
    norm_num

/-- Lives under one call: `update` keeps them, `reset` sets them to `PLAYER_MAX_HEALTH`, and
`takeDamage` subtracts the damage unless the player is invincible. -/
theorem applyOp_lives (op : PlayerOp) (p : Player) :
    (p.applyOp op).lives =
      match op with
      | PlayerOp.takeDamage damage => if p.isInvincible then p.lives else p.lives - damage
      | PlayerOp.update _ _ => p.lives
      | PlayerOp.reset _ _ => Constants.PLAYER_MAX_HEALTH := by
  cases op with
  | takeDamage damage =>
    simp only [Player.applyOp, Player.takeDamage]
    split_ifs <;> rfl
  | update deltaTime input =>
    simp only [Player.applyOp]
    exact (update_invincibility deltaTime input p).2.2
  | reset x y =>
    simp [Player.applyOp, Player.reset, Player.updateBounds]

/-- Lives stay non-negative along a sequence of calls in which every effective `takeDamage`
asks for no more than the current lives. -/
theorem applyOps_lives_nonneg :
    ∀ (ops : List PlayerOp) (p : Player), 0 ≤ p.lives → Player.damageWithinLives ops p = true →
      0 ≤ (Player.applyOps ops p).lives := by
  intro ops
  induction ops with
  | nil => intro p h _; exact h
  | cons op rest ih =>
    intro p h hb
    simp only [Player.damageWithinLives, Bool.and_eq_true] at hb
    simp only [Player.applyOps]
    apply ih _ _ hb.2
    rw [applyOp_lives]
    cases op with
    | takeDamage damage =>
      have hop := hb.1
      simp only [Bool.or_eq_true, decide_eq_true_eq] at hop
      simp only
      split_ifs with hi
      · exact h
      · rcases hop with hop | hop
        · exact absurd hop hi
        · omega
    | update deltaTime input => exact h
    | reset x y => simp [Constants.PLAYER_MAX_HEALTH]

/-- C21 (amended). Starting from a constructed player (`lives = 3`), every sequence of
`takeDamage`, `update` and `reset` calls in which each `takeDamage(damage)` made on a
non-invincible player has `damage <= lives` at the call (as the calls `takeDamage(1)` that
`Game.updatePlaying` makes on an alive player) leaves `lives >= 0`; and after any sequence of
calls whatever `isAlive()` returns true iff `lives > 0`. -/
theorem lives_nonneg_amended (x y : ℚ) (ops : List PlayerOp) :
    (Player.damageWithinLives ops (Player.create x y) = true →
      0 ≤ (Player.applyOps ops (Player.create x y)).lives) ∧
    ((Player.applyOps ops (Player.create x y)).isAlive = true ↔
      0 < (Player.applyOps ops (Player.create x y)).lives) := by
  constructor
  · intro h
    exact applyOps_lives_nonneg ops (Player.create x y)
      (by simp [Player.create, Constants.PLAYER_MAX_HEALTH]) h
  · simp [Player.isAlive]

/-- C21 witness: three hits of 1 in a row (the last two land in the invincibility window),
then a respawn. -/
theorem lives_nonneg_amended_witness :
    0 ≤ (Player.applyOps
      [PlayerOp.takeDamage 1, PlayerOp.takeDamage 1, PlayerOp.takeDamage 3, PlayerOp.reset 0 0]
      (Player.create 100 400)).lives :=
  (lives_nonneg_amended 100 400
    [PlayerOp.takeDamage 1, PlayerOp.takeDamage 1, PlayerOp.takeDamage 3,
     PlayerOp.reset 0 0]).1
    (by
      simp [Player.damageWithinLives, Player.applyOp, Player.takeDamage, Player.create,
        Constants.PLAYER_MAX_HEALTH])

/-! ### C22: a coin is collected once -/

/-- A coin step changes neither the collected flag nor the value. -/
theorem coin_update_keeps (sin : ℚ → ℚ) (sparkle : List Particle) (coin : Coin)
    (deltaTime : ℚ) :
    (coin.update sin sparkle deltaTime).isCollected = coin.isCollected ∧
      (coin.update sin sparkle deltaTime).value = coin.value := by
  simp only [Coin.update]
  split_ifs <;> exact ⟨rfl, rfl⟩

/-- After `collect` the coin is collected and keeps its value; the call returns the value the
first time and 0 on a collected coin. -/
theorem coin_collect_fields (fresh : List Particle) (coin : Coin) :
    (coin.collect fresh).1.isCollected = true ∧
      (coin.collect fresh).1.value = coin.value ∧
      (coin.collect fresh).2 = (if coin.isCollected = true then 0 else coin.value) ∧
      (coin.collect fresh).1.collectionTime =
        (if coin.isCollected = true then coin.collectionTime else 0) := by
  simp only [Coin.collect]
  by_cases h : coin.isCollected = true
  · simp [h]
  · simp [h]

/-- A collected coin stays collected over any calls, and every `collect` on it returns 0. -/
theorem applyOps_collected (sin : ℚ → ℚ) (ops : List CoinOp) (coin : Coin)
    (h : coin.isCollected = true) :
    (Coin.applyOps sin ops coin).1.isCollected = true ∧
      ∀ v ∈ (Coin.applyOps sin ops coin).2, v = 0 := by
  induction ops generalizing coin with
  | nil => simp [Coin.applyOps, h]
  | cons op rest ih =>
    cases op with
    | update deltaTime sparkle =>
      simp only [Coin.applyOps]
      exact ih _ (by rw [(coin_update_keeps sin sparkle coin deltaTime).1, h])
    | collect fresh =>
      simp only [Coin.applyOps]
      obtain ⟨c1, _, c3, _⟩ := coin_collect_fields fresh coin
      obtain ⟨i1, i2⟩ := ih _ c1
      refine ⟨i1, ?_⟩
      intro v hv
      rcases List.mem_cons.mp hv with hv | hv
      · rw [hv, c3, if_pos h]
      · exact i2 v hv

/-- On a coin that is not collected, the first `collect` of a call sequence returns the value
and the later ones return 0. -/
theorem applyOps_first_collect (sin : ℚ → ℚ) (ops : List CoinOp) (coin : Coin)
    (h : coin.isCollected = false) :
    (Coin.applyOps sin ops coin).2 = [] ∨
      ∃ later : List ℤ, (Coin.applyOps sin ops coin).2 = coin.value :: later ∧
        ∀ v ∈ later, v = 0 := by
  induction ops generalizing coin with
  | nil => left; simp [Coin.applyOps]
  | cons op rest ih =>
    cases op with
    | update deltaTime sparkle =>
      simp only [Coin.applyOps]
      obtain ⟨k1, k2⟩ := coin_update_keeps sin sparkle coin deltaTime
      rw [← k2]
      exact ih _ (by rw [k1, h])
    | collect fresh =>
      right
      simp only [Coin.applyOps]
      obtain ⟨c1, _, c3, _⟩ := coin_collect_fields fresh coin
      refine ⟨_, ?_, (applyOps_collected sin rest _ c1).2⟩
      rw [c3, if_neg (by simp [h])]

/-- The coin loop body on a collected coin makes no call and leaves the coin collected. -/
theorem coinTick_collected (sin sqrt : ℚ → ℚ) (frame : CoinFrame) (coin : Coin)
    (h : coin.isCollected = true) :
    (Game.coinTick sin sqrt frame coin).collected = false ∧
      (Game.coinTick sin sqrt frame coin).coin.isCollected = true := by
  have k := (coin_update_keeps sin frame.sparkle coin frame.deltaTime).1
  rw [h] at k
  simp only [Game.coinTick]
  cases frame.player with
  | none => simp [k]
  | some player => simp [k]

/-- After a loop body that made the calls, the coin is collected. -/
theorem coinTick_hit (sin sqrt : ℚ → ℚ) (frame : CoinFrame) (coin : Coin)
    (h : (Game.coinTick sin sqrt frame coin).collected = true) :
    (Game.coinTick sin sqrt frame coin).coin.isCollected = true ∧
      (Game.coinTick sin sqrt frame coin).coin.collectionTime = 0 := by
  simp only [Game.coinTick] at h ⊢
  rw [if_pos h]
  have hnot : (coin.update sin frame.sparkle frame.deltaTime).isCollected = false := by
    cases hp : frame.player with
    | none => rw [hp] at h; exact absurd h (by simp)
    | some player =>
      rw [hp] at h
      simp only [Bool.and_eq_true, Bool.not_eq_true'] at h
      exact h.1
  obtain ⟨c1, _, _, c4⟩ := coin_collect_fields frame.fresh
    (coin.update sin frame.sparkle frame.deltaTime)
  refine ⟨c1, ?_⟩
  rw [c4, if_neg (by simp [hnot])]

/-- No calls are made for a coin that is already collected. -/
theorem coinCalls_collected (sin sqrt : ℚ → ℚ) (frames : List CoinFrame) (coin : Coin)
    (h : coin.isCollected = true) : Game.coinCalls sin sqrt frames coin = 0 := by
  induction frames generalizing coin with
  | nil => rfl
  | cons frame rest ih =>
    obtain ⟨t1, t2⟩ := coinTick_collected sin sqrt frame coin h
    simp only [Game.coinCalls]
    rw [t1, if_neg (by simp), ih _ t2]
    simp

/-- At most one call is made for a coin over any sequence of ticks. -/
theorem coinCalls_le_one (sin sqrt : ℚ → ℚ) (frames : List CoinFrame) (coin : Coin) :
    Game.coinCalls sin sqrt frames coin ≤ 1 := by
  induction frames generalizing coin with
  | nil => simp [Game.coinCalls]
  | cons frame rest ih =>
    simp only [Game.coinCalls]
    by_cases hc : (Game.coinTick sin sqrt frame coin).collected = true
    · have hz := coinCalls_collected sin sqrt rest _ (coinTick_hit sin sqrt frame coin hc).1
      rw [if_pos hc, hz]
      split_ifs <;> simp
    · rw [if_neg hc]
      split_ifs
      · simp
      · simpa using ih _

/-- C22. For every sequence of `update` and `collect` calls on a new coin, the values
returned by the `collect` calls are the coin value 10 for the first one and 0 for every later
one; a collected coin stays collected over any further calls; and over any sequence of ticks
of the coin loop of `Game.updatePlaying`, `scoreManager.addCoin` and
`levelManager.collectCoin` are called at most once for a coin. Three ticks with the player
standing on the coin make exactly one call. -/
theorem coin_collected_once (sin sqrt : ℚ → ℚ) (x y : ℚ) (ops : List CoinOp) (coin : Coin)
    (frames : List CoinFrame) :
    ((Coin.applyOps sin ops (Coin.create x y)).2 = [] ∨
        ∃ later : List ℤ, (Coin.applyOps sin ops (Coin.create x y)).2 = 10 :: later ∧
          ∀ v ∈ later, v = 0) ∧
      (coin.isCollected = true → (Coin.applyOps sin ops coin).1.isCollected = true) ∧
      Game.coinCalls sin sqrt frames coin ≤ 1 ∧
      Game.coinCalls (fun _ => 0) (fun _ => 0)
          [{ deltaTime := 16, player := some (Player.create 90 80), sparkle := [], fresh := [] },
           { deltaTime := 16, player := some (Player.create 90 80), sparkle := [], fresh := [] },
           { deltaTime := 16, player := some (Player.create 90 80), sparkle := [], fresh := [] }]
          (Coin.create 100 100) = 1 := by
  refine ⟨?_, ?_, coinCalls_le_one sin sqrt frames coin, ?_⟩
  · exact applyOps_first_collect sin ops (Coin.create x y) rfl
  · intro h
    exact (applyOps_collected sin ops coin h).1
  · have h1 : (Game.coinTick (fun _ => 0) (fun _ => 0)
        { deltaTime := 16, player := some (Player.create 90 80), sparkle := [], fresh := [] }
        (Coin.create 100 100)).collected = true := by
      norm_num [Game.coinTick, Coin.update, Coin.create, Coin.getCollisionCircle,
        Player.getCollisionRect, Player.create, Rect.toRectOf,
        CollisionSystem.checkCircleRectCollision, Helpers.clamp, Constants.COIN_RADIUS,
        Constants.PLAYER_WIDTH, Constants.PLAYER_HEIGHT, Constants.COIN_ANIMATION_SPEED]
    have h2 := coinTick_hit _ _ _ _ h1
    have h3 : (Game.coinTick (fun _ => 0) (fun _ => 0)
        { deltaTime := 16, player := some (Player.create 90 80), sparkle := [], fresh := [] }
        (Coin.create 100 100)).removed = false := by
      simp only [Game.coinTick] at h2 ⊢
      simp only [Coin.shouldRemove, h2.2]
      norm_num
    rw [Game.coinCalls]
    simp only [h1, h3, if_true]
    rw [coinCalls_collected _ _ _ _ h2.1]
    simp

/-- C22 witness: a new coin collected, stepped and collected again returns 10 and then 0, is
still collected at the end, and the coin loop makes at most one call for it over two ticks. -/
theorem coin_collected_once_witness :
    (Coin.applyOps (fun _ => 0) [CoinOp.collect [], CoinOp.update 16 [], CoinOp.collect []]
        (Coin.create 0 0)).2 = [10, 0] ∧
      Game.coinCalls (fun _ => 0) (fun _ => 0)
          [{ deltaTime := 16, player := none, sparkle := [], fresh := [] },
           { deltaTime := 16, player := some (Player.create 0 0), sparkle := [], fresh := [] }]
          (Coin.create 0 0) ≤ 1 :=
  ⟨by
      norm_num [Coin.applyOps, Coin.collect, Coin.update, Coin.create, Constants.COIN_VALUE],
    (coin_collected_once (fun _ => 0) (fun _ => 0) 0 0 [] (Coin.create 0 0)
      [{ deltaTime := 16, player := none, sparkle := [], fresh := [] },
       { deltaTime := 16, player := some (Player.create 0 0), sparkle := [], fresh := [] }]).2.2.1⟩

/-! ### C23: removal of a collected coin -/

/-- A step of a collected coin adds the step to the collection time. -/
theorem coin_update_time (sin : ℚ → ℚ) (sparkle : List Particle) (coin : Coin)
    (deltaTime : ℚ) (h : coin.isCollected = true) :
    (coin.update sin sparkle deltaTime).collectionTime = coin.collectionTime + deltaTime := by
  simp only [Coin.update, h, if_true]

/-- The removal test spelled out. -/
theorem shouldRemove_iff (coin : Coin) :
    coin.shouldRemove = true ↔
      coin.isCollected = true ∧ coin.collectionTime > 1000 ∧ coin.particles = [] := by
  simp only [Coin.shouldRemove, Bool.and_eq_true, decide_eq_true_eq, List.length_eq_zero]
  tauto

/-- The collected flag and the collection time of a coin follow the time counted by
`CoinOp.sinceCollect` over any calls. -/
theorem applyOps_sinceCollect (sin : ℚ → ℚ) (ops : List CoinOp) (coin : Coin)
    (since : Option ℚ) (h0 : since = none → coin.isCollected = false)
    (h1 : ∀ t, since = some t → coin.isCollected = true ∧ coin.collectionTime = t) :
    (CoinOp.sinceCollect ops since = none → (Coin.applyOps sin ops coin).1.isCollected = false) ∧
      ∀ t, CoinOp.sinceCollect ops since = some t →
        (Coin.applyOps sin ops coin).1.isCollected = true ∧
          (Coin.applyOps sin ops coin).1.collectionTime = t := by
  induction ops generalizing coin since with
  | nil => exact ⟨h0, h1⟩
  | cons op rest ih =>
    cases op with
    | update deltaTime sparkle =>
      simp only [Coin.applyOps, CoinOp.sinceCollect]
      obtain ⟨k1, _⟩ := coin_update_keeps sin sparkle coin deltaTime
      apply ih
      · intro hn
        rw [k1]
        apply h0
        cases since with
        | none => rfl
        | some t => simp at hn
      · intro t ht
        cases since with
        | none => simp at ht
        | some u =>
          simp only [Option.map_some', Option.some.injEq] at ht
          obtain ⟨a, b⟩ := h1 u rfl
          rw [k1, coin_update_time sin sparkle coin deltaTime a, b, ht]
          exact ⟨a, rfl⟩
    | collect fresh =>
      simp only [Coin.applyOps, CoinOp.sinceCollect]
      obtain ⟨c1, _, _, c4⟩ := coin_collect_fields fresh coin
      apply ih
      · intro hn
        simp at hn
      · intro t ht
        simp only [Option.some.injEq] at ht
        refine ⟨c1, ?_⟩
        rw [c4, ← ht]
        cases since with
        | none =>
          have := h0 rfl
          simp [this]
        | some u =>
          obtain ⟨a, b⟩ := h1 u rfl
          simp [a, b]

/-- C23. `Coin.shouldRemove` is true exactly when the coin is collected, its collection
time exceeds 1000 and its particle list is empty; it is false for every coin that is not
collected; after any sequence of `update` and `collect` calls on a new coin, a true
`shouldRemove` means that a `collect` has happened and that more than 1000 ms of update time
have accumulated since the first one; and in the coin loop of `Game.updatePlaying` a coin is
not spliced out in the tick in which it is collected. -/
theorem coin_two_phase_removal (sin sqrt : ℚ → ℚ) (x y : ℚ) (ops : List CoinOp) (coin : Coin)
    (frame : CoinFrame) :
    (coin.shouldRemove = true ↔
        coin.isCollected = true ∧ coin.collectionTime > 1000 ∧ coin.particles = []) ∧
      (coin.isCollected = false → coin.shouldRemove = false) ∧
      ((Coin.applyOps sin ops (Coin.create x y)).1.shouldRemove = true →
        ∃ t : ℚ, CoinOp.sinceCollect ops none = some t ∧ t > 1000 ∧
          (Coin.applyOps sin ops (Coin.create x y)).1.particles = []) ∧
      ((Game.coinTick sin sqrt frame coin).collected = true →
        (Game.coinTick sin sqrt frame coin).removed = false) ∧
      (Coin.applyOps (fun _ => 0)
          [CoinOp.collect [], CoinOp.update 600 [], CoinOp.update 400 []]
          (Coin.create 0 0)).1.shouldRemove = false ∧
      (Coin.applyOps (fun _ => 0)
          [CoinOp.collect [], CoinOp.update 600 [], CoinOp.update 401 []]
          (Coin.create 0 0)).1.shouldRemove = true := by
  refine ⟨shouldRemove_iff coin, ?_, ?_, ?_, ?_, ?_⟩
  · intro h
    simp [Coin.shouldRemove, h]
  · intro h
    obtain ⟨a, b, c⟩ := (shouldRemove_iff _).mp h
    obtain ⟨t0, t1⟩ := applyOps_sinceCollect sin ops (Coin.create x y) none (fun _ => rfl)
      (fun t ht => by simp at ht)
    cases hs : CoinOp.sinceCollect ops none with
    | none => rw [t0 hs] at a; simp at a
    | some t =>
      refine ⟨t, rfl, ?_, c⟩
      rw [← (t1 t hs).2]
      exact b
  · intro h
    have h2 := coinTick_hit sin sqrt frame coin h
    have h3 : (Game.coinTick sin sqrt frame coin).removed =
        (Game.coinTick sin sqrt frame coin).coin.shouldRemove := rfl
    rw [h3]
    simp [Coin.shouldRemove, h2.2]
  · norm_num [Coin.applyOps, Coin.collect, Coin.update, Coin.create, Coin.shouldRemove,
      Helpers.updateParticles]
  · norm_num [Coin.applyOps, Coin.collect, Coin.update, Coin.create, Coin.shouldRemove,
      Helpers.updateParticles]

/-- C23 witness: a new coin is not removable, and the tick that collects the coin at
(100,100) under the player at (90,80) does not splice it. -/
theorem coin_two_phase_removal_witness :
    (Coin.create 100 100).shouldRemove = false ∧
      ((Game.coinTick (fun _ => 0) (fun _ => 0)
          { deltaTime := 16, player := some (Player.create 90 80), sparkle := [], fresh := [] }
          (Coin.create 100 100)).collected = true →
        (Game.coinTick (fun _ => 0) (fun _ => 0)
          { deltaTime := 16, player := some (Player.create 90 80), sparkle := [], fresh := [] }
          (Coin.create 100 100)).removed = false) :=
  ⟨(coin_two_phase_removal (fun _ => 0) (fun _ => 0) 0 0 [] (Coin.create 100 100)
      { deltaTime := 16, player := some (Player.create 90 80), sparkle := [],
        fresh := [] }).2.1 rfl,
    (coin_two_phase_removal (fun _ => 0) (fun _ => 0) 0 0 [] (Coin.create 100 100)
      { deltaTime := 16, player := some (Player.create 90 80), sparkle := [],
        fresh := [] }).2.2.2.1⟩

/-! ### C24: circle against rectangle -/

/-- The clamped value lies in the interval when the interval is not empty. -/
theorem clamp_mem {R : Type} [LinearOrderedField R] (value lo hi : R) (h : lo ≤ hi) :
    lo ≤ Helpers.clamp value lo hi ∧ Helpers.clamp value lo hi ≤ hi := by
  unfold Helpers.clamp
  exact ⟨le_max_left _ _, max_le h (min_le_left _ _)⟩

/-- The clamped value is the point of the interval nearest to the value. -/
theorem clamp_nearest {R : Type} [LinearOrderedField R] (value lo hi p : R) (h1 : lo ≤ p)
    (h2 : p ≤ hi) :
    (value - Helpers.clamp value lo hi) * (value - Helpers.clamp value lo hi) ≤
      (value - p) * (value - p) := by
  unfold Helpers.clamp
  rcases le_total value lo with hv | hv
  · have hc : max lo (min hi value) = lo := by
      apply max_eq_left
      exact le_trans (min_le_right _ _) hv
    rw [hc]
    nlinarith
  · rcases le_total value hi with hw | hw
    · have hc : max lo (min hi value) = value := by
        rw [min_eq_right hw, max_eq_right hv]
      rw [hc]
      nlinarith [mul_self_nonneg (value - p)]
    · have hc : max lo (min hi value) = hi := by
        rw [min_eq_left hw, max_eq_right (le_trans h1 h2)]
      rw [hc]
      nlinarith

/-- The hit test of `checkCircleRectCollision` compares the squared distance to the clamped
point with the squared radius. -/
theorem checkCircleRectCollision_collided {R : Type} [LinearOrderedField R] (sqrt : R → R)
    (circle : CircleOf R) (rect : RectOf R) :
    (CollisionSystem.checkCircleRectCollision sqrt circle rect).collided = true ↔
      (circle.x - Helpers.clamp circle.x rect.x (rect.x + rect.width)) *
          (circle.x - Helpers.clamp circle.x rect.x (rect.x + rect.width)) +
        (circle.y - Helpers.clamp circle.y rect.y (rect.y + rect.height)) *
          (circle.y - Helpers.clamp circle.y rect.y (rect.y + rect.height)) ≤
        circle.radius * circle.radius := by
  simp only [CollisionSystem.checkCircleRectCollision]
  by_cases h : (circle.x - Helpers.clamp circle.x rect.x (rect.x + rect.width)) *
          (circle.x - Helpers.clamp circle.x rect.x (rect.x + rect.width)) +
        (circle.y - Helpers.clamp circle.y rect.y (rect.y + rect.height)) *
          (circle.y - Helpers.clamp circle.y rect.y (rect.y + rect.height)) >
        circle.radius * circle.radius
  · rw [if_pos h]
    simp only [Bool.false_eq_true, false_iff, not_le]
    exact h
  · rw [if_neg h]
    simp only [true_iff]
    exact not_lt.mp h

/-- On a hit the penetration is the radius minus the square root of the squared distance. -/
theorem checkCircleRectCollision_penetration {R : Type} [LinearOrderedField R] (sqrt : R → R)
    (circle : CircleOf R) (rect : RectOf R)
    (h : (CollisionSystem.checkCircleRectCollision sqrt circle rect).collided = true) :
    (CollisionSystem.checkCircleRectCollision sqrt circle rect).penetration =
      circle.radius - sqrt
        ((circle.x - Helpers.clamp circle.x rect.x (rect.x + rect.width)) *
            (circle.x - Helpers.clamp circle.x rect.x (rect.x + rect.width)) +
          (circle.y - Helpers.clamp circle.y rect.y (rect.y + rect.height)) *
            (circle.y - Helpers.clamp circle.y rect.y (rect.y + rect.height))) := by
  simp only [CollisionSystem.checkCircleRectCollision] at h ⊢
  by_cases hc : (circle.x - Helpers.clamp circle.x rect.x (rect.x + rect.width)) *
          (circle.x - Helpers.clamp circle.x rect.x (rect.x + rect.width)) +
        (circle.y - Helpers.clamp circle.y rect.y (rect.y + rect.height)) *
          (circle.y - Helpers.clamp circle.y rect.y (rect.y + rect.height)) >
        circle.radius * circle.radius
  · rw [if_pos hc] at h
    exact absurd h (by simp)
  · rw [if_neg hc]

/-- A non-negative number whose square is at most the square of a non-negative bound is at
most the bound. -/
theorem le_of_mul_self_le {R : Type} [LinearOrderedField R] (a b : R) (ha : 0 ≤ a)
    (hb : 0 ≤ b) (h : a * a ≤ b * b) : a ≤ b := by
  by_contra hcon
  have hlt : b < a := not_le.mp hcon
  have : b * b < a * a := by nlinarith
  exact absurd h (not_le.mpr this)

/-- C24. For a circle with `radius ≥ 0` and a rectangle with `width, height ≥ 0`, and a
square root that is exact at the squared distance between the centre and the clamped point:
the clamped point lies in the closed rectangle and no point of the rectangle is nearer to the
centre; `checkCircleRectCollision` reports `collided = true` iff some point of the closed
rectangle is within distance `radius` of the centre (squared distance at most `radius²`); on a
hit `penetration = radius - distance ≥ 0`; and `Helpers.circleRectIntersect` returns the same
boolean. -/
theorem checkCircleRectCollision_nearest_point {R : Type} [LinearOrderedField R]
    (sqrt : R → R) (circle : CircleOf R) (rect : RectOf R)
    (hr : 0 ≤ circle.radius) (hw : 0 ≤ rect.width) (hh : 0 ≤ rect.height)
    (hs : 0 ≤ sqrt
          ((circle.x - Helpers.clamp circle.x rect.x (rect.x + rect.width)) *
              (circle.x - Helpers.clamp circle.x rect.x (rect.x + rect.width)) +
            (circle.y - Helpers.clamp circle.y rect.y (rect.y + rect.height)) *
              (circle.y - Helpers.clamp circle.y rect.y (rect.y + rect.height))) ∧
        sqrt
            ((circle.x - Helpers.clamp circle.x rect.x (rect.x + rect.width)) *
                (circle.x - Helpers.clamp circle.x rect.x (rect.x + rect.width)) +
              (circle.y - Helpers.clamp circle.y rect.y (rect.y + rect.height)) *
                (circle.y - Helpers.clamp circle.y rect.y (rect.y + rect.height))) *
          sqrt
            ((circle.x - Helpers.clamp circle.x rect.x (rect.x + rect.width)) *
                (circle.x - Helpers.clamp circle.x rect.x (rect.x + rect.width)) +
              (circle.y - Helpers.clamp circle.y rect.y (rect.y + rect.height)) *
                (circle.y - Helpers.clamp circle.y rect.y (rect.y + rect.height))) =
          (circle.x - Helpers.clamp circle.x rect.x (rect.x + rect.width)) *
              (circle.x - Helpers.clamp circle.x rect.x (rect.x + rect.width)) +
            (circle.y - Helpers.clamp circle.y rect.y (rect.y + rect.height)) *
              (circle.y - Helpers.clamp circle.y rect.y (rect.y + rect.height))) :
    CollisionSystem.isPointInRect (Helpers.clamp circle.x rect.x (rect.x + rect.width))
        (Helpers.clamp circle.y rect.y (rect.y + rect.height)) rect = true ∧
      (∀ px py : R, CollisionSystem.isPointInRect px py rect = true →
        (circle.x - Helpers.clamp circle.x rect.x (rect.x + rect.width)) *
              (circle.x - Helpers.clamp circle.x rect.x (rect.x + rect.width)) +
            (circle.y - Helpers.clamp circle.y rect.y (rect.y + rect.height)) *
              (circle.y - Helpers.clamp circle.y rect.y (rect.y + rect.height)) ≤
          (circle.x - px) * (circle.x - px) + (circle.y - py) * (circle.y - py)) ∧
      ((CollisionSystem.checkCircleRectCollision sqrt circle rect).collided = true ↔
        ∃ px py : R, CollisionSystem.isPointInRect px py rect = true ∧
          (circle.x - px) * (circle.x - px) + (circle.y - py) * (circle.y - py) ≤
            circle.radius * circle.radius) ∧
      ((CollisionSystem.checkCircleRectCollision sqrt circle rect).collided = true →
        (CollisionSystem.checkCircleRectCollision sqrt circle rect).penetration =
            circle.radius - sqrt
              ((circle.x - Helpers.clamp circle.x rect.x (rect.x + rect.width)) *
                  (circle.x - Helpers.clamp circle.x rect.x (rect.x + rect.width)) +
                (circle.y - Helpers.clamp circle.y rect.y (rect.y + rect.height)) *
                  (circle.y - Helpers.clamp circle.y rect.y (rect.y + rect.height))) ∧
          0 ≤ (CollisionSystem.checkCircleRectCollision sqrt circle rect).penetration) ∧
      Helpers.circleRectIntersect sqrt circle rect =
        (CollisionSystem.checkCircleRectCollision sqrt circle rect).collided := by
  have hx := clamp_mem circle.x rect.x (rect.x + rect.width) (by linarith)
  have hy := clamp_mem circle.y rect.y (rect.y + rect.height) (by linarith)
  have hin : ∀ px py : R, CollisionSystem.isPointInRect px py rect = true ↔
      (rect.x ≤ px ∧ px ≤ rect.x + rect.width) ∧ (rect.y ≤ py ∧ py ≤ rect.y + rect.height) := by
    intro px py
    simp only [CollisionSystem.isPointInRect, Bool.and_eq_true, decide_eq_true_eq, ge_iff_le]
    tauto
  have hnear : ∀ px py : R, CollisionSystem.isPointInRect px py rect = true →
      (circle.x - Helpers.clamp circle.x rect.x (rect.x + rect.width)) *
            (circle.x - Helpers.clamp circle.x rect.x (rect.x + rect.width)) +
          (circle.y - Helpers.clamp circle.y rect.y (rect.y + rect.height)) *
            (circle.y - Helpers.clamp circle.y rect.y (rect.y + rect.height)) ≤
        (circle.x - px) * (circle.x - px) + (circle.y - py) * (circle.y - py) := by
    intro px py hp
    obtain ⟨⟨a1, a2⟩, b1, b2⟩ := (hin px py).mp hp
    exact add_le_add (clamp_nearest circle.x rect.x (rect.x + rect.width) px a1 a2)
      (clamp_nearest circle.y rect.y (rect.y + rect.height) py b1 b2)
  have hclosest := (hin _ _).mpr ⟨hx, hy⟩
  have hcol := checkCircleRectCollision_collided sqrt circle rect
  refine ⟨hclosest, hnear, ?_, ?_, ?_⟩
  · rw [hcol]
    constructor
    · intro h
      exact ⟨_, _, hclosest, h⟩
    · rintro ⟨px, py, hp, hd⟩
      exact le_trans (hnear px py hp) hd
  · intro h
    have hp := checkCircleRectCollision_penetration sqrt circle rect h
    refine ⟨hp, ?_⟩
    rw [hp]
    have hle := le_of_mul_self_le _ _ hs.1 hr (by rw [hs.2]; exact hcol.mp h)
    linarith
  · rw [Bool.eq_iff_iff, hcol]
    simp only [Helpers.circleRectIntersect, Helpers.distance, decide_eq_true_eq]
    have harg : (Helpers.clamp circle.x rect.x (rect.x + rect.width) - circle.x) *
          (Helpers.clamp circle.x rect.x (rect.x + rect.width) - circle.x) +
        (Helpers.clamp circle.y rect.y (rect.y + rect.height) - circle.y) *
          (Helpers.clamp circle.y rect.y (rect.y + rect.height) - circle.y) =
        (circle.x - Helpers.clamp circle.x rect.x (rect.x + rect.width)) *
            (circle.x - Helpers.clamp circle.x rect.x (rect.x + rect.width)) +
          (circle.y - Helpers.clamp circle.y rect.y (rect.y + rect.height)) *
            (circle.y - Helpers.clamp circle.y rect.y (rect.y + rect.height)) := by ring
    rw [harg]
    constructor
    · intro h
      rw [← hs.2]
      exact mul_self_le_mul_self hs.1 h
    · intro h
      exact le_of_mul_self_le _ _ hs.1 hr (by rw [hs.2]; exact h)

/-- C24 witness over the reals: the circle of radius 5 at the origin touches the rectangle
with corner `(3, 4)`. -/
theorem checkCircleRectCollision_nearest_point_witness :
    CollisionSystem.isPointInRect (Helpers.clamp (0 : ℝ) 3 (3 + 10))
        (Helpers.clamp (0 : ℝ) 4 (4 + 10)) (RectOf.mk 3 4 10 10) = true ∧
      (∀ px py : ℝ, CollisionSystem.isPointInRect px py (RectOf.mk 3 4 10 10) = true →
        ((0 : ℝ) - Helpers.clamp (0 : ℝ) 3 (3 + 10)) *
              ((0 : ℝ) - Helpers.clamp (0 : ℝ) 3 (3 + 10)) +
            ((0 : ℝ) - Helpers.clamp (0 : ℝ) 4 (4 + 10)) *
              ((0 : ℝ) - Helpers.clamp (0 : ℝ) 4 (4 + 10)) ≤
          ((0 : ℝ) - px) * ((0 : ℝ) - px) + ((0 : ℝ) - py) * ((0 : ℝ) - py)) ∧
      ((CollisionSystem.checkCircleRectCollision Real.sqrt (CircleOf.mk (0 : ℝ) 0 5)
            (RectOf.mk 3 4 10 10)).collided = true ↔
        ∃ px py : ℝ, CollisionSystem.isPointInRect px py (RectOf.mk 3 4 10 10) = true ∧
          ((0 : ℝ) - px) * ((0 : ℝ) - px) + ((0 : ℝ) - py) * ((0 : ℝ) - py) ≤
            (5 : ℝ) * 5) ∧
      ((CollisionSystem.checkCircleRectCollision Real.sqrt (CircleOf.mk (0 : ℝ) 0 5)
            (RectOf.mk 3 4 10 10)).collided = true →
        (CollisionSystem.checkCircleRectCollision Real.sqrt (CircleOf.mk (0 : ℝ) 0 5)
              (RectOf.mk 3 4 10 10)).penetration =
            (5 : ℝ) - Real.sqrt
              (((0 : ℝ) - Helpers.clamp (0 : ℝ) 3 (3 + 10)) *
                  ((0 : ℝ) - Helpers.clamp (0 : ℝ) 3 (3 + 10)) +
                ((0 : ℝ) - Helpers.clamp (0 : ℝ) 4 (4 + 10)) *
                  ((0 : ℝ) - Helpers.clamp (0 : ℝ) 4 (4 + 10))) ∧
          0 ≤ (CollisionSystem.checkCircleRectCollision Real.sqrt (CircleOf.mk (0 : ℝ) 0 5)
              (RectOf.mk 3 4 10 10)).penetration) ∧
      Helpers.circleRectIntersect Real.sqrt (CircleOf.mk (0 : ℝ) 0 5) (RectOf.mk 3 4 10 10) =
        (CollisionSystem.checkCircleRectCollision Real.sqrt (CircleOf.mk (0 : ℝ) 0 5)
          (RectOf.mk 3 4 10 10)).collided :=
  checkCircleRectCollision_nearest_point Real.sqrt (CircleOf.mk (0 : ℝ) 0 5)
    (RectOf.mk 3 4 10 10) (by norm_num) (by norm_num) (by norm_num)
    ⟨Real.sqrt_nonneg _,
      Real.mul_self_sqrt (add_nonneg (mul_self_nonneg _) (mul_self_nonneg _))⟩

/-! ### C25: circle against circle -/

/-- The hit test of `checkCircleCircleCollision` compares the distance with the radius sum. -/
theorem checkCircleCircleCollision_collided {R : Type} [LinearOrderedField R] (sqrt : R → R)
    (circle1 circle2 : CircleOf R) :
    (CollisionSystem.checkCircleCircleCollision sqrt circle1 circle2).collided = true ↔
      sqrt ((circle2.x - circle1.x) * (circle2.x - circle1.x) +
          (circle2.y - circle1.y) * (circle2.y - circle1.y)) ≤
        circle1.radius + circle2.radius := by
  simp only [CollisionSystem.checkCircleCircleCollision]
  by_cases h : sqrt ((circle2.x - circle1.x) * (circle2.x - circle1.x) +
      (circle2.y - circle1.y) * (circle2.y - circle1.y)) > circle1.radius + circle2.radius
  · rw [if_pos h]
    simp only [Bool.false_eq_true, false_iff, not_le]
    exact h
  · rw [if_neg h]
    simp only [true_iff]
    exact not_lt.mp h

/-- On a hit, the result fields of `checkCircleCircleCollision`. -/
theorem checkCircleCircleCollision_hit {R : Type} [LinearOrderedField R] (sqrt : R → R)
    (circle1 circle2 : CircleOf R)
    (h : (CollisionSystem.checkCircleCircleCollision sqrt circle1 circle2).collided = true) :
    (CollisionSystem.checkCircleCircleCollision sqrt circle1 circle2).normal =
        (if sqrt ((circle2.x - circle1.x) * (circle2.x - circle1.x) +
              (circle2.y - circle1.y) * (circle2.y - circle1.y)) > 0 then
          ((circle2.x - circle1.x) /
              sqrt ((circle2.x - circle1.x) * (circle2.x - circle1.x) +
                (circle2.y - circle1.y) * (circle2.y - circle1.y)),
            (circle2.y - circle1.y) /
              sqrt ((circle2.x - circle1.x) * (circle2.x - circle1.x) +
                (circle2.y - circle1.y) * (circle2.y - circle1.y)))
        else (1, 0)) ∧
      (CollisionSystem.checkCircleCircleCollision sqrt circle1 circle2).penetration =
        circle1.radius + circle2.radius -
          sqrt ((circle2.x - circle1.x) * (circle2.x - circle1.x) +
            (circle2.y - circle1.y) * (circle2.y - circle1.y)) := by
  simp only [CollisionSystem.checkCircleCircleCollision] at h ⊢
  by_cases hc : sqrt ((circle2.x - circle1.x) * (circle2.x - circle1.x) +
      (circle2.y - circle1.y) * (circle2.y - circle1.y)) > circle1.radius + circle2.radius
  · rw [if_pos hc] at h
    exact absurd h (by simp)
  · rw [if_neg hc]
    exact ⟨rfl, rfl⟩

/-- C25. For every pair of circles, `checkCircleCircleCollision` reports
`collided = true` iff the distance `d` between the centres is at most the sum of the radii.
With a square root that is exact at the squared centre distance, whenever `collided` is true:
the normal has length 1 (its squared length is 1); it is `(dx/d, dy/d)` with `d ≠ 0` when the
centres differ and `(1, 0)` when they coincide; and `penetration = radiusSum - d ≥ 0`. -/
theorem checkCircleCircleCollision_unit_normal {R : Type} [LinearOrderedField R]
    (sqrt : R → R) (circle1 circle2 : CircleOf R)
    (hs : 0 ≤ sqrt ((circle2.x - circle1.x) * (circle2.x - circle1.x) +
            (circle2.y - circle1.y) * (circle2.y - circle1.y)) ∧
        sqrt ((circle2.x - circle1.x) * (circle2.x - circle1.x) +
              (circle2.y - circle1.y) * (circle2.y - circle1.y)) *
            sqrt ((circle2.x - circle1.x) * (circle2.x - circle1.x) +
              (circle2.y - circle1.y) * (circle2.y - circle1.y)) =
          (circle2.x - circle1.x) * (circle2.x - circle1.x) +
            (circle2.y - circle1.y) * (circle2.y - circle1.y)) :
    ((CollisionSystem.checkCircleCircleCollision sqrt circle1 circle2).collided = true ↔
        sqrt ((circle2.x - circle1.x) * (circle2.x - circle1.x) +
            (circle2.y - circle1.y) * (circle2.y - circle1.y)) ≤
          circle1.radius + circle2.radius) ∧
      ((CollisionSystem.checkCircleCircleCollision sqrt circle1 circle2).collided = true →
        (CollisionSystem.checkCircleCircleCollision sqrt circle1 circle2).normal.1 *
              (CollisionSystem.checkCircleCircleCollision sqrt circle1 circle2).normal.1 +
            (CollisionSystem.checkCircleCircleCollision sqrt circle1 circle2).normal.2 *
              (CollisionSystem.checkCircleCircleCollision sqrt circle1 circle2).normal.2 = 1 ∧
          (¬(circle1.x = circle2.x ∧ circle1.y = circle2.y) →
            sqrt ((circle2.x - circle1.x) * (circle2.x - circle1.x) +
                (circle2.y - circle1.y) * (circle2.y - circle1.y)) ≠ 0 ∧
              (CollisionSystem.checkCircleCircleCollision sqrt circle1 circle2).normal =
                ((circle2.x - circle1.x) /
                    sqrt ((circle2.x - circle1.x) * (circle2.x - circle1.x) +
                      (circle2.y - circle1.y) * (circle2.y - circle1.y)),
                  (circle2.y - circle1.y) /
                    sqrt ((circle2.x - circle1.x) * (circle2.x - circle1.x) +
                      (circle2.y - circle1.y) * (circle2.y - circle1.y)))) ∧
          (circle1.x = circle2.x ∧ circle1.y = circle2.y →
            (CollisionSystem.checkCircleCircleCollision sqrt circle1 circle2).normal = (1, 0)) ∧
          (CollisionSystem.checkCircleCircleCollision sqrt circle1 circle2).penetration =
            circle1.radius + circle2.radius -
              sqrt ((circle2.x - circle1.x) * (circle2.x - circle1.x) +
                (circle2.y - circle1.y) * (circle2.y - circle1.y)) ∧
          0 ≤ (CollisionSystem.checkCircleCircleCollision sqrt circle1 circle2).penetration) := by
  have hcol := checkCircleCircleCollision_collided sqrt circle1 circle2
  refine ⟨hcol, ?_⟩
  intro h
  obtain ⟨hn, hp⟩ := checkCircleCircleCollision_hit sqrt circle1 circle2 h
  have hle := hcol.mp h
  obtain ⟨h0, hsq⟩ := hs
  generalize hd : sqrt ((circle2.x - circle1.x) * (circle2.x - circle1.x) +
      (circle2.y - circle1.y) * (circle2.y - circle1.y)) = d at hn hp hle h0 hsq ⊢
  have hdiff : ¬(circle1.x = circle2.x ∧ circle1.y = circle2.y) → 0 < d := by
    intro hne
    rcases lt_or_eq_of_le h0 with hpos | hz
    · exact hpos
    · exfalso
      apply hne
      rw [← hz] at hsq
      have hsum : (circle2.x - circle1.x) * (circle2.x - circle1.x) +
          (circle2.y - circle1.y) * (circle2.y - circle1.y) = 0 := by
        rw [← hsq]; ring
      have hx : (circle2.x - circle1.x) * (circle2.x - circle1.x) = 0 := by
        nlinarith [mul_self_nonneg (circle2.x - circle1.x),
          mul_self_nonneg (circle2.y - circle1.y)]
      have hy : (circle2.y - circle1.y) * (circle2.y - circle1.y) = 0 := by
        nlinarith [mul_self_nonneg (circle2.x - circle1.x),
          mul_self_nonneg (circle2.y - circle1.y)]
      have hx0 := mul_self_eq_zero.mp hx
      have hy0 := mul_self_eq_zero.mp hy
      constructor
      · linarith
      · linarith
  have hsame : circle1.x = circle2.x ∧ circle1.y = circle2.y → ¬(d > 0) := by
    rintro ⟨ex, ey⟩ hpos
    rw [ex, ey] at hsq
    have hz : d * d = 0 := by rw [hsq]; ring
    have := mul_self_eq_zero.mp hz
    linarith
  refine ⟨?_, ?_, ?_, hp, ?_⟩
  · rw [hn]
    by_cases hpos : d > 0
    · rw [if_pos hpos]
      have hne : d ≠ 0 := ne_of_gt hpos
      simp only
      field_simp
      rw [← hsq]
    · rw [if_neg hpos]
      norm_num
  · intro hne
    have hpos := hdiff hne
    refine ⟨ne_of_gt hpos, ?_⟩
    rw [hn, if_pos hpos]
  · intro he
    rw [hn, if_neg (hsame he)]
  · rw [hp]
    linarith

/-- C25 witness over the reals: two circles whose centres are 5 apart. -/
theorem checkCircleCircleCollision_unit_normal_witness :
    (CollisionSystem.checkCircleCircleCollision Real.sqrt (CircleOf.mk (0 : ℝ) 0 2)
        (CircleOf.mk 3 4 3)).collided = true ∧
      (CollisionSystem.checkCircleCircleCollision Real.sqrt (CircleOf.mk (0 : ℝ) 0 2)
            (CircleOf.mk 3 4 3)).normal.1 *
          (CollisionSystem.checkCircleCircleCollision Real.sqrt (CircleOf.mk (0 : ℝ) 0 2)
            (CircleOf.mk 3 4 3)).normal.1 +
        (CollisionSystem.checkCircleCircleCollision Real.sqrt (CircleOf.mk (0 : ℝ) 0 2)
            (CircleOf.mk 3 4 3)).normal.2 *
          (CollisionSystem.checkCircleCircleCollision Real.sqrt (CircleOf.mk (0 : ℝ) 0 2)
            (CircleOf.mk 3 4 3)).normal.2 = 1 := by
  have hs : Real.sqrt (((3 : ℝ) - 0) * ((3 : ℝ) - 0) + ((4 : ℝ) - 0) * ((4 : ℝ) - 0)) = 5 := by
    rw [show ((3 : ℝ) - 0) * ((3 : ℝ) - 0) + ((4 : ℝ) - 0) * ((4 : ℝ) - 0) = 5 ^ 2 by norm_num]
    exact Real.sqrt_sq (by norm_num)
  have key := checkCircleCircleCollision_unit_normal Real.sqrt (CircleOf.mk (0 : ℝ) 0 2)
    (CircleOf.mk 3 4 3)
    ⟨Real.sqrt_nonneg _,
      Real.mul_self_sqrt (add_nonneg (mul_self_nonneg _) (mul_self_nonneg _))⟩
  have hc : (CollisionSystem.checkCircleCircleCollision Real.sqrt (CircleOf.mk (0 : ℝ) 0 2)
      (CircleOf.mk 3 4 3)).collided = true := by
    rw [key.1]
    simp only
    rw [hs]
    norm_num
  exact ⟨hc, (key.2 hc).1⟩

/-! ### C26: sampled line of sight -/

/-- C26. With `L = sqrt (dx² + dy²)` and a square root that is exact at that argument,
`checkLineOfSight` returns true when there is no obstacle or when the two points coincide;
otherwise `L ≠ 0` and it returns false iff for some integer `i` with `0 ≤ i < ceil L` the
sample `(x1, y1) + i * (x2 - x1, y2 - y1) / L` lies in some obstacle (`isPointInRect`, closed
bounds), and true iff there is no such sample. -/
theorem checkLineOfSight_samples {R : Type} [LinearOrderedField R] [FloorRing R]
    (sqrt : R → R) (x1 y1 x2 y2 : R) (obstacles : List (RectOf R))
    (hs : 0 ≤ sqrt ((x2 - x1) * (x2 - x1) + (y2 - y1) * (y2 - y1)) ∧
        sqrt ((x2 - x1) * (x2 - x1) + (y2 - y1) * (y2 - y1)) *
            sqrt ((x2 - x1) * (x2 - x1) + (y2 - y1) * (y2 - y1)) =
          (x2 - x1) * (x2 - x1) + (y2 - y1) * (y2 - y1)) :
    (obstacles = [] →
        CollisionSystem.checkLineOfSight sqrt x1 y1 x2 y2 obstacles = true) ∧
      (x1 = x2 ∧ y1 = y2 →
        CollisionSystem.checkLineOfSight sqrt x1 y1 x2 y2 obstacles = true) ∧
      (obstacles ≠ [] → ¬(x1 = x2 ∧ y1 = y2) →
        sqrt ((x2 - x1) * (x2 - x1) + (y2 - y1) * (y2 - y1)) ≠ 0 ∧
          (CollisionSystem.checkLineOfSight sqrt x1 y1 x2 y2 obstacles = false ↔
            ∃ i : ℕ, (i : ℤ) < Int.ceil (sqrt ((x2 - x1) * (x2 - x1) + (y2 - y1) * (y2 - y1))) ∧
              ∃ obstacle ∈ obstacles,
                CollisionSystem.isPointInRect
                  (x1 + (i : R) * (x2 - x1) /
                    sqrt ((x2 - x1) * (x2 - x1) + (y2 - y1) * (y2 - y1)))
                  (y1 + (i : R) * (y2 - y1) /
                    sqrt ((x2 - x1) * (x2 - x1) + (y2 - y1) * (y2 - y1)))
                  obstacle = true) ∧
          (CollisionSystem.checkLineOfSight sqrt x1 y1 x2 y2 obstacles = true ↔
            ¬∃ i : ℕ, (i : ℤ) < Int.ceil (sqrt ((x2 - x1) * (x2 - x1) + (y2 - y1) * (y2 - y1))) ∧
              ∃ obstacle ∈ obstacles,
                CollisionSystem.isPointInRect
                  (x1 + (i : R) * (x2 - x1) /
                    sqrt ((x2 - x1) * (x2 - x1) + (y2 - y1) * (y2 - y1)))
                  (y1 + (i : R) * (y2 - y1) /
                    sqrt ((x2 - x1) * (x2 - x1) + (y2 - y1) * (y2 - y1)))
                  obstacle = true)) := by
  obtain ⟨h0, hsq⟩ := hs
  generalize hd : sqrt ((x2 - x1) * (x2 - x1) + (y2 - y1) * (y2 - y1)) = d at h0 hsq ⊢
  refine ⟨?_, ?_, ?_⟩
  · intro he
    subst he
    simp [CollisionSystem.checkLineOfSight]
  · rintro ⟨ex, ey⟩
    have hz : d * d = 0 := by rw [hsq, ex, ey]; ring
    have hd0 : d = 0 := mul_self_eq_zero.mp hz
    simp only [CollisionSystem.checkLineOfSight, hd, hd0]
    split_ifs <;> rfl
  · intro hne hpts
    have hdne : d ≠ 0 := by
      intro hd0
      apply hpts
      rw [hd0] at hsq
      have hsum : (x2 - x1) * (x2 - x1) + (y2 - y1) * (y2 - y1) = 0 := by
        rw [← hsq]; ring
      have hx : (x2 - x1) * (x2 - x1) = 0 := by
        nlinarith [mul_self_nonneg (x2 - x1), mul_self_nonneg (y2 - y1)]
      have hy : (y2 - y1) * (y2 - y1) = 0 := by
        nlinarith [mul_self_nonneg (x2 - x1), mul_self_nonneg (y2 - y1)]
      have hx0 := mul_self_eq_zero.mp hx
      have hy0 := mul_self_eq_zero.mp hy
      constructor
      · linarith
      · linarith
    have hlen : ¬(obstacles.length = 0) := by
      intro hl
      exact hne (List.length_eq_zero.mp hl)
    have hpt : ∀ i : ℕ, ∀ obstacle : RectOf R,
        CollisionSystem.isPointInRect (x1 + (x2 - x1) / d * (i : R))
            (y1 + (y2 - y1) / d * (i : R)) obstacle =
          CollisionSystem.isPointInRect (x1 + (i : R) * (x2 - x1) / d)
            (y1 + (i : R) * (y2 - y1) / d) obstacle := by
      intro i obstacle
      have e1 : x1 + (x2 - x1) / d * (i : R) = x1 + (i : R) * (x2 - x1) / d := by ring
      have e2 : y1 + (y2 - y1) / d * (i : R) = y1 + (i : R) * (y2 - y1) / d := by ring
      rw [e1, e2]
    have hfalse : CollisionSystem.checkLineOfSight sqrt x1 y1 x2 y2 obstacles = false ↔
        ∃ i : ℕ, (i : ℤ) < Int.ceil d ∧ ∃ obstacle ∈ obstacles,
          CollisionSystem.isPointInRect (x1 + (i : R) * (x2 - x1) / d)
            (y1 + (i : R) * (y2 - y1) / d) obstacle = true := by
      simp only [CollisionSystem.checkLineOfSight, hd, if_neg hlen, if_neg hdne,
        Bool.not_eq_false', List.any_eq_true, List.mem_range, Int.lt_toNat, hpt]
    refine ⟨hdne, hfalse, ?_⟩
    rw [← hfalse]
    simp

/-- C26 witness over the reals: from `(0, 0)` to `(3, 4)` the first sample is the start
point, which lies in the obstacle around the origin, so there is no line of sight. -/
theorem checkLineOfSight_samples_witness :
    CollisionSystem.checkLineOfSight Real.sqrt (0 : ℝ) 0 3 4 [RectOf.mk (-1) (-1) 2 2] =
      false := by
  have key := checkLineOfSight_samples Real.sqrt (0 : ℝ) 0 3 4 [RectOf.mk (-1) (-1) 2 2]
    ⟨Real.sqrt_nonneg _,
      Real.mul_self_sqrt (add_nonneg (mul_self_nonneg _) (mul_self_nonneg _))⟩
  have h := key.2.2 (by simp) (by norm_num)
  apply h.2.1.mpr
  refine ⟨0, ?_, RectOf.mk (-1) (-1) 2 2, by simp, ?_⟩
  · rw [Nat.cast_zero, Int.ceil_pos]
    exact lt_of_le_of_ne (Real.sqrt_nonneg _) (Ne.symm h.1)
  · norm_num [CollisionSystem.isPointInRect]

/-! ### C27: entity integration -/

/-- C27 (counterexample). A grounded entity with `velocity.x = 10` integrated for a step of 1
with the constructor settings (air resistance 0.98, ground friction 0.85): `updateEntity`
multiplies by both factors, `10 * 0.98 * 0.85 = 8.33`, where the claim has the ground factor
alone, `10 * 0.85 = 8.5`. -/
theorem updateEntity_applies_both_factors :
    (PhysicsEngine.updateEntity powFloor PhysicsSettings.create
        { position := { x := 0, y := 0 }, velocity := { x := 10, y := 0 }, isOnGround := true }
        1).velocity.x = 833 / 100 ∧
    (10 : ℚ) * powFloor PhysicsSettings.create.groundFriction 1 = 85 / 10 := by
  constructor
  · norm_num [PhysicsEngine.updateEntity, PhysicsSettings.create, powFloor, Constants.FRICTION,
      Constants.AIR_FRICTION, Constants.GRAVITY, Constants.MAX_FALL_SPEED, abs_eq_max_neg,
      max_def]
  · norm_num [PhysicsSettings.create, powFloor, Constants.FRICTION]

/-- C27 (amended). `updateEntity(entity, step)` multiplies `velocity.x` by
`airResistance^step` always, and when the entity is grounded also by `groundFriction^step`,
then snapping it to 0 if its absolute value is below 0.1; vertical velocity gains
`gravity * step` only when airborne and is then capped at `maxFallSpeed`; finally
`position += velocity * step` with the updated velocity. -/
theorem updateEntity_amended (pow : ℚ → ℚ → ℚ) (engine : PhysicsSettings) (entity : Entity)
    (step : ℚ) :
    (entity.isOnGround = false →
      (PhysicsEngine.updateEntity pow engine entity step).velocity.x =
        entity.velocity.x * pow engine.airResistance step ∧
      (PhysicsEngine.updateEntity pow engine entity step).velocity.y =
        min (entity.velocity.y + engine.gravity * step) engine.maxFallSpeed) ∧
    (entity.isOnGround = true →
      (PhysicsEngine.updateEntity pow engine entity step).velocity.x =
        (if abs (entity.velocity.x * pow engine.airResistance step *
              pow engine.groundFriction step) < 1 / 10 then 0
          else entity.velocity.x * pow engine.airResistance step *
              pow engine.groundFriction step) ∧
      (PhysicsEngine.updateEntity pow engine entity step).velocity.y = entity.velocity.y) ∧
    (PhysicsEngine.updateEntity pow engine entity step).position.x =
      entity.position.x + (PhysicsEngine.updateEntity pow engine entity step).velocity.x * step ∧
    (PhysicsEngine.updateEntity pow engine entity step).position.y =
      entity.position.y + (PhysicsEngine.updateEntity pow engine entity step).velocity.y * step ∧
    (PhysicsEngine.updateEntity pow engine entity step).isOnGround = entity.isOnGround := by
  refine ⟨?_, ?_, rfl, rfl, rfl⟩
  · intro h
    simp only [PhysicsEngine.updateEntity, h]
    refine ⟨by simp, ?_⟩
    simp only [Bool.not_false, if_true]
    split_ifs with hc
    · exact (min_eq_right (le_of_lt hc)).symm
    · exact (min_eq_left (not_lt.mp hc)).symm
  · intro h
    simp [PhysicsEngine.updateEntity, h]

/-- C27 witness: the grounded entity of the counterexample and an airborne one. -/
theorem updateEntity_amended_witness :
    ((PhysicsEngine.updateEntity powFloor PhysicsSettings.create
        { position := { x := 0, y := 0 }, velocity := { x := 10, y := 0 }, isOnGround := true }
        1).velocity.x =
      (if abs ((10 : ℚ) * powFloor PhysicsSettings.create.airResistance 1 *
            powFloor PhysicsSettings.create.groundFriction 1) < 1 / 10 then 0
        else (10 : ℚ) * powFloor PhysicsSettings.create.airResistance 1 *
            powFloor PhysicsSettings.create.groundFriction 1) ∧
      (PhysicsEngine.updateEntity powFloor PhysicsSettings.create
        { position := { x := 0, y := 0 }, velocity := { x := 10, y := 0 }, isOnGround := true }
        1).velocity.y = 0) ∧
    ((PhysicsEngine.updateEntity powFloor PhysicsSettings.create
        { position := { x := 0, y := 0 }, velocity := { x := 10, y := 0 }, isOnGround := false }
        1).velocity.x = (10 : ℚ) * powFloor PhysicsSettings.create.airResistance 1 ∧
      (PhysicsEngine.updateEntity powFloor PhysicsSettings.create
        { position := { x := 0, y := 0 }, velocity := { x := 10, y := 0 }, isOnGround := false }
        1).velocity.y =
        min ((0 : ℚ) + PhysicsSettings.create.gravity * 1) PhysicsSettings.create.maxFallSpeed) :=
  ⟨(updateEntity_amended powFloor PhysicsSettings.create
      { position := { x := 0, y := 0 }, velocity := { x := 10, y := 0 }, isOnGround := true }
      1).2.1 rfl,
   (updateEntity_amended powFloor PhysicsSettings.create
      { position := { x := 0, y := 0 }, velocity := { x := 10, y := 0 }, isOnGround := false }
      1).1 rfl⟩

/-! ### C28: level validation -/

/-- A descriptor is accepted only if its `endPosition.y` is the string `'number'`. -/
theorem validateLevelData_accepts_only (levelData : JsValue)
    (h : LevelManager.validateLevelData levelData = some true) :
    ((levelData.get "endPosition").get "y").strictEqString "number" = true := by
  unfold LevelManager.validateLevelData at h
  cases levelData <;> simp at h <;> simp [h]

/-- A descriptor that lacks a required field is rejected. -/
theorem validateLevelData_missing_field (levelData : JsValue) (field : String)
    (hf : field ∈ LevelManager.requiredFields)
    (hu : (levelData.get field).isUndefined = true) :
    LevelManager.validateLevelData levelData ≠ some true := by
  have hany : LevelManager.requiredFields.any
      (fun field => (levelData.get field).isUndefined) = true :=
    List.any_eq_true.mpr ⟨field, hf, hu⟩
  unfold LevelManager.validateLevelData
  cases levelData <;> simp [hany]

/-- C28. `validateLevelData` returns false for the three built-in descriptors and
accepts no descriptor whose `endPosition.y` is a number, because the test on `endPosition.y`
compares the value with the string `'number'`: of two descriptors that differ only in
`endPosition.y`, the one with the number 300 is rejected and the one with the string
`'number'` is accepted. A descriptor that lacks a required field is rejected. -/
theorem validateLevelData_rejects_builtin_levels :
    LevelManager.validateLevelData LevelManager.createLevel1 = some false ∧
      LevelManager.validateLevelData LevelManager.createLevel2 = some false ∧
      LevelManager.validateLevelData LevelManager.createLevel3 = some false ∧
      (∀ levelData : JsValue, ((levelData.get "endPosition").get "y").isNumber = true →
        LevelManager.validateLevelData levelData ≠ some true) ∧
      LevelManager.validateLevelData
        (JsValue.object
          [("id", JsValue.number 1), ("name", JsValue.string "a"),
           ("difficulty", JsValue.string "easy"), ("width", JsValue.number 2000),
           ("height", JsValue.number 1000), ("startPosition", LevelManager.point 100 400),
           ("endPosition", LevelManager.point 1800 300), ("platforms", JsValue.array []),
           ("coins", JsValue.array []), ("timeLimit", JsValue.number 120),
           ("description", JsValue.string "b")]) = some false ∧
      LevelManager.validateLevelData
        (JsValue.object
          [("id", JsValue.number 1), ("name", JsValue.string "a"),
           ("difficulty", JsValue.string "easy"), ("width", JsValue.number 2000),
           ("height", JsValue.number 1000), ("startPosition", LevelManager.point 100 400),
           ("endPosition",
             JsValue.object [("x", JsValue.number 1800), ("y", JsValue.string "number")]),
           ("platforms", JsValue.array []),
           ("coins", JsValue.array []), ("timeLimit", JsValue.number 120),
           ("description", JsValue.string "b")]) = some true ∧
      (∀ (levelData : JsValue) (field : String), field ∈ LevelManager.requiredFields →
        (levelData.get field).isUndefined = true →
        LevelManager.validateLevelData levelData ≠ some true) := by
  refine ⟨?_, ?_, ?_, ?_, ?_, ?_, validateLevelData_missing_field⟩
  · simp [LevelManager.validateLevelData, LevelManager.createLevel1, LevelManager.requiredFields,
      JsValue.get, List.lookup, JsValue.isUndefined, JsValue.isNumber, JsValue.leZero,
      JsValue.truthy, JsValue.strictEqString, JsValue.isArray, LevelManager.point]
  · simp [LevelManager.validateLevelData, LevelManager.createLevel2, LevelManager.requiredFields,
      JsValue.get, List.lookup, JsValue.isUndefined, JsValue.isNumber, JsValue.leZero,
      JsValue.truthy, JsValue.strictEqString, JsValue.isArray, LevelManager.point]
  · simp [LevelManager.validateLevelData, LevelManager.createLevel3, LevelManager.requiredFields,
      JsValue.get, List.lookup, JsValue.isUndefined, JsValue.isNumber, JsValue.leZero,
      JsValue.truthy, JsValue.strictEqString, JsValue.isArray, LevelManager.point]
  · intro levelData hy hv
    have hs := validateLevelData_accepts_only levelData hv
    cases hval : (levelData.get "endPosition").get "y" <;>
      simp [hval, JsValue.isNumber, JsValue.strictEqString] at hy hs
  · simp [LevelManager.validateLevelData, LevelManager.requiredFields,
      JsValue.get, List.lookup, JsValue.isUndefined, JsValue.isNumber, JsValue.leZero,
      JsValue.truthy, JsValue.strictEqString, JsValue.isArray, LevelManager.point]
  · simp [LevelManager.validateLevelData, LevelManager.requiredFields,
      JsValue.get, List.lookup, JsValue.isUndefined, JsValue.isNumber, JsValue.leZero,
      JsValue.truthy, JsValue.strictEqString, JsValue.isArray, LevelManager.point]

/-! ### C29: the ground probe -/

/-- The loop of `checkGround` answers true as soon as it meets a platform of non-zero width and
height: the probe rectangle plays no part. -/
theorem checkGroundLoop_eq_any (feetCheck : Rect) :
    ∀ platforms : List Platform,
      PhysicsEngine.checkGroundLoop feetCheck platforms =
        platforms.any (fun platform => !platform.isRemoved) := by
  intro platforms
  induction platforms with
  | nil => rfl
  | cons platform rest ih =>
    by_cases h : platform.width = 0 ∨ platform.height = 0
    · have hr : platform.isRemoved = true := by simp [Platform.isRemoved, h]
      simp only [PhysicsEngine.checkGroundLoop, h, if_true, List.any_cons, hr, Bool.not_true,
        Bool.false_or]
      exact ih
    · have hr : platform.isRemoved = false := by simp [Platform.isRemoved, h]
      simp only [PhysicsEngine.checkGroundLoop, h, if_false, CollisionInfo.truthy, if_true,
        List.any_cons, hr, Bool.not_false, Bool.true_or]

/-- C29 (code at a failing input). A fresh player at (0,0), whose feet rectangle is
(0,64,32,2), and the single platform (1000,1000,100,32): the rectangles do not overlap
(`checkCollision` reports `collided = false`), yet `checkGround` returns true, because its
condition is the object returned by `checkCollision`, not its `collided` field. -/
theorem checkGround_ignores_overlap :
    PhysicsEngine.feetCheck (Player.create 0 0) = { x := 0, y := 64, width := 32, height := 2 } ∧
    (CollisionSystem.checkCollision (PhysicsEngine.feetCheck (Player.create 0 0))
      (Platform.create 1000 1000 100 32 PlatformType.normal).getCollisionRect).collided = false ∧
    PhysicsEngine.checkGround (Player.create 0 0)
      [Platform.create 1000 1000 100 32 PlatformType.normal] = true := by
  refine ⟨?_, ?_, ?_⟩
  · norm_num [PhysicsEngine.feetCheck, Player.create, Constants.PLAYER_HEIGHT,
      Constants.PLAYER_WIDTH]
  · norm_num [CollisionSystem.checkCollision, PhysicsEngine.feetCheck, Player.create,
      Platform.create, Platform.getCollisionRect, Constants.PLAYER_HEIGHT,
      Constants.PLAYER_WIDTH]
  · norm_num [PhysicsEngine.checkGround, PhysicsEngine.checkGroundLoop, CollisionInfo.truthy,
      Platform.create]

/-! ### C30: the landing hook cannot throw -/

/-- One pass of the platform loop either leaves player and platform as they were or is a
resolution followed by the platform effects for some side. -/
theorem collideWith_cases (player : Player) (platform : Platform) :
    PhysicsEngine.collideWith player platform = (player, platform) ∨
    ∃ side : Side, PhysicsEngine.collideWith player platform =
      PhysicsEngine.handlePlatformEffects
        (PhysicsEngine.resolveCollision player platform side) platform side := by
  simp only [PhysicsEngine.collideWith]
  split_ifs with h1 h2
  · left; rfl
  · cases hs : (CollisionSystem.checkCollision player.getCollisionRect
        platform.getCollisionRect).side with
    | none => left; rfl
    | some side => right; exact ⟨side, rfl⟩
  · left; rfl

/-- One pass of the platform loop keeps the property "grounded implies zero vertical
velocity". -/
theorem collideWith_grounded_velocity (player : Player) (platform : Platform)
    (h : player.isOnGround = true → player.velocity.y = 0)
    (hg : (PhysicsEngine.collideWith player platform).1.isOnGround = true) :
    (PhysicsEngine.collideWith player platform).1.velocity.y = 0 := by
  rcases collideWith_cases player platform with h0 | ⟨side, h0⟩
  · rw [h0] at hg ⊢
    exact h hg
  · rw [h0] at hg ⊢
    cases side
    · have hg2 : player.isOnGround = true := by
        simpa [PhysicsEngine.handlePlatformEffects, PhysicsEngine.resolveCollision] using hg
      simpa [PhysicsEngine.handlePlatformEffects, PhysicsEngine.resolveCollision] using h hg2
    · have hg2 : player.isOnGround = true := by
        simpa [PhysicsEngine.handlePlatformEffects, PhysicsEngine.resolveCollision] using hg
      simpa [PhysicsEngine.handlePlatformEffects, PhysicsEngine.resolveCollision] using h hg2
    · simp only [PhysicsEngine.handlePlatformEffects, PhysicsEngine.resolveCollision,
        if_true] at hg ⊢
      by_cases hb : platform.isJumpBoost = true
      · simp [hb] at hg
      · simp [hb]
    · simp [PhysicsEngine.handlePlatformEffects, PhysicsEngine.resolveCollision]

/-- The platform loop keeps the property "grounded implies zero vertical velocity". -/
theorem collideAll_grounded_velocity :
    ∀ (platforms : List Platform) (player : Player),
      (player.isOnGround = true → player.velocity.y = 0) →
      (PhysicsEngine.collideAll player platforms).1.isOnGround = true →
      (PhysicsEngine.collideAll player platforms).1.velocity.y = 0 := by
  intro platforms
  induction platforms with
  | nil => intro player h hg; exact h hg
  | cons platform rest ih =>
    intro player h hg
    simp only [PhysicsEngine.collideAll] at hg ⊢
    exact ih _ (collideWith_grounded_velocity player platform h) hg

/-- C30. Whenever `handleCollisions` invokes `handleLanding` (player not grounded on entry,
grounded after the platform loop), `velocity.y` of the player is exactly 0 at that point, for
every player state and platform list; so the branch `velocity.y > 10` of `handleLanding`,
which dereferences `player.game`, is never taken from `handleCollisions`: the hook returns the
player and `handleCollisions` always returns the result of the platform loop. -/
theorem landing_velocity_zero (player : Player) (platforms : List Platform) :
    (PhysicsEngine.landingInvoked player platforms = true →
      (PhysicsEngine.collideAll { player with isOnGround := false } platforms).1.velocity.y = 0 ∧
      PhysicsEngine.handleLanding
          (PhysicsEngine.collideAll { player with isOnGround := false } platforms).1 =
        some (PhysicsEngine.collideAll { player with isOnGround := false } platforms).1) ∧
    PhysicsEngine.handleCollisions player platforms =
      some (PhysicsEngine.collideAll { player with isOnGround := false } platforms) := by
  have key : PhysicsEngine.landingInvoked player platforms = true →
      (PhysicsEngine.collideAll { player with isOnGround := false } platforms).1.velocity.y = 0 ∧
      PhysicsEngine.handleLanding
          (PhysicsEngine.collideAll { player with isOnGround := false } platforms).1 =
        some (PhysicsEngine.collideAll { player with isOnGround := false } platforms).1 := by
    intro h
    have hg : (PhysicsEngine.collideAll { player with isOnGround := false }
        platforms).1.isOnGround = true := by
      simp only [PhysicsEngine.landingInvoked, Bool.and_eq_true] at h
      exact h.2
    have hv := collideAll_grounded_velocity platforms { player with isOnGround := false }
      (by intro hc; simp at hc) hg
    refine ⟨hv, ?_⟩
    simp [PhysicsEngine.handleLanding, hv]
  refine ⟨key, ?_⟩
  rw [handleCollisions_eq_landing]
  split_ifs with h
  · rw [(key h).2]
    rfl
  · rfl

/-- C30 witness: the airborne player at (0,325/3) that lands on the platform (-50,90,200,32)
with side `top`. -/
theorem landing_velocity_zero_witness :
    (PhysicsEngine.collideAll { Player.create 0 (325 / 3) with isOnGround := false }
        [Platform.create (-50) 90 200 32 PlatformType.normal]).1.velocity.y = 0 ∧
    PhysicsEngine.handleLanding
        (PhysicsEngine.collideAll { Player.create 0 (325 / 3) with isOnGround := false }
          [Platform.create (-50) 90 200 32 PlatformType.normal]).1 =
      some (PhysicsEngine.collideAll { Player.create 0 (325 / 3) with isOnGround := false }
        [Platform.create (-50) 90 200 32 PlatformType.normal]).1 :=
  (landing_velocity_zero (Player.create 0 (325 / 3))
    [Platform.create (-50) 90 200 32 PlatformType.normal]).1
    (by
      norm_num [PhysicsEngine.landingInvoked, PhysicsEngine.collideAll,
        PhysicsEngine.collideWith, PhysicsEngine.handlePlatformEffects,
        PhysicsEngine.resolveCollision, CollisionSystem.checkCollision,
        CollisionSystem.calculateOverlap, Player.create, Player.getCollisionRect,
        Platform.create, Platform.getCollisionRect, Platform.startBreaking,
        Constants.PLAYER_WIDTH, Constants.PLAYER_HEIGHT, Constants.PLAYER_SPEED,
        Constants.PLAYER_JUMP_FORCE, Constants.GRAVITY, Constants.MAX_FALL_SPEED,
        Constants.PLAYER_MAX_HEALTH, abs_eq_max_neg, max_def]
      try simp
      try norm_num [abs_eq_max_neg, max_def]
      try simp)
